import Mathlib

/-!
# fakemote: the fake Wiimote manager

A shallow embedding of `source/fake_wiimote_mgr.c`.

* C structs are Lean structures with the field names of the source; the enums
  declared in the source are inductive types.
* Unsigned machine integers are `Nat`; `u16` arithmetic that can wrap is
  reduced `% 65536` where the source stores it back into a `u16`.  Sums such as
  `address + size` are computed in `int` by the C promotion rules and cannot
  wrap, so they are plain `Nat` sums.
* Byte buffers are `List Nat`.
* A pointer `fake_wiimote_t *wiimote` into the global array `fake_wiimotes` is
  an index together with the current value of the pointee.
* Calls that leave the manager (HCI queue, L2CAP send primitives, driver
  callbacks) append an `Event` to a trace; what such a call returns is read from
  an `Env`, at the position of the call in the trace.
* A failed `assert` makes the embedded function return `none`.
-/

namespace Fakemote

/-! ## Declarations of the source -/

/-- The enum `baseband_state_e`. -/
inductive baseband_state_e where
  | BASEBAND_STATE_INACTIVE
  | BASEBAND_STATE_REQUEST_CONNECTION
  | BASEBAND_STATE_COMPLETE
  deriving DecidableEq, Repr

/-- The enum `acl_state_e`. -/
inductive acl_state_e where
  | ACL_STATE_INACTIVE
  | ACL_STATE_LINKING
  deriving DecidableEq, Repr

/-- The enum `l2cap_channel_state_e`. -/
inductive l2cap_channel_state_e where
  | L2CAP_CHANNEL_STATE_INACTIVE_INACTIVE
  | L2CAP_CHANNEL_STATE_INACTIVE_CONFIG_PEND
  | L2CAP_CHANNEL_STATE_INACTIVE_COMPLETE
  deriving DecidableEq, Repr

/-- The integer value of an enumerator of `l2cap_channel_state_e`. -/
def l2cap_channel_state_e.to_int : l2cap_channel_state_e → Nat
  | .L2CAP_CHANNEL_STATE_INACTIVE_INACTIVE => 0
  | .L2CAP_CHANNEL_STATE_INACTIVE_CONFIG_PEND => 1
  | .L2CAP_CHANNEL_STATE_INACTIVE_COMPLETE => 2

/-- The `acl_state_e` stored by assigning an integer to a field of that type
(`add_input_device` assigns a channel-state enumerator to `acl_state`). -/
def acl_state_e.of_int : Nat → acl_state_e
  | 0 => .ACL_STATE_INACTIVE
  | _ => .ACL_STATE_LINKING

/-- Modelled from the spec: `enum wiimote_mgr_ext_u` is declared in a header that
is not among the sources; the spec lists its values as None, Nunchuk, Classic,
ClassicWiiUPro, Guitar, MotionPlus, and the source names the enumerators. -/
inductive wiimote_mgr_ext_u where
  | WIIMOTE_MGR_EXT_NONE
  | WIIMOTE_MGR_EXT_NUNCHUK
  | WIIMOTE_MGR_EXT_CLASSIC
  | WIIMOTE_MGR_EXT_CLASSIC_WIIU_PRO
  | WIIMOTE_MGR_EXT_GUITAR
  | WIIMOTE_MGR_EXT_MOTION_PLUS
  deriving DecidableEq, Repr

/-- The struct `l2cap_channel_info_t`. -/
structure l2cap_channel_info_t where
  valid : Bool
  state : l2cap_channel_state_e
  psm : Nat
  local_cid : Nat
  remote_cid : Nat
  remote_mtu : Nat
  deriving DecidableEq, Repr

/-- The driver callback table `input_device_ops_t`, reduced to what the manager
looks at: whether the optional callbacks are non-null.  (`assigned` is called
without a null check.) -/
structure input_device_ops_t where
  has_disconnect : Bool
  has_set_leds : Bool
  deriving DecidableEq, Repr

/-- The anonymous struct `read_request` of `fake_wiimote_t`. -/
structure read_request_t where
  space : Nat
  slave_address : Nat
  address : Nat
  size : Nat
  deriving DecidableEq, Repr

/-- The struct `fake_wiimote_t`.  `bdaddr` is the six bytes of a `bdaddr_t`,
`extension_regs` the bytes of `struct wiimote_extension_registers_t`,
`extension_key` those of `struct wiimote_encryption_key_t`, `eeprom` those of
`union wiimote_usable_eeprom_data_t`; `usrdata` is the identity of the pointer. -/
structure fake_wiimote_t where
  active : Bool
  bdaddr : List Nat
  hci_con_handle : Nat
  baseband_state : baseband_state_e
  acl_state : acl_state_e
  psm_sdp_chn : l2cap_channel_info_t
  psm_hid_cntl_chn : l2cap_channel_info_t
  psm_hid_intr_chn : l2cap_channel_info_t
  usrdata : Nat
  input_device_ops : input_device_ops_t
  reporting_mode : Nat
  reporting_continuous : Bool
  buttons : Nat
  cur_extension : wiimote_mgr_ext_u
  new_extension : wiimote_mgr_ext_u
  extension_regs : List Nat
  extension_key : List Nat
  extension_key_dirty : Bool
  input_dirty : Bool
  eeprom : List Nat
  read_request : read_request_t
  deriving DecidableEq, Repr

/-! ## Declarations of headers that are not among the sources -/

/-- Modelled from the spec: `L2CAP_NULL_CID = 0x0000` (spec §6, Constants); the
macro itself is declared in `l2cap.h`, which is not among the sources. -/
def L2CAP_NULL_CID : Nat := 0

/-- Modelled from the spec: `sizeof(struct wiimote_extension_registers_t)`; the
struct is declared in `wiimote.h`, which is not among the sources, and the spec
(§4.2) fixes the register window at 256 bytes. -/
def EXTENSION_REGS_SIZE : Nat := 256

/-- The constants, struct offsets and pure helpers that the manager takes from
headers that are not among the sources (`wiimote.h`, `wiimote_crypto.h`,
`l2cap.h`, `hci.h`, `fake_wiimote_mgr.h`, `syscalls.h`).  They are parameters of
the embedding: every result below holds for whatever values the headers give
them, under the hypotheses it states. -/
structure Headers where
  /-- The macro `IOS_OK`. -/
  IOS_OK : Int
  /-- The size `sizeof(bdaddr_t)` -/
  SIZEOF_BDADDR : Nat
  /-- The macro `FAKE_WIIMOTE_BDADDR(i)`. -/
  FAKE_WIIMOTE_BDADDR : Nat → List Nat
  WIIMOTE_HCI_CLASS_0 : Nat
  WIIMOTE_HCI_CLASS_1 : Nat
  WIIMOTE_HCI_CLASS_2 : Nat
  HCI_LINK_ACL : Nat
  HCI_CMD_ACCEPT_CON : Nat
  HCI_ROLE_MASTER : Nat
  L2CAP_PSM_SDP : Nat
  L2CAP_PSM_HID_CNTL : Nat
  L2CAP_PSM_HID_INTR : Nat
  WII_REQUEST_MTU : Nat
  L2CAP_FLUSH_TIMO_DEFAULT : Nat
  L2CAP_MTU_DEFAULT : Nat
  L2CAP_SUCCESS : Nat
  L2CAP_PSM_NOT_SUPPORTED : Nat
  L2CAP_NO_INFO : Nat
  L2CAP_CONNECT_REQ : Nat
  L2CAP_CONNECT_RSP : Nat
  L2CAP_CONFIG_REQ : Nat
  L2CAP_CONFIG_RSP : Nat
  L2CAP_DISCONNECT_REQ : Nat
  L2CAP_OPT_MTU : Nat
  L2CAP_OPT_MTU_SIZE : Nat
  L2CAP_OPT_FLUSH_TIMO : Nat
  L2CAP_OPT_FLUSH_TIMO_SIZE : Nat
  HID_TYPE_DATA : Nat
  HID_PARAM_INPUT : Nat
  WIIMOTE_MAX_PAYLOAD : Nat
  CONTROLLER_DATA_BYTES : Nat
  INPUT_REPORT_ID_ACK : Nat
  INPUT_REPORT_ID_STATUS : Nat
  INPUT_REPORT_ID_READ_DATA_REPLY : Nat
  INPUT_REPORT_ID_BTN : Nat
  INPUT_REPORT_ID_REPORT_DISABLED : Nat
  OUTPUT_REPORT_ID_LED : Nat
  OUTPUT_REPORT_ID_REPORT_MODE : Nat
  OUTPUT_REPORT_ID_WRITE_DATA : Nat
  OUTPUT_REPORT_ID_READ_DATA : Nat
  ERROR_CODE_SUCCESS : Nat
  ERROR_CODE_BUSY : Nat
  ERROR_CODE_INVALID_SPACE : Nat
  ERROR_CODE_NACK : Nat
  ERROR_CODE_INVALID_ADDRESS : Nat
  ADDRESS_SPACE_EEPROM : Nat
  ADDRESS_SPACE_I2C_BUS : Nat
  ADDRESS_SPACE_I2C_BUS_ALT : Nat
  EEPROM_I2C_ADDR : Nat
  EXTENSION_I2C_ADDR : Nat
  EEPROM_FREE_SIZE : Nat
  ENCRYPTION_ENABLED : Nat
  ENCRYPTION_KEY_DATA_BEGIN : Nat
  ENCRYPTION_KEY_DATA_END : Nat
  /-- The offset `offsetof(struct wiimote_extension_registers_t, controller_data)` -/
  OFFSET_controller_data : Nat
  /-- The offset `offsetof(struct wiimote_extension_registers_t, encryption_key_data)` -/
  OFFSET_encryption_key_data : Nat
  /-- The `sizeof` of the field `encryption_key_data` -/
  SIZEOF_encryption_key_data : Nat
  /-- The offset `offsetof(struct wiimote_extension_registers_t, encryption)` -/
  OFFSET_encryption : Nat
  /-- The offset `offsetof(struct wiimote_extension_registers_t, identifier)` -/
  OFFSET_identifier : Nat
  /-- The size `sizeof(struct wiimote_encryption_key_t)` -/
  SIZEOF_extension_key : Nat
  EXT_ID_CODE_NUNCHUNK : List Nat
  EXP_ID_CODE_CLASSIC_CONTROLLER : List Nat
  EXP_ID_CODE_CLASSIC_WIIU_PRO : List Nat
  EXP_ID_CODE_GUITAR : List Nat
  EXP_ID_CODE_MOTION_PLUS : List Nat
  /-- The helper `input_report_has_btn`. -/
  input_report_has_btn : Nat → Bool
  /-- The helper `input_report_ext_size`. -/
  input_report_ext_size : Nat → Nat
  /-- The helper `input_report_ext_offset`. -/
  input_report_ext_offset : Nat → Nat
  /-- The function `wiimote_crypto_generate_key_from_extension_key_data`, as the pure
  function from the 16-byte seed to the key bytes -/
  wiimote_crypto_generate_key_from_extension_key_data : List Nat → List Nat
  /-- The function `wiimote_crypto_encrypt`, as the pure function from the buffer, the key,
  the address and the size to the encrypted buffer -/
  wiimote_crypto_encrypt : List Nat → List Nat → Nat → Nat → List Nat
  /-- The bytes of a `u16` in memory, in the byte order of the target. -/
  u16_bytes : Nat → List Nat

/-! ## Memory -/

/-- The `n` bytes of `src` from offset `off` on: what `memcpy(dst, src + off, n)`
stores into `dst`. -/
def memread (src : List Nat) (off n : Nat) : List Nat :=
  (List.range n).map (fun i => src.getD (off + i) 0)

/-- The buffer `dst` after `memcpy(dst + off, src, n)`. -/
def memwrite (dst : List Nat) (off : Nat) (src : List Nat) (n : Nat) : List Nat :=
  (List.range dst.length).map
    (fun a => if off ≤ a ∧ a < off + n then src.getD (a - off) 0 else dst.getD a 0)

/-! ## Extension registers -/

/-- The function `extension_read_data`.  Returns the result, the `size` bytes
stored to `dst` (none when the call fails) and the session afterwards. -/
def extension_read_data (H : Headers) (wiimote : fake_wiimote_t) (address size : Nat) :
    Bool × List Nat × fake_wiimote_t :=
  if address + size > EXTENSION_REGS_SIZE then
    (false, [], wiimote)
  else
    let dst := memread wiimote.extension_regs address size
    if wiimote.extension_regs.getD H.OFFSET_encryption 0 = H.ENCRYPTION_ENABLED then
      let wiimote1 :=
        if wiimote.extension_key_dirty then
          { wiimote with
            extension_key := H.wiimote_crypto_generate_key_from_extension_key_data
              (memread wiimote.extension_regs H.OFFSET_encryption_key_data
                H.SIZEOF_encryption_key_data)
            extension_key_dirty := false }
        else wiimote
      (true, H.wiimote_crypto_encrypt dst wiimote1.extension_key address size, wiimote1)
    else
      (true, dst, wiimote)

/-- The function `extension_write_data`.  Returns the result and the session
afterwards. -/
def extension_write_data (H : Headers) (wiimote : fake_wiimote_t) (src : List Nat)
    (address size : Nat) : Bool × fake_wiimote_t :=
  if address + size > EXTENSION_REGS_SIZE then
    (false, wiimote)
  else
    let wiimote1 :=
      if address + size > H.ENCRYPTION_KEY_DATA_BEGIN ∧ address < H.ENCRYPTION_KEY_DATA_END then
        { wiimote with extension_key_dirty := true }
      else wiimote
    (true, { wiimote1 with
      extension_regs := memwrite wiimote1.extension_regs address src size })

/-! ## The world outside the manager -/

/-- The payload handed to `send_hid_input_report`: one of the report structs of
`wiimote.h`, by the fields the manager fills in (every other field is zero), or
the raw bytes of a data report. -/
inductive hid_payload where
  /-- The struct `wiimote_input_report_ack_t`. -/
  | ack (buttons rpt_id error_code : Nat)
  /-- The struct `wiimote_input_report_status_t`. -/
  | status (buttons : Nat) (extension : Bool)
  /-- The struct `wiimote_input_report_read_data_t`. -/
  | read_data (buttons size_minus_one error address : Nat) (data : List Nat)
  /-- The first `size` bytes of a byte buffer. -/
  | raw (bytes : List Nat)
  deriving DecidableEq, Repr

/-- A call that leaves the manager, with its arguments. -/
inductive Event where
  | hci_request_connection (bdaddr : List Nat) (class0 class1 class2 link_type : Nat)
  | enqueue_hci_event_command_status (cmd : Nat)
  | enqueue_hci_event_role_change (bdaddr : List Nat) (role : Nat)
  | enqueue_hci_event_con_compl (bdaddr : List Nat) (hci_con_handle status : Nat)
  | enqueue_hci_event_discon_compl (hci_con_handle status reason : Nat)
  | hci_con_handle_virt_alloc
  | l2cap_send_connect_req (hci_con_handle psm scid : Nat)
  | l2cap_send_config_req (hci_con_handle remote_cid mtu flush_time_out : Nat)
  | l2cap_send_config_rsp (hci_con_handle remote_cid ident : Nat) (options : List Nat)
  | l2cap_send_disconnect_req (hci_con_handle dcid scid : Nat)
  | l2cap_send_disconnect_rsp (hci_con_handle ident dcid scid : Nat)
  /-- The call `l2cap_send_msg` of `send_hid_data`: the message is the byte
  `hid_type`, the byte `report_id` and the payload. -/
  | l2cap_send_msg (hci_con_handle dcid hid_type report_id : Nat) (data : hid_payload)
  /-- The driver callback `input_device_ops->assigned(usrdata, wiimote)`; the
  session pointer is its index in `fake_wiimotes`. -/
  | ops_assigned (usrdata wiimote : Nat)
  | ops_disconnect (usrdata : Nat)
  | ops_set_leds (usrdata leds : Nat)
  deriving DecidableEq, Repr

/-- What the calls that leave the manager return.  The `n`-th call of an
execution (counted from 0 over the whole trace) returns `ret n` when it returns
an `int`, `req n` when it is `hci_request_connection`, and `virt_alloc n` when it
is `hci_con_handle_virt_alloc`.  `uninit` is the content of uninitialised stack
memory. -/
structure Env where
  ret : Nat → Int
  req : Nat → Bool
  virt_alloc : Nat → Nat
  uninit : List Nat

/-- The state outside the session table: the static counter `starting_id` of
`generate_l2cap_channel_id` and the trace of calls made so far. -/
structure world_t where
  starting_id : Nat
  trace : List Event
  deriving DecidableEq, Repr

/-- A call of a primitive that returns an `int`. -/
def call_int (E : Env) (W : world_t) (e : Event) : Int × world_t :=
  (E.ret W.trace.length, { W with trace := W.trace ++ [e] })

/-- A call whose result the manager does not look at (driver callbacks). -/
def call_void (W : world_t) (e : Event) : world_t :=
  { W with trace := W.trace ++ [e] }

/-! ## Helper functions -/

/-- The function `fake_wiimote_is_connected`. -/
def fake_wiimote_is_connected (wiimote : fake_wiimote_t) : Bool :=
  wiimote.baseband_state == baseband_state_e.BASEBAND_STATE_COMPLETE

/-- The function `generate_l2cap_channel_id`: returns `starting_id++` on a
static `u16`. -/
def generate_l2cap_channel_id (W : world_t) : Nat × world_t :=
  (W.starting_id, { W with starting_id := (W.starting_id + 1) % 65536 })

/-- The function `l2cap_channel_is_accepted`. -/
def l2cap_channel_is_accepted (info : l2cap_channel_info_t) : Bool :=
  info.valid && (info.remote_cid != L2CAP_NULL_CID)

/-- The function `l2cap_channel_is_is_remote_configured`. -/
def l2cap_channel_is_is_remote_configured (info : l2cap_channel_info_t) : Bool :=
  info.valid && (info.remote_mtu != 0)

/-- The function `l2cap_channel_is_complete`. -/
def l2cap_channel_is_complete (info : l2cap_channel_info_t) : Bool :=
  info.valid &&
  l2cap_channel_is_accepted info &&
  l2cap_channel_is_is_remote_configured info &&
  (info.state == l2cap_channel_state_e.L2CAP_CHANNEL_STATE_INACTIVE_COMPLETE)

/-- The three channel records of a session, as `get_channel_info` names them. -/
inductive chn_sel where
  | psm_sdp_chn
  | psm_hid_cntl_chn
  | psm_hid_intr_chn
  deriving DecidableEq, Repr

/-- The channel record a selector points to. -/
def chn_sel.get (c : chn_sel) (dev : fake_wiimote_t) : l2cap_channel_info_t :=
  match c with
  | .psm_sdp_chn => dev.psm_sdp_chn
  | .psm_hid_cntl_chn => dev.psm_hid_cntl_chn
  | .psm_hid_intr_chn => dev.psm_hid_intr_chn

/-- The session after a store through the pointer a selector stands for. -/
def chn_sel.set (c : chn_sel) (dev : fake_wiimote_t) (info : l2cap_channel_info_t) :
    fake_wiimote_t :=
  match c with
  | .psm_sdp_chn => { dev with psm_sdp_chn := info }
  | .psm_hid_cntl_chn => { dev with psm_hid_cntl_chn := info }
  | .psm_hid_intr_chn => { dev with psm_hid_intr_chn := info }

/-- The function `get_channel_info`; `none` is the null pointer. -/
def get_channel_info (dev : fake_wiimote_t) (local_cid : Nat) : Option chn_sel :=
  if dev.psm_sdp_chn.valid && (local_cid == dev.psm_sdp_chn.local_cid) then
    some .psm_sdp_chn
  else if dev.psm_hid_cntl_chn.valid && (local_cid == dev.psm_hid_cntl_chn.local_cid) then
    some .psm_hid_cntl_chn
  else if dev.psm_hid_intr_chn.valid && (local_cid == dev.psm_hid_intr_chn.local_cid) then
    some .psm_hid_intr_chn
  else
    none

/-- The function `l2cap_channel_info_setup`. -/
def l2cap_channel_info_setup (info : l2cap_channel_info_t) (psm local_cid : Nat) :
    l2cap_channel_info_t :=
  { info with
    psm := psm
    state := l2cap_channel_state_e.L2CAP_CHANNEL_STATE_INACTIVE_INACTIVE
    local_cid := local_cid
    remote_cid := L2CAP_NULL_CID
    remote_mtu := 0
    valid := true }

/-! ## HID reports -/

/-- The `size` argument `send_hid_input_report` is called with.  For a report
struct it is the compile-time constant `sizeof` of the struct, which the
assertions of the send functions accept; for a data report it is the number of
bytes. -/
def hid_payload.fits (H : Headers) : hid_payload → Bool
  | .raw bytes => decide (bytes.length ≤ H.WIIMOTE_MAX_PAYLOAD - 2)
  | _ => true

/-- The functions `send_hid_input_report` and `send_hid_data`, which it calls
with `hid_type = (HID_TYPE_DATA << 4) | HID_PARAM_INPUT`.  Both assert that the
message fits `WIIMOTE_MAX_PAYLOAD` bytes. -/
def send_hid_input_report (H : Headers) (E : Env) (W : world_t)
    (hci_con_handle dcid report_id : Nat) (data : hid_payload) : Option (Int × world_t) :=
  if data.fits H then
    some (call_int E W (Event.l2cap_send_msg hci_con_handle dcid
      (((H.HID_TYPE_DATA <<< 4) ||| H.HID_PARAM_INPUT) % 256) report_id data))
  else
    none

/-- The function `wiimote_send_ack`. -/
def wiimote_send_ack (H : Headers) (E : Env) (W : world_t) (wiimote : fake_wiimote_t)
    (rpt_id error_code : Nat) : Option (Int × world_t) :=
  send_hid_input_report H E W wiimote.hci_con_handle wiimote.psm_hid_intr_chn.remote_cid
    H.INPUT_REPORT_ID_ACK (hid_payload.ack wiimote.buttons rpt_id error_code)

/-- The function `wiimote_send_input_report_status`.  `fake_wiimotes` is the
global array at the time of the call (the pointee of `wiimote` included): the
source reads the extension flag from `fake_wiimotes->cur_extension`, the first
element of the array. -/
def wiimote_send_input_report_status (H : Headers) (E : Env) (W : world_t)
    (fake_wiimotes : List fake_wiimote_t) (wiimote : fake_wiimote_t) :
    Option (Int × world_t) :=
  send_hid_input_report H E W wiimote.hci_con_handle wiimote.psm_hid_intr_chn.remote_cid
    H.INPUT_REPORT_ID_STATUS
    (hid_payload.status wiimote.buttons
      ((fake_wiimotes.head?.map (fun w => w.cur_extension)) !=
        some wiimote_mgr_ext_u.WIIMOTE_MGR_EXT_NONE))

/-! ## Disconnection -/

/-- The function `disconnect_l2cap_channel`. -/
def disconnect_l2cap_channel (E : Env) (W : world_t) (hci_con_handle : Nat)
    (info : l2cap_channel_info_t) : Int × l2cap_channel_info_t × world_t :=
  let r := call_int E W (Event.l2cap_send_disconnect_req hci_con_handle info.remote_cid
    info.local_cid)
  (r.1, { info with valid := false }, r.2)

/-- One of the three blocks of `fake_wiimote_disconnect` that disconnect a
channel: the state carried along is `ret`, the session and the world. -/
def disconnect_chn_step (E : Env) (c : chn_sel) (st : Int × fake_wiimote_t × world_t) :
    Int × fake_wiimote_t × world_t :=
  if l2cap_channel_is_accepted (c.get st.2.1) then
    let r := disconnect_l2cap_channel E st.2.2 st.2.1.hci_con_handle (c.get st.2.1)
    (if r.1 < 0 ∧ st.1 = 0 then r.1 else st.1, c.set st.2.1 r.2.1, r.2.2)
  else
    st

/-- The function `fake_wiimote_disconnect`.  Returns `ret`, the session and the
world afterwards. -/
def fake_wiimote_disconnect (E : Env) (W : world_t) (wiimote : fake_wiimote_t) :
    Int × fake_wiimote_t × world_t :=
  let W1 :=
    if l2cap_channel_is_complete wiimote.psm_hid_intr_chn then
      if wiimote.input_device_ops.has_disconnect then
        call_void W (Event.ops_disconnect wiimote.usrdata)
      else W
    else W
  let st1 := disconnect_chn_step E chn_sel.psm_sdp_chn (0, wiimote, W1)
  let st2 := disconnect_chn_step E chn_sel.psm_hid_cntl_chn st1
  let st3 := disconnect_chn_step E chn_sel.psm_hid_intr_chn st2
  let st4 : Int × fake_wiimote_t × world_t :=
    if st3.2.1.baseband_state = baseband_state_e.BASEBAND_STATE_COMPLETE then
      let r := call_int E st3.2.2
        (Event.enqueue_hci_event_discon_compl st3.2.1.hci_con_handle 0 0x13)
      (if r.1 < 0 ∧ st3.1 = 0 then r.1 else st3.1, st3.2.1, r.2)
    else st3
  (st4.1, { st4.2.1 with active := false }, st4.2.2)

/-! ## Init state -/

/-- The function `fake_wiimote_mgr_init`, on the global array `fake_wiimotes`
(a list of `MAX_FAKE_WIIMOTES` sessions). -/
def fake_wiimote_mgr_init (H : Headers) (fake_wiimotes : List fake_wiimote_t) :
    List fake_wiimote_t :=
  fake_wiimotes.mapIdx (fun i w => { w with active := false, bdaddr := H.FAKE_WIIMOTE_BDADDR i })

/-- The body of the loop of `fake_wiimote_mgr_add_input_device` for an inactive
session: the assignments to `fake_wiimotes[i]`. -/
def add_input_device_assign (H : Headers) (usrdata : Nat) (ops : input_device_ops_t)
    (w : fake_wiimote_t) : fake_wiimote_t :=
  { w with
    baseband_state := baseband_state_e.BASEBAND_STATE_REQUEST_CONNECTION
    acl_state := acl_state_e.of_int
      l2cap_channel_state_e.L2CAP_CHANNEL_STATE_INACTIVE_INACTIVE.to_int
    psm_sdp_chn := { w.psm_sdp_chn with valid := false }
    psm_hid_cntl_chn := { w.psm_hid_cntl_chn with valid := false }
    psm_hid_intr_chn := { w.psm_hid_intr_chn with valid := false }
    usrdata := usrdata
    input_device_ops := ops
    buttons := 0
    cur_extension := wiimote_mgr_ext_u.WIIMOTE_MGR_EXT_NONE
    new_extension := wiimote_mgr_ext_u.WIIMOTE_MGR_EXT_NONE
    extension_regs := List.replicate EXTENSION_REGS_SIZE 0
    extension_key := List.replicate H.SIZEOF_extension_key 0
    extension_key_dirty := true
    input_dirty := false
    read_request := { w.read_request with size := 0 }
    reporting_mode := H.INPUT_REPORT_ID_BTN
    reporting_continuous := false
    active := true }

/-- The function `fake_wiimote_mgr_add_input_device`: the loop over the global
array, from index 0 on.  Returns the result and the array afterwards. -/
def fake_wiimote_mgr_add_input_device (H : Headers) (usrdata : Nat)
    (ops : input_device_ops_t) : List fake_wiimote_t → Bool × List fake_wiimote_t
  | [] => (false, [])
  | w :: rest =>
    if w.active then
      let r := fake_wiimote_mgr_add_input_device H usrdata ops rest
      (r.1, w :: r.2)
    else
      (true, add_input_device_assign H usrdata ops w :: rest)

/-- The function `fake_wiimote_mgr_remove_input_device`. -/
def fake_wiimote_mgr_remove_input_device (H : Headers) (E : Env) (W : world_t)
    (wiimote : fake_wiimote_t) : Bool × fake_wiimote_t × world_t :=
  let r := fake_wiimote_disconnect E W wiimote
  (decide (r.1 = H.IOS_OK), r.2)

/-- The function `fake_wiimote_mgr_set_extension`. -/
def fake_wiimote_mgr_set_extension (wiimote : fake_wiimote_t) (ext : wiimote_mgr_ext_u) :
    fake_wiimote_t :=
  { wiimote with new_extension := ext }

/-- The function `fake_wiimote_mgr_report_input`. -/
def fake_wiimote_mgr_report_input (wiimote : fake_wiimote_t) (buttons : Nat) :
    fake_wiimote_t :=
  if (wiimote.buttons ^^^ buttons) ≠ 0 then
    { wiimote with buttons := buttons, input_dirty := true }
  else
    wiimote

/-- The function `check_send_config_for_new_channel`. -/
def check_send_config_for_new_channel (H : Headers) (E : Env) (W : world_t)
    (hci_con_handle : Nat) (info : l2cap_channel_info_t) : l2cap_channel_info_t × world_t :=
  if l2cap_channel_is_accepted info ∧
      info.state = l2cap_channel_state_e.L2CAP_CHANNEL_STATE_INACTIVE_INACTIVE then
    let r := call_int E W (Event.l2cap_send_config_req hci_con_handle info.remote_cid
      H.WII_REQUEST_MTU H.L2CAP_FLUSH_TIMO_DEFAULT)
    if r.1 = H.IOS_OK then
      ({ info with state := l2cap_channel_state_e.L2CAP_CHANNEL_STATE_INACTIVE_CONFIG_PEND },
        r.2)
    else
      (info, r.2)
  else
    (info, W)

/-! ## Memory requests, extension changes, data reports -/

/-- The `switch` of `fake_wiimote_process_read_request`: the error code, the 16
bytes of `reply.data` (zeroed by the `memset`, then filled by the read) and the
session after the read. -/
def read_request_switch (H : Headers) (wiimote : fake_wiimote_t) (address read_size : Nat) :
    Nat × List Nat × fake_wiimote_t :=
  let data0 := List.replicate 16 0
  if wiimote.read_request.space = H.ADDRESS_SPACE_EEPROM then
    if address + wiimote.read_request.size > H.EEPROM_FREE_SIZE then
      (H.ERROR_CODE_INVALID_ADDRESS, data0, wiimote)
    else
      (H.ERROR_CODE_SUCCESS,
        memwrite data0 0 (memread wiimote.eeprom address read_size) read_size, wiimote)
  else if wiimote.read_request.space = H.ADDRESS_SPACE_I2C_BUS ∨
      wiimote.read_request.space = H.ADDRESS_SPACE_I2C_BUS_ALT then
    if wiimote.read_request.slave_address = H.EEPROM_I2C_ADDR then
      (H.ERROR_CODE_INVALID_ADDRESS, data0, wiimote)
    else if wiimote.read_request.slave_address = H.EXTENSION_I2C_ADDR then
      let r := extension_read_data H wiimote address read_size
      if r.1 then
        (H.ERROR_CODE_SUCCESS, memwrite data0 0 r.2.1 read_size, r.2.2)
      else
        (H.ERROR_CODE_NACK, data0, r.2.2)
    else
      (H.ERROR_CODE_SUCCESS, data0, wiimote)
  else
    (H.ERROR_CODE_INVALID_SPACE, data0, wiimote)

/-- The `if (error != ERROR_CODE_SUCCESS)` of `fake_wiimote_process_read_request`:
the value of `read_size` and the session afterwards. -/
def read_request_advance (H : Headers) (error read_size : Nat) (wiimote : fake_wiimote_t) :
    Nat × fake_wiimote_t :=
  if error ≠ H.ERROR_CODE_SUCCESS then
    (16, { wiimote with read_request := { wiimote.read_request with size := 0 } })
  else
    (read_size, { wiimote with read_request := { wiimote.read_request with
      address := (wiimote.read_request.address + read_size) % 65536
      size := wiimote.read_request.size - read_size } })

/-- The function `fake_wiimote_process_read_request`.  Returns the result, the
session and the world afterwards. -/
def fake_wiimote_process_read_request (H : Headers) (E : Env) (W : world_t)
    (wiimote : fake_wiimote_t) : Option (Bool × fake_wiimote_t × world_t) :=
  let read_size := min 16 wiimote.read_request.size
  if read_size = 0 then
    some (false, wiimote, W)
  else
    let address := wiimote.read_request.address
    let sw := read_request_switch H wiimote address read_size
    let upd := read_request_advance H sw.1 read_size sw.2.2
    match send_hid_input_report H E W upd.2.hci_con_handle upd.2.psm_hid_intr_chn.remote_cid
        H.INPUT_REPORT_ID_READ_DATA_REPLY
        (hid_payload.read_data upd.2.buttons (upd.1 - 1) sw.1 address sw.2.1) with
    | none => none
    | some r => some (true, upd.2, r.2)

/-- The `switch` of `fake_wiimote_process_extension_change`: the identifier code
of an extension, `none` for the null pointer. -/
def extension_id_code (H : Headers) : wiimote_mgr_ext_u → Option (List Nat)
  | .WIIMOTE_MGR_EXT_NUNCHUK => some H.EXT_ID_CODE_NUNCHUNK
  | .WIIMOTE_MGR_EXT_CLASSIC => some H.EXP_ID_CODE_CLASSIC_CONTROLLER
  | .WIIMOTE_MGR_EXT_CLASSIC_WIIU_PRO => some H.EXP_ID_CODE_CLASSIC_WIIU_PRO
  | .WIIMOTE_MGR_EXT_GUITAR => some H.EXP_ID_CODE_GUITAR
  | .WIIMOTE_MGR_EXT_MOTION_PLUS => some H.EXP_ID_CODE_MOTION_PLUS
  | .WIIMOTE_MGR_EXT_NONE => none

/-- The function `fake_wiimote_process_extension_change`, for the session
`wiimote = &fake_wiimotes[i]`. -/
def fake_wiimote_process_extension_change (H : Headers) (E : Env) (W : world_t)
    (fake_wiimotes : List fake_wiimote_t) (i : Nat) (wiimote : fake_wiimote_t) :
    Option (Bool × fake_wiimote_t × world_t) :=
  if wiimote.new_extension = wiimote.cur_extension then
    some (false, wiimote, W)
  else
    let wiimote1 :=
      match extension_id_code H wiimote.new_extension with
      | some id_code =>
        { wiimote with
          extension_regs := memwrite wiimote.extension_regs H.OFFSET_identifier id_code 6 }
      | none => wiimote
    let wiimote2 := { wiimote1 with
      cur_extension := wiimote1.new_extension
      reporting_mode := H.INPUT_REPORT_ID_REPORT_DISABLED }
    match wiimote_send_input_report_status H E W (fake_wiimotes.set i wiimote2) wiimote2 with
    | none => none
    | some r => some (true, wiimote2, r.2)

/-- The part of `fake_wiimote_send_data_report` that fills `report_data`: the
buffer starts as uninitialised stack memory of `CONTROLLER_DATA_BYTES` bytes,
gets the two bytes of `buttons` when the mode has buttons, and the extension
bytes read by `extension_read_data(wiimote, report_data + ext_offset, 0,
ext_size)` when `ext_size` is not 0.  Returns the buffer and the session after
the read. -/
def data_report_fill (H : Headers) (E : Env) (wiimote : fake_wiimote_t) :
    List Nat × fake_wiimote_t :=
  let has_btn := H.input_report_has_btn wiimote.reporting_mode
  let ext_size := H.input_report_ext_size wiimote.reporting_mode % 256
  let ext_offset := H.input_report_ext_offset wiimote.reporting_mode % 256
  let report_data0 := memread E.uninit 0 H.CONTROLLER_DATA_BYTES
  let report_data1 :=
    if has_btn then memwrite report_data0 0 (H.u16_bytes wiimote.buttons) 2
    else report_data0
  if ext_size ≠ 0 then
    let r := extension_read_data H wiimote 0 ext_size
    (if r.1 then memwrite report_data1 ext_offset r.2.1 ext_size else report_data1, r.2.2)
  else
    (report_data1, wiimote)

/-- The function `fake_wiimote_send_data_report`. -/
def fake_wiimote_send_data_report (H : Headers) (E : Env) (W : world_t)
    (wiimote : fake_wiimote_t) : Option (fake_wiimote_t × world_t) :=
  if wiimote.reporting_mode = H.INPUT_REPORT_ID_REPORT_DISABLED then
    some (wiimote, W)
  else if wiimote.reporting_continuous ∨ wiimote.input_dirty then
    let has_btn := H.input_report_has_btn wiimote.reporting_mode
    let ext_size := H.input_report_ext_size wiimote.reporting_mode % 256
    let report_size := ((if has_btn then 2 else 0) + ext_size) % 256
    let rd := data_report_fill H E wiimote
    match send_hid_input_report H E W rd.2.hci_con_handle rd.2.psm_hid_intr_chn.remote_cid
        rd.2.reporting_mode (hid_payload.raw (memread rd.1 0 report_size)) with
    | none => none
    | some r => some ({ rd.2 with input_dirty := false }, r.2)
  else
    some (wiimote, W)

/-! ## Tick -/

/-- The if-else-if cascade of the linking branch of `fake_wiimote_tick`; `none`
when the assertion `ret == IOS_OK` after a connect-req fails. -/
def tick_linking_cascade (H : Headers) (E : Env) (W : world_t) (i : Nat)
    (wiimote : fake_wiimote_t) : Option (fake_wiimote_t × world_t) :=
  if !wiimote.psm_hid_cntl_chn.valid then
    let g := generate_l2cap_channel_id W
    let r := call_int E g.2
      (Event.l2cap_send_connect_req wiimote.hci_con_handle H.L2CAP_PSM_HID_CNTL g.1)
    if r.1 = H.IOS_OK then
      some ({ wiimote with psm_hid_cntl_chn :=
        l2cap_channel_info_setup wiimote.psm_hid_cntl_chn H.L2CAP_PSM_HID_CNTL g.1 }, r.2)
    else none
  else if !wiimote.psm_hid_intr_chn.valid then
    let g := generate_l2cap_channel_id W
    let r := call_int E g.2
      (Event.l2cap_send_connect_req wiimote.hci_con_handle H.L2CAP_PSM_HID_INTR g.1)
    if r.1 = H.IOS_OK then
      some ({ wiimote with psm_hid_intr_chn :=
        l2cap_channel_info_setup wiimote.psm_hid_intr_chn H.L2CAP_PSM_HID_INTR g.1 }, r.2)
    else none
  else if l2cap_channel_is_complete wiimote.psm_hid_cntl_chn &&
      l2cap_channel_is_complete wiimote.psm_hid_intr_chn then
    some ({ wiimote with acl_state := acl_state_e.ACL_STATE_INACTIVE },
      call_void W (Event.ops_assigned wiimote.usrdata i))
  else
    some (wiimote, W)

/-- The two calls of `check_send_config_for_new_channel` that end the linking
branch of `fake_wiimote_tick`. -/
def tick_send_configs (H : Headers) (E : Env) (W : world_t) (wiimote : fake_wiimote_t) :
    fake_wiimote_t × world_t :=
  let c1 := check_send_config_for_new_channel H E W wiimote.hci_con_handle
    wiimote.psm_hid_cntl_chn
  let wiimote1 := { wiimote with psm_hid_cntl_chn := c1.1 }
  let c2 := check_send_config_for_new_channel H E c1.2 wiimote1.hci_con_handle
    wiimote1.psm_hid_intr_chn
  ({ wiimote1 with psm_hid_intr_chn := c2.1 }, c2.2)

/-- The function `fake_wiimote_tick`, for the session
`wiimote = &fake_wiimotes[i]`. -/
def fake_wiimote_tick (H : Headers) (E : Env) (W : world_t)
    (fake_wiimotes : List fake_wiimote_t) (i : Nat) (wiimote : fake_wiimote_t) :
    Option (fake_wiimote_t × world_t) :=
  if wiimote.baseband_state = baseband_state_e.BASEBAND_STATE_REQUEST_CONNECTION then
    let req := E.req W.trace.length
    let W1 := call_void W (Event.hci_request_connection wiimote.bdaddr H.WIIMOTE_HCI_CLASS_0
      H.WIIMOTE_HCI_CLASS_1 H.WIIMOTE_HCI_CLASS_2 H.HCI_LINK_ACL)
    if req then
      some ({ wiimote with baseband_state := baseband_state_e.BASEBAND_STATE_INACTIVE }, W1)
    else
      some (wiimote, W1)
  else if wiimote.baseband_state = baseband_state_e.BASEBAND_STATE_COMPLETE then
    if wiimote.acl_state = acl_state_e.ACL_STATE_LINKING then
      match tick_linking_cascade H E W i wiimote with
      | none => none
      | some (wiimote1, W1) => some (tick_send_configs H E W1 wiimote1)
    else
      match fake_wiimote_process_read_request H E W wiimote with
      | none => none
      | some (true, wiimote1, W1) => some (wiimote1, W1)
      | some (false, wiimote1, W1) =>
        match fake_wiimote_process_extension_change H E W1 fake_wiimotes i wiimote1 with
        | none => none
        | some (true, wiimote2, W2) => some (wiimote2, W2)
        | some (false, wiimote2, W2) => fake_wiimote_send_data_report H E W2 wiimote2
  else
    some (wiimote, W)

/-- The function `fake_wiimote_mgr_tick_devices`, from index `i` on: `todo` is
the part of the array not yet visited, `fake_wiimotes` the whole array. -/
def tick_devices_from (H : Headers) (E : Env) :
    List fake_wiimote_t → Nat → List fake_wiimote_t → world_t →
    Option (List fake_wiimote_t × world_t)
  | [], _, fake_wiimotes, W => some (fake_wiimotes, W)
  | w :: todo, i, fake_wiimotes, W =>
    if w.active then
      match fake_wiimote_tick H E W fake_wiimotes i w with
      | none => none
      | some (w1, W1) => tick_devices_from H E todo (i + 1) (fake_wiimotes.set i w1) W1
    else
      tick_devices_from H E todo (i + 1) fake_wiimotes W

/-- The function `fake_wiimote_mgr_tick_devices`. -/
def fake_wiimote_mgr_tick_devices (H : Headers) (E : Env) (W : world_t)
    (fake_wiimotes : List fake_wiimote_t) : Option (List fake_wiimote_t × world_t) :=
  tick_devices_from H E fake_wiimotes 0 fake_wiimotes W

/-! ## Functions called by the HCI state manager -/

/-- The library function `memcmp` on the first `n` bytes of two buffers. -/
def memcmp (a b : List Nat) : Nat → Int
  | 0 => 0
  | n + 1 =>
    if a.headD 0 = b.headD 0 then memcmp a.tail b.tail n
    else (a.headD 0 : Int) - (b.headD 0 : Int)

/-- The test `memcmp(bdaddr, &fake_wiimotes[i].bdaddr, sizeof(bdaddr_t) != 0)` of
the accept and reject handlers: the third argument of `memcmp` is the value of
the comparison `sizeof(bdaddr_t) != 0`. -/
def bdaddr_memcmp (H : Headers) (bdaddr : List Nat) (wiimote : fake_wiimote_t) : Int :=
  memcmp bdaddr wiimote.bdaddr (if H.SIZEOF_BDADDR ≠ 0 then 1 else 0)

/-- The body of the loop of `fake_wiimote_mgr_handle_hci_cmd_accept_con` for a
session that passed the address test. -/
def accept_con_body (H : Headers) (E : Env) (W : world_t) (bdaddr : List Nat) (role : Nat)
    (w : fake_wiimote_t) : Option (fake_wiimote_t × world_t) :=
  let r1 := call_int E W (Event.enqueue_hci_event_command_status H.HCI_CMD_ACCEPT_CON)
  if r1.1 ≠ H.IOS_OK then none
  else
    let h := E.virt_alloc r1.2.trace.length
    let W2 := call_void r1.2 Event.hci_con_handle_virt_alloc
    let w1 := { w with
      baseband_state := baseband_state_e.BASEBAND_STATE_COMPLETE
      hci_con_handle := h
      acl_state := acl_state_e.ACL_STATE_LINKING }
    let r3 : Option world_t :=
      if role = H.HCI_ROLE_MASTER then
        let r := call_int E W2 (Event.enqueue_hci_event_role_change bdaddr H.HCI_ROLE_MASTER)
        if r.1 ≠ H.IOS_OK then none else some r.2
      else some W2
    match r3 with
    | none => none
    | some W3 =>
      let r4 := call_int E W3 (Event.enqueue_hci_event_con_compl bdaddr w1.hci_con_handle 0)
      if r4.1 ≠ H.IOS_OK then none else some (w1, r4.2)

/-- The function `fake_wiimote_mgr_handle_hci_cmd_accept_con`: the loop over the
global array, from index 0 on. -/
def fake_wiimote_mgr_handle_hci_cmd_accept_con (H : Headers) (E : Env) (W : world_t)
    (bdaddr : List Nat) (role : Nat) :
    List fake_wiimote_t → Option (Bool × List fake_wiimote_t × world_t)
  | [] => some (false, [], W)
  | w :: rest =>
    if bdaddr_memcmp H bdaddr w ≠ 0 then
      match fake_wiimote_mgr_handle_hci_cmd_accept_con H E W bdaddr role rest with
      | none => none
      | some r => some (r.1, w :: r.2.1, r.2.2)
    else
      match accept_con_body H E W bdaddr role w with
      | none => none
      | some r => some (true, r.1 :: rest, r.2)

/-- The function `fake_wiimote_mgr_handle_hci_cmd_disconnect`. -/
def fake_wiimote_mgr_handle_hci_cmd_disconnect (E : Env) (W : world_t)
    (hci_con_handle : Nat) (reason : Nat) :
    List fake_wiimote_t → Bool × List fake_wiimote_t × world_t
  | [] => (false, [], W)
  | w :: rest =>
    if !fake_wiimote_is_connected w || (w.hci_con_handle != hci_con_handle) then
      let r := fake_wiimote_mgr_handle_hci_cmd_disconnect E W hci_con_handle reason rest
      (r.1, w :: r.2.1, r.2.2)
    else
      let r := fake_wiimote_disconnect E W w
      (true, r.2.1 :: rest, r.2.2)

/-- The function `fake_wiimote_mgr_handle_hci_cmd_reject_con`. -/
def fake_wiimote_mgr_handle_hci_cmd_reject_con (H : Headers) (E : Env) (W : world_t)
    (bdaddr : List Nat) (reason : Nat) :
    List fake_wiimote_t → Bool × List fake_wiimote_t × world_t
  | [] => (false, [], W)
  | w :: rest =>
    if bdaddr_memcmp H bdaddr w ≠ 0 then
      let r := fake_wiimote_mgr_handle_hci_cmd_reject_con H E W bdaddr reason rest
      (r.1, w :: r.2.1, r.2.2)
    else
      let r := fake_wiimote_disconnect E W w
      (true, r.2.1 :: rest, r.2.2)

/-- The function `fake_wiimote_mgr_hci_handle_belongs_to_fake_wiimote`. -/
def fake_wiimote_mgr_hci_handle_belongs_to_fake_wiimote (hci_con_handle : Nat) :
    List fake_wiimote_t → Bool
  | [] => false
  | w :: rest =>
    if fake_wiimote_is_connected w && (w.hci_con_handle == hci_con_handle) then true
    else fake_wiimote_mgr_hci_handle_belongs_to_fake_wiimote hci_con_handle rest

/-! ## L2CAP signalling -/

/-- The value `le16toh` reads from two bytes of a buffer. -/
def le16_at (buf : List Nat) (off : Nat) : Nat :=
  buf.getD off 0 + 256 * buf.getD (off + 1) 0

/-- The two bytes `htole16` stores for a `u16`. -/
def htole16_bytes (v : Nat) : List Nat :=
  [v % 256, v / 256 % 256]

/-- The `while` loop of `handle_l2cap_config_req`.  The state is `offset`,
`resp_len`, `remote_mtu` and the buffer `tmp`; an option header
(`l2cap_cfg_opt_t`) is the byte `type` and the byte `length`.  Every turn adds at
least 2 to `offset`, so `options_size` turns of fuel are never used up. -/
def config_req_loop (H : Headers) (options : List Nat) (options_size : Nat) :
    Nat → Nat → Nat → Nat → List Nat → Option (Nat × Nat × List Nat)
  | 0, _, resp_len, remote_mtu, tmp => some (resp_len, remote_mtu, tmp)
  | fuel + 1, offset, resp_len, remote_mtu, tmp =>
    if offset < options_size then
      let opt_type := options.getD offset 0
      let opt_length := options.getD (offset + 1) 0
      let offset1 := offset + 2
      let sw : Option Nat :=
        if opt_type = H.L2CAP_OPT_MTU then
          if opt_length = H.L2CAP_OPT_MTU_SIZE then some (le16_at options offset1) else none
        else if opt_type = H.L2CAP_OPT_FLUSH_TIMO then
          if opt_length = H.L2CAP_OPT_FLUSH_TIMO_SIZE then some remote_mtu else none
        else some remote_mtu
      match sw with
      | none => none
      | some remote_mtu1 =>
        let opt_size := 2 + opt_length
        config_req_loop H options options_size fuel (offset1 + opt_length)
          (resp_len + opt_size) remote_mtu1 (memwrite tmp resp_len options opt_size)
    else
      some (resp_len, remote_mtu, tmp)

/-- The function `handle_l2cap_config_req`.  The response header
`l2cap_cfg_rsp_cp` is the three `u16` fields `scid`, `flags`, `result`; `tmp`
starts as 256 bytes of uninitialised stack memory. -/
def handle_l2cap_config_req (H : Headers) (E : Env) (W : world_t) (wiimote : fake_wiimote_t)
    (ident dcid flags : Nat) (options : List Nat) (options_size : Nat) :
    Option (fake_wiimote_t × world_t) :=
  if flags ≠ 0 then none
  else if options_size > 256 then none
  else
    match get_channel_info wiimote dcid with
    | none => none
    | some info =>
      let tmp0 := memread E.uninit 0 256
      let tmp1 := memwrite tmp0 0
        (htole16_bytes (info.get wiimote).remote_cid ++ htole16_bytes 0 ++
          htole16_bytes H.L2CAP_SUCCESS) 6
      match config_req_loop H options options_size options_size 0 6 H.L2CAP_MTU_DEFAULT tmp1 with
      | none => none
      | some (resp_len, remote_mtu, tmp) =>
        let W1 := (call_int E W (Event.l2cap_send_config_rsp wiimote.hci_con_handle dcid ident
          (memread tmp 0 resp_len))).2
        some (info.set wiimote { info.get wiimote with remote_mtu := remote_mtu }, W1)

/-- A signalling command as `handle_l2cap_signal_channel` reads it: the `code`
it switches on and the fields it takes from the payload with `le16toh`.  For
`config_req`, `options` is the rest of the payload and `options_size` the value
`size - sizeof(l2cap_cfg_req_cp)`. -/
inductive l2cap_cmd where
  | connect_req (psm scid : Nat)
  | connect_rsp (dcid scid result status : Nat)
  | config_req (dcid flags : Nat) (options : List Nat) (options_size : Nat)
  | config_rsp (scid flags result : Nat)
  | disconnect_req (dcid scid : Nat)
  | other (code : Nat)
  deriving DecidableEq, Repr

/-- The function `handle_l2cap_signal_channel`. -/
def handle_l2cap_signal_channel (H : Headers) (E : Env) (W : world_t)
    (wiimote : fake_wiimote_t) (ident : Nat) : l2cap_cmd → Option (fake_wiimote_t × world_t)
  | .connect_req _ _ => some (wiimote, W)
  | .connect_rsp dcid scid result status =>
    if result ≠ H.L2CAP_SUCCESS ∨ (dcid = H.L2CAP_PSM_NOT_SUPPORTED ∧ scid = 0) then
      let r := fake_wiimote_disconnect E W wiimote
      some (r.2.1, r.2.2)
    else if status ≠ H.L2CAP_NO_INFO then none
    else
      match get_channel_info wiimote scid with
      | none => none
      | some info => some (info.set wiimote { info.get wiimote with remote_cid := dcid }, W)
  | .config_req dcid flags options options_size =>
    handle_l2cap_config_req H E W wiimote ident dcid flags options options_size
  | .config_rsp scid _ result =>
    if result ≠ H.L2CAP_SUCCESS then none
    else
      match get_channel_info wiimote scid with
      | none => none
      | some info =>
        some (info.set wiimote { info.get wiimote with
          state := l2cap_channel_state_e.L2CAP_CHANNEL_STATE_INACTIVE_COMPLETE }, W)
  | .disconnect_req dcid scid =>
    match get_channel_info wiimote scid with
    | none => none
    | some info =>
      let st : fake_wiimote_t × world_t :=
        if (info.get wiimote).psm = H.L2CAP_PSM_HID_INTR ∧
            l2cap_channel_is_complete (info.get wiimote) then
          (info.set wiimote { info.get wiimote with valid := false },
            if wiimote.input_device_ops.has_disconnect then
              call_void W (Event.ops_disconnect wiimote.usrdata)
            else W)
        else (wiimote, W)
      some (st.1, (call_int E st.2
        (Event.l2cap_send_disconnect_rsp st.1.hci_con_handle ident dcid scid)).2)
  | .other _ => some (wiimote, W)

/-! ## Output reports -/

/-- The struct `wiimote_output_report_write_data_t`, by the fields the manager
reads. -/
structure write_data_t where
  space : Nat
  slave_address : Nat
  address : Nat
  size : Nat
  data : List Nat
  deriving DecidableEq, Repr

/-- The `switch` of `fake_wiimote_process_write_request`: the error code and the
session after the write. -/
def write_request_switch (H : Headers) (wiimote : fake_wiimote_t) (write : write_data_t) :
    Nat × fake_wiimote_t :=
  if write.space = H.ADDRESS_SPACE_EEPROM then
    if write.address + write.size > H.EEPROM_FREE_SIZE then
      (H.ERROR_CODE_INVALID_ADDRESS, wiimote)
    else
      (H.ERROR_CODE_SUCCESS, { wiimote with
        eeprom := memwrite wiimote.eeprom write.address write.data write.size })
  else if write.space = H.ADDRESS_SPACE_I2C_BUS ∨
      write.space = H.ADDRESS_SPACE_I2C_BUS_ALT then
    if write.slave_address = H.EEPROM_I2C_ADDR then
      (H.ERROR_CODE_INVALID_ADDRESS, wiimote)
    else if write.slave_address = H.EXTENSION_I2C_ADDR then
      let r := extension_write_data H wiimote write.data write.address write.size
      if r.1 then (H.ERROR_CODE_SUCCESS, r.2) else (H.ERROR_CODE_NACK, r.2)
    else
      (H.ERROR_CODE_SUCCESS, wiimote)
  else
    (H.ERROR_CODE_INVALID_SPACE, wiimote)

/-- The function `fake_wiimote_process_write_request`. -/
def fake_wiimote_process_write_request (H : Headers) (E : Env) (W : world_t)
    (wiimote : fake_wiimote_t) (write : write_data_t) : Option (fake_wiimote_t × world_t) :=
  if write.size = 0 ∨ write.size > 16 then
    some (wiimote, W)
  else
    let sw := write_request_switch H wiimote write
    match wiimote_send_ack H E W sw.2 H.OUTPUT_REPORT_ID_WRITE_DATA sw.1 with
    | none => none
    | some r => some (sw.2, r.2)

/-- An output report as `handle_hid_intr_data_output` reads it (`size` is not
0): the report id `data[0]` it switches on and the fields of the report struct
at `data[1]`. -/
inductive output_report where
  | led (leds : Nat) (ack : Bool)
  | status
  | report_mode (mode : Nat) (continuous : Bool) (ack : Bool)
  | write_data (write : write_data_t)
  | read_data (space slave_address address size : Nat)
  | other (id : Nat)
  deriving DecidableEq, Repr

/-- The function `handle_hid_intr_data_output`, for the session
`wiimote = &fake_wiimotes[i]`. -/
def handle_hid_intr_data_output (H : Headers) (E : Env) (W : world_t)
    (fake_wiimotes : List fake_wiimote_t) (i : Nat) (wiimote : fake_wiimote_t) :
    output_report → Option (fake_wiimote_t × world_t)
  | .led leds ack =>
    let W1 :=
      if wiimote.input_device_ops.has_set_leds then
        call_void W (Event.ops_set_leds wiimote.usrdata leds)
      else W
    if ack then
      match wiimote_send_ack H E W1 wiimote H.OUTPUT_REPORT_ID_LED H.ERROR_CODE_SUCCESS with
      | none => none
      | some r => some (wiimote, r.2)
    else some (wiimote, W1)
  | .status =>
    match wiimote_send_input_report_status H E W (fake_wiimotes.set i wiimote) wiimote with
    | none => none
    | some r => some (wiimote, r.2)
  | .report_mode mode continuous ack =>
    let wiimote1 := { wiimote with reporting_mode := mode, reporting_continuous := continuous }
    if ack then
      match wiimote_send_ack H E W wiimote1 H.OUTPUT_REPORT_ID_REPORT_MODE
          H.ERROR_CODE_SUCCESS with
      | none => none
      | some r => some (wiimote1, r.2)
    else some (wiimote1, W)
  | .write_data write => fake_wiimote_process_write_request H E W wiimote write
  | .read_data space slave_address address size =>
    if wiimote.read_request.size ≠ 0 then
      match wiimote_send_ack H E W wiimote H.OUTPUT_REPORT_ID_READ_DATA H.ERROR_CODE_BUSY with
      | none => none
      | some r => some (wiimote, r.2)
    else
      let wiimote1 := { wiimote with read_request :=
        { space := space, slave_address := slave_address, address := address, size := size } }
      match fake_wiimote_process_read_request H E W wiimote1 with
      | none => none
      | some r => some (r.2.1, r.2.2)
  | .other _ => some (wiimote, W)

/-! ## Executions of one session -/

/-- What can happen to one session `wiimote = &fake_wiimotes[i]` between its
creation and its next creation: the calls of the manager that reach it. -/
inductive step where
  /-- The call `fake_wiimote_mgr_tick_devices`; `fake_wiimotes` is the array at
  that time. -/
  | tick (fake_wiimotes : List fake_wiimote_t) (i : Nat)
  /-- An Accept_Connection_Request whose address passes the test of the handler
  at this session. -/
  | accept_con (bdaddr : List Nat) (role : Nat)
  /-- A Reject_Connection_Request whose address passes the test of the handler
  at this session. -/
  | reject_con
  /-- An HCI Disconnect for a connection handle. -/
  | hci_disconnect (hci_con_handle : Nat)
  /-- The call `fake_wiimote_mgr_remove_input_device`. -/
  | remove_input_device
  /-- A signalling command in an ACL packet for the connection handle of this
  session. -/
  | signal (ident : Nat) (cmd : l2cap_cmd)
  /-- An output report in an ACL packet for the HID interrupt channel of this
  session. -/
  | hid_output (fake_wiimotes : List fake_wiimote_t) (i : Nat) (local_cid : Nat)
      (rep : output_report)
  /-- The driver call `fake_wiimote_mgr_set_extension`. -/
  | set_extension (ext : wiimote_mgr_ext_u)
  /-- The driver call `fake_wiimote_mgr_report_input`. -/
  | report_input (buttons : Nat)
  /-- A tick of another session that takes a channel id from `starting_id`. -/
  | cid_elsewhere
  deriving DecidableEq, Repr

/-- One step of a session, under the guards of the callers in the source:
`fake_wiimote_mgr_tick_devices` ticks active sessions only; the HCI Disconnect
handler and the ACL handler act on a session that is connected and has the
connection handle; the ACL handler hands an output report to the session when the
destination channel is the HID interrupt channel. -/
def exec_step (H : Headers) (E : Env) (s : fake_wiimote_t × world_t) :
    step → Option (fake_wiimote_t × world_t)
  | .tick fake_wiimotes i =>
    if s.1.active then fake_wiimote_tick H E s.2 fake_wiimotes i s.1 else some s
  | .accept_con bdaddr role => accept_con_body H E s.2 bdaddr role s.1
  | .reject_con => some (fake_wiimote_disconnect E s.2 s.1).2
  | .hci_disconnect hci_con_handle =>
    if !fake_wiimote_is_connected s.1 || (s.1.hci_con_handle != hci_con_handle) then some s
    else some (fake_wiimote_disconnect E s.2 s.1).2
  | .remove_input_device => some (fake_wiimote_disconnect E s.2 s.1).2
  | .signal ident cmd =>
    if fake_wiimote_is_connected s.1 then handle_l2cap_signal_channel H E s.2 s.1 ident cmd
    else some s
  | .hid_output fake_wiimotes i local_cid rep =>
    if fake_wiimote_is_connected s.1 then
      match get_channel_info s.1 local_cid with
      | some info =>
        if (info.get s.1).psm = H.L2CAP_PSM_HID_INTR then
          handle_hid_intr_data_output H E s.2 fake_wiimotes i s.1 rep
        else some s
      | none => some s
    else some s
  | .set_extension ext => some (fake_wiimote_mgr_set_extension s.1 ext, s.2)
  | .report_input buttons => some (fake_wiimote_mgr_report_input s.1 buttons, s.2)
  | .cid_elsewhere => some (s.1, (generate_l2cap_channel_id s.2).2)

/-- A sequence of steps; `none` when an assertion of the source fails on the
way. -/
def exec (H : Headers) (E : Env) (s : fake_wiimote_t × world_t) :
    List step → Option (fake_wiimote_t × world_t)
  | [] => some s
  | st :: rest =>
    match exec_step H E s st with
    | none => none
    | some s1 => exec H E s1 rest

/-! ## Driver input with extension data -/

/-- Modelled from the spec: the helper `memmismatch` of `utils.h`, which is not
among the sources.  By its use in `fake_wiimote_mgr_report_input_ext` (its result
is compared with the size and is the offset from which the rest is copied) it
returns the index of the first byte at which the two buffers differ, and the
size when the first `n` bytes agree. -/
def memmismatch (a b : List Nat) : Nat → Nat
  | 0 => 0
  | n + 1 =>
    if a.headD 0 = b.headD 0 then 1 + memmismatch a.tail b.tail n else 0

/-- The function `fake_wiimote_mgr_report_input_ext`. -/
def fake_wiimote_mgr_report_input_ext (H : Headers) (wiimote : fake_wiimote_t)
    (buttons : Nat) (ext_data : List Nat) (ext_size : Nat) : fake_wiimote_t :=
  let ext_cmp := memmismatch
    (memread wiimote.extension_regs H.OFFSET_controller_data ext_size) ext_data ext_size
  if (wiimote.buttons ^^^ buttons) ≠ 0 ∨ ext_cmp ≠ ext_size then
    let wiimote1 := { wiimote with buttons := buttons }
    let wiimote2 :=
      if ext_cmp ≠ ext_size then
        { wiimote1 with
          extension_regs := memwrite wiimote1.extension_regs
            (H.OFFSET_controller_data + ext_cmp) (ext_data.drop ext_cmp) (ext_size - ext_cmp) }
      else wiimote1
    { wiimote2 with input_dirty := true }
  else
    wiimote

/-- What can happen to a session while the host sends nothing: a tick, or one of
the two input calls of the driver. -/
inductive input_step where
  /-- The call `fake_wiimote_mgr_tick_devices`; `fake_wiimotes` is the array at
  that time and the session is `fake_wiimotes[i]`. -/
  | tick (fake_wiimotes : List fake_wiimote_t) (i : Nat)
  /-- The driver call `fake_wiimote_mgr_report_input`. -/
  | report_input (buttons : Nat)
  /-- The driver call `fake_wiimote_mgr_report_input_ext`. -/
  | report_input_ext (buttons : Nat) (ext_data : List Nat) (ext_size : Nat)
  deriving DecidableEq, Repr

/-- One step of a session while the host sends nothing;
`fake_wiimote_mgr_tick_devices` ticks active sessions only. -/
def exec_input_step (H : Headers) (E : Env) (s : fake_wiimote_t × world_t) :
    input_step → Option (fake_wiimote_t × world_t)
  | .tick fake_wiimotes i =>
    if s.1.active then fake_wiimote_tick H E s.2 fake_wiimotes i s.1 else some s
  | .report_input buttons => some (fake_wiimote_mgr_report_input s.1 buttons, s.2)
  | .report_input_ext buttons ext_data ext_size =>
    some (fake_wiimote_mgr_report_input_ext H s.1 buttons ext_data ext_size, s.2)

/-- A sequence of such steps; `none` when an assertion of the source fails on
the way. -/
def exec_input (H : Headers) (E : Env) (s : fake_wiimote_t × world_t) :
    List input_step → Option (fake_wiimote_t × world_t)
  | [] => some s
  | st :: rest =>
    match exec_input_step H E s st with
    | none => none
    | some s1 => exec_input H E s1 rest

/-! ## The Xbox One driver -/

/-- The button masks `WPAD_BUTTON_*` of `wiimote.h`, which is not among the
sources. -/
structure Wpad where
  WPAD_BUTTON_UP : Nat
  WPAD_BUTTON_DOWN : Nat
  WPAD_BUTTON_RIGHT : Nat
  WPAD_BUTTON_LEFT : Nat
  WPAD_BUTTON_A : Nat
  WPAD_BUTTON_B : Nat
  WPAD_BUTTON_1 : Nat
  WPAD_BUTTON_2 : Nat
  WPAD_BUTTON_HOME : Nat
  WPAD_BUTTON_MINUS : Nat
  WPAD_BUTTON_PLUS : Nat

/-- The struct `xbx1_input_report`, by the fields that `xbx1_map_buttons` reads:
`dpad` is a bit field of width 4, the buttons are bit fields of width 1. -/
structure xbx1_input_report where
  a : Bool
  b : Bool
  y : Bool
  x : Bool
  dpad : Nat
  options : Bool
  share : Bool
  home : Bool
  deriving DecidableEq, Repr

/-- The statement `*buttons |= mask` on a `u16`. -/
def or_u16 (buttons mask : Nat) : Nat :=
  (buttons ||| mask) % 65536

/-- The first `if`/`else if` of `xbx1_map_buttons`: up and down. -/
def xbx1_map_dpad_vertical (B : Wpad) (input : xbx1_input_report) (buttons : Nat) : Nat :=
  if input.dpad = 0 ∨ input.dpad = 1 ∨ input.dpad = 7 then
    or_u16 buttons B.WPAD_BUTTON_UP
  else if input.dpad = 3 ∨ input.dpad = 4 ∨ input.dpad = 5 then
    or_u16 buttons B.WPAD_BUTTON_DOWN
  else
    buttons

/-- The second `if`/`else if` of `xbx1_map_buttons`: right and left. -/
def xbx1_map_dpad_horizontal (B : Wpad) (input : xbx1_input_report) (buttons : Nat) : Nat :=
  if input.dpad = 1 ∨ input.dpad = 2 ∨ input.dpad = 3 then
    or_u16 buttons B.WPAD_BUTTON_RIGHT
  else if input.dpad = 5 ∨ input.dpad = 6 ∨ input.dpad = 7 then
    or_u16 buttons B.WPAD_BUTTON_LEFT
  else
    buttons

/-- One statement `if (input->field) *buttons |= mask;` of `xbx1_map_buttons`. -/
def xbx1_map_button (pressed : Bool) (mask buttons : Nat) : Nat :=
  if pressed then or_u16 buttons mask else buttons

/-- The function `xbx1_map_buttons`: the statements of the source in their
order, each applied to the button word the one before has left. -/
def xbx1_map_buttons (B : Wpad) (input : xbx1_input_report) (buttons : Nat) : Nat :=
  xbx1_map_button input.options B.WPAD_BUTTON_PLUS
    (xbx1_map_button input.share B.WPAD_BUTTON_MINUS
      (xbx1_map_button input.home B.WPAD_BUTTON_HOME
        (xbx1_map_button input.x B.WPAD_BUTTON_2
          (xbx1_map_button input.y B.WPAD_BUTTON_1
            (xbx1_map_button input.b B.WPAD_BUTTON_B
              (xbx1_map_button input.a B.WPAD_BUTTON_A
                (xbx1_map_dpad_horizontal B input
                  (xbx1_map_dpad_vertical B input buttons))))))))

/-- A call of the USB driver framework made by the driver. -/
inductive usb_call where
  /-- The call `usb_device_driver_issue_intr_transfer(device, out, buf, size)`;
  `buf` is the `size` bytes handed over. -/
  | issue_intr_transfer (device out : Nat) (buf : List Nat)
  deriving DecidableEq, Repr

/-- The function `xbx1_set_leds_rumble`: the call it makes and the result of the
call, which it returns.  `issue` is what the framework returns for a call. -/
def xbx1_set_leds_rumble (issue : usb_call → Int) (device r g b : Nat) : usb_call × Int :=
  let buf := [0x05, 0x03, 0x00, 0x00, 0x00, 0x00, r, g, b, 0x00, 0x00]
  (usb_call.issue_intr_transfer device 1 buf,
    issue (usb_call.issue_intr_transfer device 1 buf))

/-- The static table `colors` of `xbx1_driver_ops_slot_changed`. -/
def colors : List (List Nat) :=
  [[0, 0, 0], [0, 0, 255], [255, 0, 0], [0, 255, 0], [255, 0, 255]]

/-- Modelled from the spec: the macro `ARRAY_SIZE` of `utils.h`, which is not
among the sources, is the number of elements of an array
(`sizeof(a) / sizeof(a[0])`). -/
def ARRAY_SIZE (a : List α) : Nat :=
  a.length

/-- The function `xbx1_driver_ops_slot_changed`; `slot` is a `u8`. -/
def xbx1_driver_ops_slot_changed (issue : usb_call → Int) (device slot : Nat) :
    usb_call × Int :=
  let slot1 := (slot % ARRAY_SIZE (colors.getD 0 [])) % 256
  let r := (colors.getD slot1 []).getD 0 0
  let g := (colors.getD slot1 []).getD 1 0
  let b := (colors.getD slot1 []).getD 2 0
  xbx1_set_leds_rumble issue device r g b

/-! ## Definitions that follow the words of the claims -/

/-- The first negative element of a list of results, 0 when there is none. -/
def first_negative (results : List Int) : Int :=
  (results.find? (fun x => decide (x < 0))).getD 0

/-- The results of `k` consecutive calls, the first of which is call number `n`
of the execution. -/
def results_from (E : Env) (n k : Nat) : List Int :=
  (List.range k).map (fun j => E.ret (n + j))

/-- The disconnect request `fake_wiimote_disconnect` sends for a channel: one
`l2cap_send_disconnect_req(hci_con_handle, remote_cid, local_cid)` when the
channel is accepted, nothing otherwise. -/
def disconnect_req_of (hci_con_handle : Nat) (c : l2cap_channel_info_t) : List Event :=
  if l2cap_channel_is_accepted c then
    [Event.l2cap_send_disconnect_req hci_con_handle c.remote_cid c.local_cid]
  else []

/-- A channel record after `fake_wiimote_disconnect`: invalid when it was
accepted, untouched otherwise. -/
def disconnected_chn (c : l2cap_channel_info_t) : l2cap_channel_info_t :=
  if l2cap_channel_is_accepted c then { c with valid := false } else c

/-- The calls of a trace that the ordering claims are about. -/
inductive mark where
  /-- An L2CAP connect-req for a PSM. -/
  | connect_req (psm : Nat)
  /-- An invocation of the driver callback `assigned`. -/
  | assigned
  /-- The COMMAND_STATUS event with which the accept handler starts. -/
  | accept
  deriving DecidableEq, Repr

/-- The mark of a call, if it has one. -/
def Event.mark? : Event → Option mark
  | .l2cap_send_connect_req _ psm _ => some (mark.connect_req psm)
  | .ops_assigned _ _ => some mark.assigned
  | .enqueue_hci_event_command_status _ => some mark.accept
  | _ => none

/-- The marked calls of a trace, in order. -/
def marks (trace : List Event) : List mark :=
  trace.filterMap Event.mark?

/-- The part of a session that the link layer works on. -/
def link_part (w : fake_wiimote_t) :
    Bool × baseband_state_e × acl_state_e × Nat × l2cap_channel_info_t ×
      l2cap_channel_info_t × l2cap_channel_info_t :=
  (w.active, w.baseband_state, w.acl_state, w.hci_con_handle, w.psm_sdp_chn,
    w.psm_hid_cntl_chn, w.psm_hid_intr_chn)

/-- In a list of marks, every connect-req for `psm_intr` comes after a
connect-req for `psm_cntl`. -/
def cntl_before_intr (psm_cntl psm_intr : Nat) (ms : List mark) : Prop :=
  ∀ pre post, ms = pre ++ mark.connect_req psm_intr :: post →
    mark.connect_req psm_cntl ∈ pre

/-- A step from `a` to `b` that makes no marked call, leaves the ACL state
alone and does not make the HID-Control channel record valid. -/
def quiet_step (a b : fake_wiimote_t × world_t) : Prop :=
  marks b.2.trace = marks a.2.trace ∧ b.1.acl_state = a.1.acl_state ∧
  (b.1.psm_hid_cntl_chn.valid = true → a.1.psm_hid_cntl_chn.valid = true)

/-- A call that sends a HID input report of any kind. -/
def Event.is_input_report : Event → Bool
  | .l2cap_send_msg _ _ _ _ _ => true
  | _ => false

/-- A call that sends a data report: a HID input report whose payload is the
raw buffer `report_data` of `fake_wiimote_send_data_report`. -/
def Event.is_data_report : Event → Bool
  | .l2cap_send_msg _ _ _ _ (hid_payload.raw _) => true
  | _ => false

/-- A call that sends a READ_DATA_REPLY. -/
def Event.is_read_data_reply : Event → Bool
  | .l2cap_send_msg _ _ _ _ (hid_payload.read_data _ _ _ _ _) => true
  | _ => false

/-- The HID input report `send_hid_input_report` sends on the HID-Interrupt
channel of a session. -/
def input_report_of (H : Headers) (w : fake_wiimote_t) (report_id : Nat)
    (data : hid_payload) : Event :=
  Event.l2cap_send_msg w.hci_con_handle w.psm_hid_intr_chn.remote_cid
    (((H.HID_TYPE_DATA <<< 4) ||| H.HID_PARAM_INPUT) % 256) report_id data

/-- The part of a session that a step of a pending read leaves alone: all
fields but the read cursor, the cached key and its dirty flag. -/
def read_frame (w : fake_wiimote_t) :
    (Bool × List Nat × Nat × baseband_state_e × acl_state_e) ×
    (l2cap_channel_info_t × l2cap_channel_info_t × l2cap_channel_info_t) ×
    (Nat × input_device_ops_t × Nat × Bool × Nat) ×
    (wiimote_mgr_ext_u × wiimote_mgr_ext_u × List Nat × Bool × List Nat) :=
  ((w.active, w.bdaddr, w.hci_con_handle, w.baseband_state, w.acl_state),
   (w.psm_sdp_chn, w.psm_hid_cntl_chn, w.psm_hid_intr_chn),
   (w.usrdata, w.input_device_ops, w.reporting_mode, w.reporting_continuous, w.buttons),
   (w.cur_extension, w.new_extension, w.extension_regs, w.input_dirty, w.eeprom))

/-- The session after an extension change has been materialised, in the words
of the spec (§4.1): the 6-byte identifier of the register window overwritten
with the code of the pending extension (when it has one), `cur_extension` set to
the pending extension, `reporting_mode` set to Disabled. -/
def extension_change_applied (H : Headers) (w : fake_wiimote_t) : fake_wiimote_t :=
  { w with
    extension_regs :=
      match extension_id_code H w.new_extension with
      | some id_code => memwrite w.extension_regs H.OFFSET_identifier id_code 6
      | none => w.extension_regs
    cur_extension := w.new_extension
    reporting_mode := H.INPUT_REPORT_ID_REPORT_DISABLED }

/-- The error code of a WRITE_DATA request in the words of the spec (§4.2,
write): `INVALID_ADDRESS` when the space is EEPROM and `address + size` exceeds
`EEPROM_FREE_SIZE`, or when the space is an I2C alias and the slave is
`EEPROM_I2C_ADDR`; `NACK` when the space is an I2C alias, the slave is
`EXTENSION_I2C_ADDR` and `address + size > 256`; `INVALID_SPACE` for any other
space; `SUCCESS` otherwise. -/
def write_data_error_code (H : Headers) (write : write_data_t) : Nat :=
  if (write.space = H.ADDRESS_SPACE_EEPROM ∧
        write.address + write.size > H.EEPROM_FREE_SIZE) ∨
      ((write.space = H.ADDRESS_SPACE_I2C_BUS ∨ write.space = H.ADDRESS_SPACE_I2C_BUS_ALT) ∧
        write.slave_address = H.EEPROM_I2C_ADDR) then
    H.ERROR_CODE_INVALID_ADDRESS
  else if (write.space = H.ADDRESS_SPACE_I2C_BUS ∨
        write.space = H.ADDRESS_SPACE_I2C_BUS_ALT) ∧
      write.slave_address = H.EXTENSION_I2C_ADDR ∧ write.address + write.size > 256 then
    H.ERROR_CODE_NACK
  else if write.space ≠ H.ADDRESS_SPACE_EEPROM ∧ write.space ≠ H.ADDRESS_SPACE_I2C_BUS ∧
      write.space ≠ H.ADDRESS_SPACE_I2C_BUS_ALT then
    H.ERROR_CODE_INVALID_SPACE
  else
    H.ERROR_CODE_SUCCESS

/-- The error code of a step of a pending read in the words of the spec (§4.2,
read): `INVALID_ADDRESS` when the space is EEPROM and `address + remaining`
exceeds `EEPROM_FREE_SIZE`, or when the space is an I2C alias and the slave is
`EEPROM_I2C_ADDR`; `NACK` when the space is an I2C alias, the slave is
`EXTENSION_I2C_ADDR` and the range of the step, `min(16, remaining)` bytes from
`address`, exceeds the 256-byte window; `INVALID_SPACE` when the space is none
of the recognised ones; `SUCCESS` otherwise. -/
def read_step_error_code (H : Headers) (w : fake_wiimote_t) : Nat :=
  if (w.read_request.space = H.ADDRESS_SPACE_EEPROM ∧
        w.read_request.address + w.read_request.size > H.EEPROM_FREE_SIZE) ∨
      ((w.read_request.space = H.ADDRESS_SPACE_I2C_BUS ∨
          w.read_request.space = H.ADDRESS_SPACE_I2C_BUS_ALT) ∧
        w.read_request.slave_address = H.EEPROM_I2C_ADDR) then
    H.ERROR_CODE_INVALID_ADDRESS
  else if (w.read_request.space = H.ADDRESS_SPACE_I2C_BUS ∨
        w.read_request.space = H.ADDRESS_SPACE_I2C_BUS_ALT) ∧
      w.read_request.slave_address = H.EXTENSION_I2C_ADDR ∧
      w.read_request.address + min 16 w.read_request.size > 256 then
    H.ERROR_CODE_NACK
  else if w.read_request.space ≠ H.ADDRESS_SPACE_EEPROM ∧
      w.read_request.space ≠ H.ADDRESS_SPACE_I2C_BUS ∧
      w.read_request.space ≠ H.ADDRESS_SPACE_I2C_BUS_ALT then
    H.ERROR_CODE_INVALID_SPACE
  else
    H.ERROR_CODE_SUCCESS

/-- Whether a button word has a bit of a mask set. -/
def button_set (buttons mask : Nat) : Bool :=
  buttons &&& mask != 0

/-- The standard 8-direction hat table in the words of the claim, as the four
flags (up, down, left, right): 0 is up, 1 up and right, 2 right, 3 down and
right, 4 down, 5 down and left, 6 left, 7 up and left; 8 and every value above
is neutral. -/
def hat_table : Nat → Bool × Bool × Bool × Bool
  | 0 => (true, false, false, false)
  | 1 => (true, false, false, true)
  | 2 => (false, false, false, true)
  | 3 => (false, true, false, true)
  | 4 => (false, true, false, false)
  | 5 => (false, true, true, false)
  | 6 => (false, false, true, false)
  | 7 => (true, false, true, false)
  | _ => (false, false, false, false)

/-- The eleven button masks that `xbx1_map_buttons` uses. -/
def Wpad.masks (B : Wpad) : List Nat :=
  [B.WPAD_BUTTON_UP, B.WPAD_BUTTON_DOWN, B.WPAD_BUTTON_RIGHT, B.WPAD_BUTTON_LEFT,
    B.WPAD_BUTTON_A, B.WPAD_BUTTON_B, B.WPAD_BUTTON_1, B.WPAD_BUTTON_2,
    B.WPAD_BUTTON_HOME, B.WPAD_BUTTON_MINUS, B.WPAD_BUTTON_PLUS]

/-- The colour of the table at index `slot` modulo the number of table entries,
in the words of the claim. -/
def slot_colour (slot : Nat) : List Nat :=
  colors.getD (slot % colors.length) []

/-- The `k`-th READ_DATA_REPLY (from 0) of a read of `n` bytes of EEPROM from
address `a`, in the words of the claim: sent on the HID-Interrupt channel of the
session with its buttons, error SUCCESS, address `a + 16k`, `size_minus_one =
min(16, n - 16k) - 1`, and as data the EEPROM bytes from `a + 16k` zero-padded
to 16 bytes. -/
def eeprom_reply (H : Headers) (w : fake_wiimote_t) (a n k : Nat) : Event :=
  input_report_of H w H.INPUT_REPORT_ID_READ_DATA_REPLY
    (hid_payload.read_data w.buttons (min 16 (n - 16 * k) - 1) H.ERROR_CODE_SUCCESS
      (a + 16 * k)
      (memread w.eeprom (a + 16 * k) (min 16 (n - 16 * k)) ++
        List.replicate (16 - min 16 (n - 16 * k)) 0))

/-- The session while a read of `n` bytes of EEPROM from address `a` is being
answered, after `k` replies: the cursor has moved on by `16k` bytes (by `n` at
the end), and nothing else has changed. -/
def eeprom_read_cursor (H : Headers) (w : fake_wiimote_t) (slave a n k : Nat) :
    fake_wiimote_t :=
  { w with read_request :=
      { space := H.ADDRESS_SPACE_EEPROM, slave_address := slave
        address := a + min n (16 * k), size := n - 16 * k } }

/-- A READ_DATA output report for `n` bytes of EEPROM from address `a`, handled
by `handle_hid_intr_data_output`, followed by `t` calls of the session tick
(with no other call in between); `none` when an assertion of the source fails
on the way. -/
def read_then_ticks (H : Headers) (E : Env) (W : world_t) (fw : List fake_wiimote_t)
    (i : Nat) (w : fake_wiimote_t) (slave a n : Nat) :
    Nat → Option (fake_wiimote_t × world_t)
  | 0 => handle_hid_intr_data_output H E W fw i w
      (output_report.read_data H.ADDRESS_SPACE_EEPROM slave a n)
  | t + 1 =>
    match read_then_ticks H E W fw i w slave a n t with
    | none => none
    | some s => fake_wiimote_tick H E s.2 fw i s.1

/-- A call that sends an L2CAP connect-req. -/
def Event.is_connect_req : Event → Bool
  | .l2cap_send_connect_req _ _ _ => true
  | _ => false

/-- A call that sends an L2CAP config-req. -/
def Event.is_config_req : Event → Bool
  | .l2cap_send_config_req _ _ _ _ => true
  | _ => false

/-- A call that sends an L2CAP signalling packet of any kind. -/
def Event.is_signalling : Event → Bool
  | .l2cap_send_connect_req _ _ _ => true
  | .l2cap_send_config_req _ _ _ _ => true
  | .l2cap_send_config_rsp _ _ _ _ => true
  | .l2cap_send_disconnect_req _ _ _ => true
  | .l2cap_send_disconnect_rsp _ _ _ _ => true
  | _ => false

/-- The config-req that `check_send_config_for_new_channel` sends for a channel:
one when the channel is accepted and its state is still Inactive, none
otherwise. -/
def config_req_of (H : Headers) (hci_con_handle : Nat) (info : l2cap_channel_info_t) :
    List Event :=
  if l2cap_channel_is_accepted info ∧
      info.state = l2cap_channel_state_e.L2CAP_CHANNEL_STATE_INACTIVE_INACTIVE then
    [Event.l2cap_send_config_req hci_con_handle info.remote_cid H.WII_REQUEST_MTU
      H.L2CAP_FLUSH_TIMO_DEFAULT]
  else []

/-- What the claim on the key cache lets happen to a session after its
creation: a write to or a read of the extension registers, the materialisation
of a change to a pending extension, or driver input with extension bytes. -/
inductive key_step where
  /-- The call `extension_write_data(wiimote, src, address, size)`. -/
  | write (src : List Nat) (address size : Nat)
  /-- The call `extension_read_data(wiimote, dst, address, size)`. -/
  | read (address size : Nat)
  /-- The driver call `fake_wiimote_mgr_set_extension(wiimote, ext)` followed by
  `fake_wiimote_process_extension_change(wiimote)`. -/
  | extension_change (ext : wiimote_mgr_ext_u)
  /-- The driver call `fake_wiimote_mgr_report_input_ext`. -/
  | report_input_ext (buttons : Nat) (ext_data : List Nat) (ext_size : Nat)
  deriving DecidableEq, Repr

/-- One such step, for the session `wiimote = &fake_wiimotes[i]`. -/
def exec_key_step (H : Headers) (E : Env) (fw : List fake_wiimote_t) (i : Nat)
    (s : fake_wiimote_t × world_t) : key_step → Option (fake_wiimote_t × world_t)
  | .write src address size => some ((extension_write_data H s.1 src address size).2, s.2)
  | .read address size => some ((extension_read_data H s.1 address size).2.2, s.2)
  | .extension_change ext =>
    match fake_wiimote_process_extension_change H E s.2 fw i
        (fake_wiimote_mgr_set_extension s.1 ext) with
    | none => none
    | some r => some (r.2.1, r.2.2)
  | .report_input_ext buttons ext_data ext_size =>
    some (fake_wiimote_mgr_report_input_ext H s.1 buttons ext_data ext_size, s.2)

/-- A sequence of such steps. -/
def exec_key (H : Headers) (E : Env) (fw : List fake_wiimote_t) (i : Nat)
    (s : fake_wiimote_t × world_t) : List key_step → Option (fake_wiimote_t × world_t)
  | [] => some s
  | st :: rest =>
    match exec_key_step H E fw i s st with
    | none => none
    | some s1 => exec_key H E fw i s1 rest

/-- A step whose driver input, if it is one, stays within the `controller_data`
area of `size_controller_data` bytes. -/
def key_step.within (size_controller_data : Nat) : key_step → Bool
  | .report_input_ext _ _ ext_size => decide (ext_size ≤ size_controller_data)
  | _ => true

/-- The layout of the register window that the claim on the key cache relies
on: the field `encryption_key_data` lies within the window
`[ENCRYPTION_KEY_DATA_BEGIN, ENCRYPTION_KEY_DATA_END)` that
`extension_write_data` tests, and neither the field `identifier` (6 bytes) nor
the `controller_data` area overlaps it. -/
def key_layout (H : Headers) (size_controller_data : Nat) : Prop :=
  (H.ENCRYPTION_KEY_DATA_BEGIN ≤ H.OFFSET_encryption_key_data ∧
    H.OFFSET_encryption_key_data + H.SIZEOF_encryption_key_data ≤
      H.ENCRYPTION_KEY_DATA_END) ∧
  (H.OFFSET_identifier + 6 ≤ H.OFFSET_encryption_key_data ∨
    H.OFFSET_encryption_key_data + H.SIZEOF_encryption_key_data ≤ H.OFFSET_identifier) ∧
  (H.OFFSET_controller_data + size_controller_data ≤ H.OFFSET_encryption_key_data ∨
    H.OFFSET_encryption_key_data + H.SIZEOF_encryption_key_data ≤
      H.OFFSET_controller_data)

/-- Key-cache coherence: when `extension_key_dirty` is false, the cached key is
the key derived from the key data now in the register window. -/
def key_coherent (H : Headers) (w : fake_wiimote_t) : Prop :=
  w.extension_key_dirty = false →
    w.extension_key = H.wiimote_crypto_generate_key_from_extension_key_data
      (memread w.extension_regs H.OFFSET_encryption_key_data H.SIZEOF_encryption_key_data)

/-- The 6-byte identifier code of an extension, in the words of the claim on
the identifier: the constant of `wiimote.h` that carries the name of the
extension (the Nunchuk its code, the Classic Controller its code, and so on);
there is no code for None. -/
def identifier_code (H : Headers) (e : wiimote_mgr_ext_u) : List Nat :=
  if e = wiimote_mgr_ext_u.WIIMOTE_MGR_EXT_NUNCHUK then H.EXT_ID_CODE_NUNCHUNK
  else if e = wiimote_mgr_ext_u.WIIMOTE_MGR_EXT_CLASSIC then H.EXP_ID_CODE_CLASSIC_CONTROLLER
  else if e = wiimote_mgr_ext_u.WIIMOTE_MGR_EXT_CLASSIC_WIIU_PRO then
    H.EXP_ID_CODE_CLASSIC_WIIU_PRO
  else if e = wiimote_mgr_ext_u.WIIMOTE_MGR_EXT_GUITAR then H.EXP_ID_CODE_GUITAR
  else if e = wiimote_mgr_ext_u.WIIMOTE_MGR_EXT_MOTION_PLUS then H.EXP_ID_CODE_MOTION_PLUS
  else []

/-! ## Concrete inputs -/

/-- Modelled from the spec: one choice of the header parameters, for evaluating
the embedding on concrete inputs.  The spec (§6) names the constants; the values
are those of the Wiimote and Bluetooth protocols, the register offsets those of
the Wiimote extension register file.  The two cipher functions are stand-ins for
the external cipher, which the spec treats as a pure function. -/
def wii : Headers where
  IOS_OK := 0
  SIZEOF_BDADDR := 6
  FAKE_WIIMOTE_BDADDR := fun i => [0xFE, 0xED, 0xBA, 0xDF, 0x00, i]
  WIIMOTE_HCI_CLASS_0 := 0x00
  WIIMOTE_HCI_CLASS_1 := 0x04
  WIIMOTE_HCI_CLASS_2 := 0x48
  HCI_LINK_ACL := 0x01
  HCI_CMD_ACCEPT_CON := 0x0409
  HCI_ROLE_MASTER := 0x00
  L2CAP_PSM_SDP := 0x0001
  L2CAP_PSM_HID_CNTL := 0x0011
  L2CAP_PSM_HID_INTR := 0x0013
  WII_REQUEST_MTU := 185
  L2CAP_FLUSH_TIMO_DEFAULT := 0xFFFF
  L2CAP_MTU_DEFAULT := 672
  L2CAP_SUCCESS := 0x0000
  L2CAP_PSM_NOT_SUPPORTED := 0x0002
  L2CAP_NO_INFO := 0x0000
  L2CAP_CONNECT_REQ := 0x02
  L2CAP_CONNECT_RSP := 0x03
  L2CAP_CONFIG_REQ := 0x04
  L2CAP_CONFIG_RSP := 0x05
  L2CAP_DISCONNECT_REQ := 0x06
  L2CAP_OPT_MTU := 0x01
  L2CAP_OPT_MTU_SIZE := 2
  L2CAP_OPT_FLUSH_TIMO := 0x02
  L2CAP_OPT_FLUSH_TIMO_SIZE := 2
  HID_TYPE_DATA := 0x0A
  HID_PARAM_INPUT := 0x01
  WIIMOTE_MAX_PAYLOAD := 23
  CONTROLLER_DATA_BYTES := 21
  INPUT_REPORT_ID_ACK := 0x22
  INPUT_REPORT_ID_STATUS := 0x20
  INPUT_REPORT_ID_READ_DATA_REPLY := 0x21
  INPUT_REPORT_ID_BTN := 0x30
  INPUT_REPORT_ID_REPORT_DISABLED := 0x00
  OUTPUT_REPORT_ID_LED := 0x11
  OUTPUT_REPORT_ID_REPORT_MODE := 0x12
  OUTPUT_REPORT_ID_WRITE_DATA := 0x16
  OUTPUT_REPORT_ID_READ_DATA := 0x17
  ERROR_CODE_SUCCESS := 0
  ERROR_CODE_BUSY := 4
  ERROR_CODE_INVALID_SPACE := 6
  ERROR_CODE_NACK := 7
  ERROR_CODE_INVALID_ADDRESS := 8
  ADDRESS_SPACE_EEPROM := 0
  ADDRESS_SPACE_I2C_BUS := 1
  ADDRESS_SPACE_I2C_BUS_ALT := 2
  EEPROM_I2C_ADDR := 0x50
  EXTENSION_I2C_ADDR := 0x52
  EEPROM_FREE_SIZE := 0x1700
  ENCRYPTION_ENABLED := 0xAA
  ENCRYPTION_KEY_DATA_BEGIN := 0x40
  ENCRYPTION_KEY_DATA_END := 0x50
  OFFSET_controller_data := 0x00
  OFFSET_encryption_key_data := 0x40
  SIZEOF_encryption_key_data := 16
  OFFSET_encryption := 0xF0
  OFFSET_identifier := 0xFA
  SIZEOF_extension_key := 16
  EXT_ID_CODE_NUNCHUNK := [0x00, 0x00, 0xA4, 0x20, 0x00, 0x00]
  EXP_ID_CODE_CLASSIC_CONTROLLER := [0x00, 0x00, 0xA4, 0x20, 0x01, 0x01]
  EXP_ID_CODE_CLASSIC_WIIU_PRO := [0x00, 0x00, 0xA4, 0x20, 0x01, 0x20]
  EXP_ID_CODE_GUITAR := [0x00, 0x00, 0xA4, 0x20, 0x01, 0x03]
  EXP_ID_CODE_MOTION_PLUS := [0x00, 0x00, 0xA4, 0x20, 0x04, 0x05]
  input_report_has_btn := fun m => m != 0x3D
  input_report_ext_size := fun m =>
    if m = 0x32 then 8 else if m = 0x34 then 19 else if m = 0x35 then 16
    else if m = 0x36 then 9 else if m = 0x37 then 6 else if m = 0x3D then 21 else 0
  input_report_ext_offset := fun m =>
    if m = 0x32 then 2 else if m = 0x34 then 2 else if m = 0x35 then 5
    else if m = 0x36 then 12 else if m = 0x37 then 15 else 0
  wiimote_crypto_generate_key_from_extension_key_data := fun seed => seed
  wiimote_crypto_encrypt := fun buf key address _ =>
    buf.map (fun x => (x + key.headD 0 + address) % 256)
  u16_bytes := fun v => [v / 256 % 256, v % 256]

/-- An environment in which every primitive succeeds: `int` results are 0, the
connection request is taken, the `n`-th call hands out connection handle
`0x100 + n`, and uninitialised memory reads as `0xCC`. -/
def env_ok : Env where
  ret := fun _ => 0
  req := fun _ => true
  virt_alloc := fun n => 0x100 + n
  uninit := List.replicate 256 0xCC

/-- The world at start-up: `starting_id` is initialised to `0x40`, nothing has
been called. -/
def world_init : world_t where
  starting_id := 0x40
  trace := []

/-- A channel record of the zero-initialised global array. -/
def chn_zero : l2cap_channel_info_t where
  valid := false
  state := l2cap_channel_state_e.L2CAP_CHANNEL_STATE_INACTIVE_INACTIVE
  psm := 0
  local_cid := 0
  remote_cid := 0
  remote_mtu := 0

/-- A session of the zero-initialised global array (static storage); the EEPROM
image is cut down to 32 bytes to keep evaluation small. -/
def wiimote_zero : fake_wiimote_t where
  active := false
  bdaddr := [0, 0, 0, 0, 0, 0]
  hci_con_handle := 0
  baseband_state := baseband_state_e.BASEBAND_STATE_INACTIVE
  acl_state := acl_state_e.ACL_STATE_INACTIVE
  psm_sdp_chn := chn_zero
  psm_hid_cntl_chn := chn_zero
  psm_hid_intr_chn := chn_zero
  usrdata := 0
  input_device_ops := { has_disconnect := false, has_set_leds := false }
  reporting_mode := 0
  reporting_continuous := false
  buttons := 0
  cur_extension := wiimote_mgr_ext_u.WIIMOTE_MGR_EXT_NONE
  new_extension := wiimote_mgr_ext_u.WIIMOTE_MGR_EXT_NONE
  extension_regs := List.replicate 256 0
  extension_key := List.replicate 16 0
  extension_key_dirty := false
  input_dirty := false
  eeprom := List.replicate 32 0
  read_request := { space := 0, slave_address := 0, address := 0, size := 0 }

/-- The driver callbacks used in the examples: both optional callbacks set. -/
def ops_all : input_device_ops_t where
  has_disconnect := true
  has_set_leds := true

/-- The global array after `fake_wiimote_mgr_init`, with two sessions. -/
def fw_init : List fake_wiimote_t :=
  fake_wiimote_mgr_init wii [wiimote_zero, wiimote_zero]

/-- The global array after `fake_wiimote_mgr_init` and one
`fake_wiimote_mgr_add_input_device`. -/
def fw_added : List fake_wiimote_t :=
  (fake_wiimote_mgr_add_input_device wii 7 ops_all fw_init).2

/-- The session created by the first `fake_wiimote_mgr_add_input_device`. -/
def wiimote_fresh : fake_wiimote_t :=
  add_input_device_assign wii 7 ops_all
    { wiimote_zero with bdaddr := wii.FAKE_WIIMOTE_BDADDR 0 }

/-- The global array after `fake_wiimote_mgr_init` and two
`fake_wiimote_mgr_add_input_device`: both sessions are active, with the
addresses `FE:ED:BA:DF:00:00` and `FE:ED:BA:DF:00:01`. -/
def fw_two_added : List fake_wiimote_t :=
  (fake_wiimote_mgr_add_input_device wii 8 ops_all fw_added).2

/-- An environment in which every primitive that returns an `int` fails
with -1. -/
def env_fail : Env where
  ret := fun _ => -1
  req := fun _ => true
  virt_alloc := fun n => 0x100 + n
  uninit := List.replicate 256 0xCC

/-- The fresh session after the connection request was made and accepted:
baseband Complete, ACL Linking, connection handle 0x101, no channel created
yet. -/
def wiimote_linking : fake_wiimote_t :=
  { wiimote_fresh with
    baseband_state := baseband_state_e.BASEBAND_STATE_COMPLETE
    acl_state := acl_state_e.ACL_STATE_LINKING
    hci_con_handle := 0x101 }

/-- An execution of the fresh session in which the host brings the link up in
the usual order: the connection request is made and accepted, both HID channels
are connected and configured, and a last tick finds both channels complete. -/
def steps_link_up : List step :=
  [ step.tick fw_added 0,
    step.accept_con (wii.FAKE_WIIMOTE_BDADDR 0) 0,
    step.tick fw_added 0,
    step.signal 1 (l2cap_cmd.connect_rsp 0x81 0x40 0 0),
    step.tick fw_added 0,
    step.signal 2 (l2cap_cmd.connect_rsp 0x82 0x41 0 0),
    step.tick fw_added 0,
    step.signal 3 (l2cap_cmd.config_req 0x40 0 [0x01, 0x02, 185, 0] 4),
    step.signal 4 (l2cap_cmd.config_req 0x41 0 [0x01, 0x02, 185, 0] 4),
    step.signal 5 (l2cap_cmd.config_rsp 0x40 0 0),
    step.signal 6 (l2cap_cmd.config_rsp 0x41 0 0),
    step.tick fw_added 0 ]

/-- The execution `steps_link_up` followed by a second Accept_Connection_Request
for the same session and one more tick. -/
def steps_accept_twice : List step :=
  steps_link_up ++
    [ step.accept_con (wii.FAKE_WIIMOTE_BDADDR 0) 0,
      step.tick fw_added 0 ]

/-- A session whose link is up, as the execution `steps_link_up` leaves it: both
HID channels complete, ACL Inactive, connection handle 0x101, buttons-only
reporting mode. -/
def wiimote_linked : fake_wiimote_t :=
  { wiimote_linking with
    acl_state := acl_state_e.ACL_STATE_INACTIVE
    psm_hid_cntl_chn :=
      { valid := true
        state := l2cap_channel_state_e.L2CAP_CHANNEL_STATE_INACTIVE_COMPLETE
        psm := 0x11, local_cid := 0x40, remote_cid := 0x81, remote_mtu := 185 }
    psm_hid_intr_chn :=
      { valid := true
        state := l2cap_channel_state_e.L2CAP_CHANNEL_STATE_INACTIVE_COMPLETE
        psm := 0x13, local_cid := 0x41, remote_cid := 0x82, remote_mtu := 185 } }

/-- The linked session with reporting disabled, continuous reporting on and the
input dirty. -/
def wiimote_report_disabled : fake_wiimote_t :=
  { wiimote_linked with
    reporting_mode := wii.INPUT_REPORT_ID_REPORT_DISABLED
    reporting_continuous := true
    input_dirty := true }

/-- Ticks interleaved with driver input, of both kinds. -/
def steps_input : List input_step :=
  [ input_step.tick [wiimote_report_disabled] 0,
    input_step.report_input 0x0800,
    input_step.tick [wiimote_report_disabled] 0,
    input_step.report_input_ext 0x0008 [0x80, 0x7F, 0, 0, 0, 3] 6,
    input_step.tick [wiimote_report_disabled] 0,
    input_step.tick [wiimote_report_disabled] 0 ]

/-- The linked session with everything pending at once: a memory read of 20
bytes of EEPROM from address 0 in flight, the extension Nunchuk waiting to be
materialised, and the input dirty. -/
def wiimote_all_pending : fake_wiimote_t :=
  { wiimote_linked with
    read_request := { space := 0, slave_address := 0, address := 0, size := 20 }
    new_extension := wiimote_mgr_ext_u.WIIMOTE_MGR_EXT_NUNCHUK
    input_dirty := true }

/-- A second linked session (handle 0x102, buttons 0x0400) with the extension
Nunchuk waiting to be materialised. -/
def wiimote_nunchuk_pending : fake_wiimote_t :=
  { wiimote_linked with
    hci_con_handle := 0x102
    buttons := 0x0400
    new_extension := wiimote_mgr_ext_u.WIIMOTE_MGR_EXT_NUNCHUK }

/-- The second linked session with the extension `e` waiting to be
materialised; its current extension is None and its register window is all
zero. -/
def wiimote_pending (e : wiimote_mgr_ext_u) : fake_wiimote_t :=
  { wiimote_nunchuk_pending with new_extension := e }

/-- A WRITE_DATA request of 8 bytes to the extension registers at 0xFA, which
runs over the end of the 256-byte window. -/
def write_past_window : write_data_t :=
  { space := 1, slave_address := 0x52, address := 0xFA, size := 8,
    data := [1, 2, 3, 4, 5, 6, 7, 8, 0, 0, 0, 0, 0, 0, 0, 0] }

/-- The linked session with a read of 20 bytes of the extension registers from
0xF8 in flight: the first step, 16 bytes, runs over the end of the window. -/
def wiimote_read_past_window : fake_wiimote_t :=
  { wiimote_linked with
    read_request := { space := 1, slave_address := 0x52, address := 0xF8, size := 20 } }

/-- The linked session with a read of 32 bytes in flight at address 0xFFF8 of
the I2C bus, from a slave (0x00) that is neither the EEPROM nor the extension. -/
def wiimote_read_wrap : fake_wiimote_t :=
  { wiimote_linked with
    read_request := { space := 1, slave_address := 0x00, address := 0xFFF8, size := 32 } }

/-- The session after the tick that sends the connect-req for HID-Control: the
channel record is set up with local id 0x40 and no remote id yet. -/
def wiimote_cntl_requested : fake_wiimote_t :=
  { wiimote_linking with
    psm_hid_cntl_chn :=
      { valid := true
        state := l2cap_channel_state_e.L2CAP_CHANNEL_STATE_INACTIVE_INACTIVE
        psm := 0x11, local_cid := 0x40, remote_cid := 0, remote_mtu := 0 } }

/-- Modelled from the spec: one choice of the button masks, for evaluating the
embedding on concrete inputs; the spec (§3) says `buttons` is a 16-bit bit field
in Wiimote wire encoding, and the values are those of the Wiimote protocol. -/
def wpad_wii : Wpad where
  WPAD_BUTTON_2 := 0x0001
  WPAD_BUTTON_1 := 0x0002
  WPAD_BUTTON_B := 0x0004
  WPAD_BUTTON_A := 0x0008
  WPAD_BUTTON_MINUS := 0x0010
  WPAD_BUTTON_HOME := 0x0080
  WPAD_BUTTON_LEFT := 0x0100
  WPAD_BUTTON_RIGHT := 0x0200
  WPAD_BUTTON_DOWN := 0x0400
  WPAD_BUTTON_UP := 0x0800
  WPAD_BUTTON_PLUS := 0x1000

/-- An Xbox One report with the hat at 3 (down and right) and the buttons a, x
and options pressed. -/
def xbx1_report_down_right : xbx1_input_report :=
  { a := true, b := false, y := false, x := true, dpad := 3,
    options := true, share := false, home := false }

/-- The linked session with an EEPROM that holds the byte `j` at address `j`,
for `j` below 40. -/
def wiimote_eeprom_range : fake_wiimote_t :=
  { wiimote_linked with eeprom := List.range 40 }

/-- A session whose register window has encryption enabled (0xAA at 0xF0), the
seed byte 7 at the start of the key data (0x40), the bytes 10, 20, 30 at
addresses 0x20 to 0x22, and a dirty key. -/
def wiimote_encrypted : fake_wiimote_t :=
  { wiimote_linked with
    extension_regs :=
      memwrite (memwrite (memwrite (List.replicate 256 0) 0xF0 [0xAA] 1) 0x40 [7] 1)
        0x20 [10, 20, 30] 3
    extension_key_dirty := true }

/-- The linking session after the host has answered the connect-req for
HID-Control with CONNECT_RSP(dcid 0x81, scid 0x40): the channel is accepted and
not yet configured, HID-Interrupt is not yet requested. -/
def wiimote_cntl_connected : fake_wiimote_t :=
  { wiimote_linking with
    psm_hid_cntl_chn :=
      { valid := true
        state := l2cap_channel_state_e.L2CAP_CHANNEL_STATE_INACTIVE_INACTIVE
        psm := 0x11, local_cid := 0x40, remote_cid := 0x81, remote_mtu := 0 } }

/-- The world after the channel id 0x40 has been handed out. -/
def world_next_id : world_t :=
  { starting_id := 0x41, trace := [] }

/-- The linked session in reporting mode 0x30 (buttons only, not continuous)
with button A held and the input dirty. -/
def wiimote_dirty : fake_wiimote_t :=
  { wiimote_linked with
    reporting_mode := 0x30
    reporting_continuous := false
    buttons := 0x0008
    input_dirty := true }

/-- A run on the register window: a seed is written, encryption is enabled, a
read caches the key, driver input and an extension change follow, one byte of
the seed is overwritten, and a last read caches the new key. -/
def steps_key : List key_step :=
  [ key_step.write [1, 2, 3, 4, 5, 6, 7, 8, 9, 10, 11, 12, 13, 14, 15, 16] 0x40 16,
    key_step.write [0xAA] 0xF0 1,
    key_step.read 0 6,
    key_step.report_input_ext 0x0008 [0x80, 0x7F, 0x10, 0x20, 0x30, 0x03] 6,
    key_step.extension_change wiimote_mgr_ext_u.WIIMOTE_MGR_EXT_NUNCHUK,
    key_step.write [0x63] 0x45 1,
    key_step.read 0 6 ]

/-! ## Lemmas on memory -/

theorem memread_length (src : List Nat) (off n : Nat) : (memread src off n).length = n := by
  simp [memread]

theorem memwrite_length (dst : List Nat) (off : Nat) (src : List Nat) (n : Nat) :
    (memwrite dst off src n).length = dst.length := by
  simp [memwrite]

theorem memwrite_getD (dst : List Nat) (off : Nat) (src : List Nat) (n a : Nat)
    (ha : a < dst.length) :
    (memwrite dst off src n).getD a 0 =
      if off ≤ a ∧ a < off + n then src.getD (a - off) 0 else dst.getD a 0 := by
  unfold memwrite
  rw [List.getD_eq_getElem _ _ (by simpa using ha)]
  simp

theorem memread_self (b : List Nat) : memread b 0 b.length = b := by
  apply List.ext_getElem
  · simp [memread]
  · intro i h1 h2
    simp [memread, List.getElem?_eq_getElem h2]

theorem memread_memwrite (dst : List Nat) (off : Nat) (src : List Nat) (n : Nat)
    (h : off + n ≤ dst.length) :
    memread (memwrite dst off src n) off n = memread src 0 n := by
  apply List.ext_getElem
  · simp [memread]
  · intro i h1 h2
    have hi : i < n := by simpa [memread] using h1
    simp only [memread, List.getElem_map, List.getElem_range]
    rw [memwrite_getD _ _ _ _ _ (by omega)]
    simp [hi]

/-! ## Lemmas on the extension registers -/

theorem extension_write_data_ok (H : Headers) (wiimote : fake_wiimote_t) (src : List Nat)
    (address size : Nat) (h : address + size ≤ 256) :
    (extension_write_data H wiimote src address size).1 = true ∧
    (extension_write_data H wiimote src address size).2.extension_regs =
      memwrite wiimote.extension_regs address src size := by
  unfold extension_write_data
  rw [if_neg (by simp only [EXTENSION_REGS_SIZE]; omega)]
  constructor
  · rfl
  · dsimp only
    split <;> rfl

theorem extension_read_data_plain (H : Headers) (wiimote : fake_wiimote_t)
    (address size : Nat) (h : address + size ≤ 256)
    (henc : wiimote.extension_regs.getD H.OFFSET_encryption 0 ≠ H.ENCRYPTION_ENABLED) :
    extension_read_data H wiimote address size =
      (true, memread wiimote.extension_regs address size, wiimote) := by
  unfold extension_read_data
  rw [if_neg (by simp only [EXTENSION_REGS_SIZE]; omega)]
  dsimp only
  rw [if_neg henc]

/-! ## C1: write/read round trip on the extension registers -/

/-- C1. For every session whose register window has its 256 bytes, every
address and every byte sequence `b` with `address + |b| <= 256`: the write
`extension_write_data(b, address, |b|)` succeeds, and a following
`extension_read_data(address, |b|)`, made while the encryption flag byte of the
window (as it is after the write) is not `ENCRYPTION_ENABLED`, succeeds and
returns exactly `b`. -/
theorem C1_write_read_roundtrip (H : Headers) (wiimote : fake_wiimote_t) (address : Nat)
    (b : List Nat)
    (hregs : wiimote.extension_regs.length = EXTENSION_REGS_SIZE)
    (hb : address + b.length ≤ 256)
    (henc : (extension_write_data H wiimote b address b.length).2.extension_regs.getD
      H.OFFSET_encryption 0 ≠ H.ENCRYPTION_ENABLED) :
    (extension_write_data H wiimote b address b.length).1 = true ∧
    (extension_read_data H (extension_write_data H wiimote b address b.length).2
      address b.length).1 = true ∧
    (extension_read_data H (extension_write_data H wiimote b address b.length).2
      address b.length).2.1 = b := by
  obtain ⟨hok, hw⟩ := extension_write_data_ok H wiimote b address b.length hb
  rw [extension_read_data_plain H _ address b.length hb henc]
  refine ⟨hok, rfl, ?_⟩
  dsimp only
  rw [hw, memread_memwrite _ _ _ _ (by rw [hregs]; simp only [EXTENSION_REGS_SIZE]; omega)]
  exact memread_self b

set_option maxRecDepth 100000 in
/-- C1 at a concrete input: four bytes written at address 0x20 of the fresh
session, encryption off. -/
theorem C1_write_read_roundtrip_witness :
    (extension_read_data wii (extension_write_data wii wiimote_fresh [1, 2, 3, 4] 0x20 4).2
      0x20 4).2.1 = [1, 2, 3, 4] :=
  (C1_write_read_roundtrip wii wiimote_fresh 0x20 [1, 2, 3, 4] (by rfl) (by decide)
    (by decide)).2.2

/-! ## C2: adding an input device -/

theorem add_input_device_true_iff (H : Headers) (usrdata : Nat) (ops : input_device_ops_t)
    (fw : List fake_wiimote_t) :
    (fake_wiimote_mgr_add_input_device H usrdata ops fw).1 = true ↔
      ∃ w ∈ fw, w.active = false := by
  induction fw with
  | nil => simp [fake_wiimote_mgr_add_input_device]
  | cons w rest ih =>
    unfold fake_wiimote_mgr_add_input_device
    by_cases hw : w.active = true
    · simp [hw, ih]
    · simp [hw]

theorem add_input_device_all_active (H : Headers) (usrdata : Nat) (ops : input_device_ops_t)
    (fw : List fake_wiimote_t) (hall : ∀ w ∈ fw, w.active = true) :
    fake_wiimote_mgr_add_input_device H usrdata ops fw = (false, fw) := by
  induction fw with
  | nil => rfl
  | cons w rest ih =>
    unfold fake_wiimote_mgr_add_input_device
    have hw : w.active = true := hall w (List.mem_cons_self _ _)
    rw [if_pos hw, ih (fun v hv => hall v (List.mem_cons_of_mem _ hv))]

theorem add_input_device_first_inactive (H : Headers) (usrdata : Nat)
    (ops : input_device_ops_t) (fw : List fake_wiimote_t) (i : Nat) (w : fake_wiimote_t)
    (hi : fw[i]? = some w) (hw : w.active = false)
    (hlow : ∀ j, j < i → ∀ v, fw[j]? = some v → v.active = true) :
    fake_wiimote_mgr_add_input_device H usrdata ops fw =
      (true, fw.set i (add_input_device_assign H usrdata ops w)) := by
  induction fw generalizing i with
  | nil => simp at hi
  | cons v rest ih =>
    unfold fake_wiimote_mgr_add_input_device
    cases i with
    | zero =>
      simp only [List.getElem?_cons_zero, Option.some.injEq] at hi
      subst hi
      simp [hw]
    | succ k =>
      have hv : v.active = true := hlow 0 (Nat.succ_pos k) v (by simp)
      rw [if_pos hv]
      have := ih k (by simpa using hi)
        (fun j hj u hu => hlow (j + 1) (Nat.succ_lt_succ hj) u (by simpa using hu))
      rw [this]
      simp

theorem add_input_device_bdaddr (H : Headers) (usrdata : Nat) (ops : input_device_ops_t)
    (fw : List fake_wiimote_t) :
    (fake_wiimote_mgr_add_input_device H usrdata ops fw).2.map (fun w => w.bdaddr) =
      fw.map (fun w => w.bdaddr) := by
  induction fw with
  | nil => rfl
  | cons w rest ih =>
    unfold fake_wiimote_mgr_add_input_device
    by_cases hw : w.active = true
    · rw [if_pos hw]
      simp [ih]
    · rw [if_neg hw]
      simp [add_input_device_assign]

/-- C2. `fake_wiimote_mgr_add_input_device` returns true if and only if some
session of the array is inactive.  When session `i` is the inactive session of
lowest index, the call returns true and changes the array at index `i` only,
where it stores the reset session: baseband RequestConnection, ACL Inactive,
the three channels invalid, buttons 0, current and pending extension None,
extension registers 256 zero bytes, key dirty, input not dirty, read request of
size 0, buttons-only reporting mode, non-continuous reporting, active, the
address unchanged.  When all sessions are active the call returns false and the
array is unchanged.  In every case the addresses of all sessions are
unchanged. -/
theorem C2_add_input_device (H : Headers) (usrdata : Nat) (ops : input_device_ops_t)
    (fw : List fake_wiimote_t) :
    ((fake_wiimote_mgr_add_input_device H usrdata ops fw).1 = true ↔
      ∃ w ∈ fw, w.active = false) ∧
    (∀ i w, fw[i]? = some w → w.active = false →
      (∀ j, j < i → ∀ v, fw[j]? = some v → v.active = true) →
      fake_wiimote_mgr_add_input_device H usrdata ops fw =
        (true, fw.set i (add_input_device_assign H usrdata ops w))) ∧
    (∀ w : fake_wiimote_t,
      (add_input_device_assign H usrdata ops w).active = true ∧
      (add_input_device_assign H usrdata ops w).bdaddr = w.bdaddr ∧
      (add_input_device_assign H usrdata ops w).baseband_state =
        baseband_state_e.BASEBAND_STATE_REQUEST_CONNECTION ∧
      (add_input_device_assign H usrdata ops w).acl_state = acl_state_e.ACL_STATE_INACTIVE ∧
      (add_input_device_assign H usrdata ops w).psm_sdp_chn.valid = false ∧
      (add_input_device_assign H usrdata ops w).psm_hid_cntl_chn.valid = false ∧
      (add_input_device_assign H usrdata ops w).psm_hid_intr_chn.valid = false ∧
      (add_input_device_assign H usrdata ops w).buttons = 0 ∧
      (add_input_device_assign H usrdata ops w).cur_extension =
        wiimote_mgr_ext_u.WIIMOTE_MGR_EXT_NONE ∧
      (add_input_device_assign H usrdata ops w).new_extension =
        wiimote_mgr_ext_u.WIIMOTE_MGR_EXT_NONE ∧
      (add_input_device_assign H usrdata ops w).extension_regs = List.replicate 256 0 ∧
      (add_input_device_assign H usrdata ops w).extension_key_dirty = true ∧
      (add_input_device_assign H usrdata ops w).input_dirty = false ∧
      (add_input_device_assign H usrdata ops w).read_request.size = 0 ∧
      (add_input_device_assign H usrdata ops w).reporting_mode = H.INPUT_REPORT_ID_BTN ∧
      (add_input_device_assign H usrdata ops w).reporting_continuous = false) ∧
    ((∀ w ∈ fw, w.active = true) →
      fake_wiimote_mgr_add_input_device H usrdata ops fw = (false, fw)) ∧
    (fake_wiimote_mgr_add_input_device H usrdata ops fw).2.map (fun w => w.bdaddr) =
      fw.map (fun w => w.bdaddr) :=
  ⟨add_input_device_true_iff H usrdata ops fw,
    fun i w hi hw hlow => add_input_device_first_inactive H usrdata ops fw i w hi hw hlow,
    fun _ => ⟨rfl, rfl, rfl, rfl, rfl, rfl, rfl, rfl, rfl, rfl, rfl, rfl, rfl, rfl, rfl, rfl⟩,
    add_input_device_all_active H usrdata ops fw,
    add_input_device_bdaddr H usrdata ops fw⟩

set_option maxRecDepth 100000 in
/-- C2 at a concrete input: in an array whose session 0 is active and whose
session 1 is not, the call activates session 1 and leaves session 0 alone. -/
theorem C2_add_input_device_witness :
    fake_wiimote_mgr_add_input_device wii 9 ops_all fw_added =
      (true, fw_added.set 1 (add_input_device_assign wii 9 ops_all
        { wiimote_zero with bdaddr := wii.FAKE_WIIMOTE_BDADDR 1 })) :=
  (C2_add_input_device wii 9 ops_all fw_added).2.1 1
    { wiimote_zero with bdaddr := wii.FAKE_WIIMOTE_BDADDR 1 } (by decide) (by decide)
    (by
      intro j hj v hv
      have hj0 : j = 0 := by omega
      subst hj0
      have : v = wiimote_fresh := by
        have h0 : fw_added[0]? = some wiimote_fresh := by decide
        rw [h0] at hv
        exact (Option.some.inj hv).symm
      subst this
      rfl)

/-! ## C3: the address test of the accept and reject handlers -/

theorem bdaddr_memcmp_first_byte (H : Headers) (bdaddr : List Nat) (w : fake_wiimote_t)
    (hsz : H.SIZEOF_BDADDR ≠ 0) (h0 : bdaddr.headD 0 = w.bdaddr.headD 0) :
    bdaddr_memcmp H bdaddr w = 0 := by
  unfold bdaddr_memcmp
  rw [if_pos hsz]
  unfold memcmp
  rw [if_pos h0]
  rfl

/-- C3 (what the code does). The address test of the accept and reject handlers,
`memcmp(bdaddr, &fake_wiimotes[i].bdaddr, sizeof(bdaddr_t) != 0)`, compares one
byte: whenever the first byte of the given address equals the first byte of the
address of session 0, whatever the other five bytes are, the reject handler
disconnects session 0 and returns true, and the accept handler runs its
connection sequence on session 0. -/
theorem C3_address_test_first_byte_only (H : Headers) (E : Env) (W : world_t)
    (bdaddr : List Nat) (role reason : Nat) (w : fake_wiimote_t) (rest : List fake_wiimote_t)
    (hsz : H.SIZEOF_BDADDR ≠ 0) (h0 : bdaddr.headD 0 = w.bdaddr.headD 0) :
    fake_wiimote_mgr_handle_hci_cmd_reject_con H E W bdaddr reason (w :: rest) =
      (true, (fake_wiimote_disconnect E W w).2.1 :: rest, (fake_wiimote_disconnect E W w).2.2) ∧
    fake_wiimote_mgr_handle_hci_cmd_accept_con H E W bdaddr role (w :: rest) =
      (accept_con_body H E W bdaddr role w).map (fun r => (true, r.1 :: rest, r.2)) := by
  have hm := bdaddr_memcmp_first_byte H bdaddr w hsz h0
  constructor
  · unfold fake_wiimote_mgr_handle_hci_cmd_reject_con
    rw [if_neg (by simp [hm])]
  · unfold fake_wiimote_mgr_handle_hci_cmd_accept_con
    rw [if_neg (by simp [hm])]
    cases accept_con_body H E W bdaddr role w <;> rfl

set_option maxRecDepth 100000 in
/-- C3 at a concrete input: the address `FE:01:02:03:04:05` differs from the
address of both sessions of the array in five bytes, and yet the reject handler
returns true and deactivates session 0, and the accept handler returns true,
enqueues its HCI events and sets the baseband state of session 0 to Complete. -/
theorem C3_address_test_first_byte_only_witness :
    (∀ w ∈ fw_added, w.bdaddr ≠ [0xFE, 1, 2, 3, 4, 5]) ∧
    (fake_wiimote_mgr_handle_hci_cmd_reject_con wii env_ok world_init [0xFE, 1, 2, 3, 4, 5] 0
        (wiimote_fresh :: fw_added.tail) =
      (true, (fake_wiimote_disconnect env_ok world_init wiimote_fresh).2.1 :: fw_added.tail,
        (fake_wiimote_disconnect env_ok world_init wiimote_fresh).2.2) ∧
    fake_wiimote_mgr_handle_hci_cmd_accept_con wii env_ok world_init [0xFE, 1, 2, 3, 4, 5] 0
        (wiimote_fresh :: fw_added.tail) =
      (accept_con_body wii env_ok world_init [0xFE, 1, 2, 3, 4, 5] 0 wiimote_fresh).map
        (fun r => (true, r.1 :: fw_added.tail, r.2))) ∧
    fw_added = wiimote_fresh :: fw_added.tail ∧
    (fake_wiimote_mgr_handle_hci_cmd_reject_con wii env_ok world_init [0xFE, 1, 2, 3, 4, 5] 0
        fw_added).1 = true ∧
    (fake_wiimote_mgr_handle_hci_cmd_reject_con wii env_ok world_init [0xFE, 1, 2, 3, 4, 5] 0
        fw_added).2.1.map (fun w => w.active) = [false, false] ∧
    (fake_wiimote_mgr_handle_hci_cmd_accept_con wii env_ok world_init [0xFE, 1, 2, 3, 4, 5] 0
        fw_added).map (fun r => (r.1, r.2.2.trace,
          r.2.1.map (fun w => w.baseband_state))) =
      some (true,
        [Event.enqueue_hci_event_command_status 0x0409,
         Event.hci_con_handle_virt_alloc,
         Event.enqueue_hci_event_role_change [0xFE, 1, 2, 3, 4, 5] 0,
         Event.enqueue_hci_event_con_compl [0xFE, 1, 2, 3, 4, 5] 0x101 0],
        [baseband_state_e.BASEBAND_STATE_COMPLETE, baseband_state_e.BASEBAND_STATE_INACTIVE]) :=
  ⟨by decide,
    C3_address_test_first_byte_only wii env_ok world_init [0xFE, 1, 2, 3, 4, 5] 0 0
      wiimote_fresh fw_added.tail (by decide) (by decide),
    by decide, by decide, by decide, by decide⟩

/-! ## C4: the accept sequence -/

theorem accept_con_body_ok (H : Headers) (E : Env) (W : world_t) (bdaddr : List Nat)
    (role : Nat) (w : fake_wiimote_t)
    (hok : ∀ n, W.trace.length ≤ n → E.ret n = H.IOS_OK) :
    accept_con_body H E W bdaddr role w =
      some ({ w with
          baseband_state := baseband_state_e.BASEBAND_STATE_COMPLETE
          hci_con_handle := E.virt_alloc (W.trace.length + 1)
          acl_state := acl_state_e.ACL_STATE_LINKING },
        { W with trace := W.trace ++
          ([Event.enqueue_hci_event_command_status H.HCI_CMD_ACCEPT_CON,
            Event.hci_con_handle_virt_alloc] ++
           (if role = H.HCI_ROLE_MASTER then
              [Event.enqueue_hci_event_role_change bdaddr H.HCI_ROLE_MASTER] else []) ++
           [Event.enqueue_hci_event_con_compl bdaddr (E.virt_alloc (W.trace.length + 1)) 0]) }) := by
  unfold accept_con_body
  simp only [call_int, call_void]
  rw [if_neg (by simp [hok])]
  by_cases hr : role = H.HCI_ROLE_MASTER
  · simp [hr, hok]
  · simp [hr, hok]

theorem accept_con_skip (H : Headers) (E : Env) (W : world_t) (bdaddr : List Nat)
    (role : Nat) (pre fw : List fake_wiimote_t)
    (hpre : ∀ v ∈ pre, bdaddr_memcmp H bdaddr v ≠ 0) :
    fake_wiimote_mgr_handle_hci_cmd_accept_con H E W bdaddr role (pre ++ fw) =
      (fake_wiimote_mgr_handle_hci_cmd_accept_con H E W bdaddr role fw).map
        (fun r => (r.1, pre ++ r.2.1, r.2.2)) := by
  induction pre with
  | nil =>
    rw [List.nil_append]
    cases h : fake_wiimote_mgr_handle_hci_cmd_accept_con H E W bdaddr role fw <;> rfl
  | cons v pre ih =>
    rw [List.cons_append, fake_wiimote_mgr_handle_hci_cmd_accept_con]
    rw [if_pos (hpre v (List.mem_cons_self _ _))]
    rw [ih (fun u hu => hpre u (List.mem_cons_of_mem _ hu))]
    cases h : fake_wiimote_mgr_handle_hci_cmd_accept_con H E W bdaddr role fw <;> rfl

theorem bdaddr_memcmp_other_first_byte (H : Headers) (bdaddr : List Nat) (w : fake_wiimote_t)
    (hsz : H.SIZEOF_BDADDR ≠ 0) (h0 : bdaddr.headD 0 ≠ w.bdaddr.headD 0) :
    bdaddr_memcmp H bdaddr w ≠ 0 := by
  unfold bdaddr_memcmp
  rw [if_pos hsz]
  unfold memcmp
  rw [if_neg h0]
  intro h
  exact h0 (Int.ofNat_inj.1 (sub_eq_zero.1 h))

/-- The accept sequence at the first session that passes the address test of the
handler: the handler returns true, makes the calls COMMAND_STATUS(ACCEPT_CON),
virtual allocator, ROLE_CHANGE(bdaddr, MASTER) if and only if `role == MASTER`,
CONNECTION_COMPLETE(bdaddr, h, 0), and writes the connection handle, baseband
state Complete and ACL state Linking to that session only. -/
theorem accept_con_sequence (H : Headers) (E : Env) (W : world_t) (bdaddr : List Nat)
    (role : Nat) (pre : List fake_wiimote_t) (w : fake_wiimote_t) (post : List fake_wiimote_t)
    (hpre : ∀ v ∈ pre, bdaddr_memcmp H bdaddr v ≠ 0)
    (hw : bdaddr_memcmp H bdaddr w = 0)
    (hok : ∀ n, W.trace.length ≤ n → E.ret n = H.IOS_OK) :
    fake_wiimote_mgr_handle_hci_cmd_accept_con H E W bdaddr role (pre ++ w :: post) =
      some (true,
        pre ++ { w with
          baseband_state := baseband_state_e.BASEBAND_STATE_COMPLETE
          hci_con_handle := E.virt_alloc (W.trace.length + 1)
          acl_state := acl_state_e.ACL_STATE_LINKING } :: post,
        { W with trace := W.trace ++
          ([Event.enqueue_hci_event_command_status H.HCI_CMD_ACCEPT_CON,
            Event.hci_con_handle_virt_alloc] ++
           (if role = H.HCI_ROLE_MASTER then
              [Event.enqueue_hci_event_role_change bdaddr H.HCI_ROLE_MASTER] else []) ++
           [Event.enqueue_hci_event_con_compl bdaddr (E.virt_alloc (W.trace.length + 1)) 0]) }) := by
  rw [accept_con_skip H E W bdaddr role pre (w :: post) hpre]
  rw [fake_wiimote_mgr_handle_hci_cmd_accept_con, if_neg (by simp [hw])]
  rw [accept_con_body_ok H E W bdaddr role w hok]
  rfl

/-- C4 (what the code does). The accept handler serves the first session whose
address has the same first byte as the address of the request, not the session
with that address.  Let the address of an Accept_Connection_Request be that of
session `t`, and let an earlier session `w` of the array have another address
with the same first byte, the sessions before `w` having
addresses with another first byte; let the HCI queue take the events (the
enqueue calls return `IOS_OK`, which the handler asserts).  Then the handler
returns true and makes, in this order, the calls COMMAND_STATUS(ACCEPT_CON),
virtual allocator, ROLE_CHANGE(address of `t`, MASTER) if and only if
`role == MASTER`, and CONNECTION_COMPLETE(address of `t`, h, 0); but the handle
`h`, baseband state Complete and ACL state Linking are written to session `w`,
and session `t`, like every other session, is left as it was. -/
theorem C4_accept_serves_first_byte_session (H : Headers) (E : Env) (W : world_t)
    (role : Nat) (pre : List fake_wiimote_t) (w : fake_wiimote_t)
    (mid : List fake_wiimote_t) (t : fake_wiimote_t) (post : List fake_wiimote_t)
    (hsz : H.SIZEOF_BDADDR ≠ 0)
    (hwt : w.bdaddr ≠ t.bdaddr)
    (hpre : ∀ v ∈ pre, t.bdaddr.headD 0 ≠ v.bdaddr.headD 0)
    (hw : t.bdaddr.headD 0 = w.bdaddr.headD 0)
    (hok : ∀ n, W.trace.length ≤ n → E.ret n = H.IOS_OK) :
    fake_wiimote_mgr_handle_hci_cmd_accept_con H E W t.bdaddr role
        (pre ++ w :: (mid ++ t :: post)) =
      some (true,
        pre ++ { w with
          baseband_state := baseband_state_e.BASEBAND_STATE_COMPLETE
          hci_con_handle := E.virt_alloc (W.trace.length + 1)
          acl_state := acl_state_e.ACL_STATE_LINKING } :: (mid ++ t :: post),
        { W with trace := W.trace ++
          ([Event.enqueue_hci_event_command_status H.HCI_CMD_ACCEPT_CON,
            Event.hci_con_handle_virt_alloc] ++
           (if role = H.HCI_ROLE_MASTER then
              [Event.enqueue_hci_event_role_change t.bdaddr H.HCI_ROLE_MASTER] else []) ++
           [Event.enqueue_hci_event_con_compl t.bdaddr
             (E.virt_alloc (W.trace.length + 1)) 0]) }) ∧
    w.bdaddr ≠ t.bdaddr := by
  exact ⟨accept_con_sequence H E W t.bdaddr role pre w (mid ++ t :: post)
    (fun v hv => bdaddr_memcmp_other_first_byte H t.bdaddr v hsz (hpre v hv))
    (bdaddr_memcmp_first_byte H t.bdaddr w hsz hw) hok, hwt⟩

set_option maxRecDepth 1000000 in
/-- C4 at the failing input: two sessions are added, with the addresses
`FE:ED:BA:DF:00:00` and `FE:ED:BA:DF:00:01`, and the host accepts the connection
of session 1, role MASTER, every enqueue succeeding.  The events carry the
address of session 1 and the handle 0x101; the handle, baseband Complete and ACL
Linking are written to session 0, and session 1 stays with handle 0, baseband
state Request-Connection and ACL Inactive. -/
theorem C4_accept_serves_first_byte_session_witness :
    fw_two_added = [] ++ (fw_two_added.getD 0 wiimote_zero) :: ([] ++ (fw_two_added.getD 1 wiimote_zero) :: []) ∧
    (fw_two_added.getD 1 wiimote_zero).bdaddr = [0xFE, 0xED, 0xBA, 0xDF, 0x00, 0x01] ∧
    (fake_wiimote_mgr_handle_hci_cmd_accept_con wii env_ok world_init
        (fw_two_added.getD 1 wiimote_zero).bdaddr 0
        ([] ++ (fw_two_added.getD 0 wiimote_zero) :: ([] ++ (fw_two_added.getD 1 wiimote_zero) :: [])) =
      some (true,
        [] ++ { (fw_two_added.getD 0 wiimote_zero) with
          baseband_state := baseband_state_e.BASEBAND_STATE_COMPLETE
          hci_con_handle := env_ok.virt_alloc (world_init.trace.length + 1)
          acl_state := acl_state_e.ACL_STATE_LINKING } ::
          ([] ++ (fw_two_added.getD 1 wiimote_zero) :: []),
        { world_init with trace := world_init.trace ++
          ([Event.enqueue_hci_event_command_status wii.HCI_CMD_ACCEPT_CON,
            Event.hci_con_handle_virt_alloc] ++
           (if (0 : Nat) = wii.HCI_ROLE_MASTER then
              [Event.enqueue_hci_event_role_change (fw_two_added.getD 1 wiimote_zero).bdaddr
                wii.HCI_ROLE_MASTER] else []) ++
           [Event.enqueue_hci_event_con_compl (fw_two_added.getD 1 wiimote_zero).bdaddr
             (env_ok.virt_alloc (world_init.trace.length + 1)) 0]) }) ∧
      (fw_two_added.getD 0 wiimote_zero).bdaddr ≠ (fw_two_added.getD 1 wiimote_zero).bdaddr) ∧
    (fake_wiimote_mgr_handle_hci_cmd_accept_con wii env_ok world_init
        [0xFE, 0xED, 0xBA, 0xDF, 0x00, 0x01] 0 fw_two_added).map
      (fun r => (r.1, r.2.2.trace)) =
      some (true,
        [Event.enqueue_hci_event_command_status 0x0409,
         Event.hci_con_handle_virt_alloc,
         Event.enqueue_hci_event_role_change [0xFE, 0xED, 0xBA, 0xDF, 0x00, 0x01] 0,
         Event.enqueue_hci_event_con_compl [0xFE, 0xED, 0xBA, 0xDF, 0x00, 0x01] 0x101 0]) ∧
    (fake_wiimote_mgr_handle_hci_cmd_accept_con wii env_ok world_init
        [0xFE, 0xED, 0xBA, 0xDF, 0x00, 0x01] 0 fw_two_added).map
      (fun r => (r.2.1.map (fun w => w.bdaddr), r.2.1.map (fun w => w.hci_con_handle),
        r.2.1.map (fun w => w.baseband_state), r.2.1.map (fun w => w.acl_state))) =
      some ([[0xFE, 0xED, 0xBA, 0xDF, 0x00, 0x00], [0xFE, 0xED, 0xBA, 0xDF, 0x00, 0x01]],
        [0x101, 0],
        [baseband_state_e.BASEBAND_STATE_COMPLETE,
         baseband_state_e.BASEBAND_STATE_REQUEST_CONNECTION],
        [acl_state_e.ACL_STATE_LINKING, acl_state_e.ACL_STATE_INACTIVE]) :=
  ⟨by decide, by decide,
    C4_accept_serves_first_byte_session wii env_ok world_init 0
      [] (fw_two_added.getD 0 wiimote_zero) [] (fw_two_added.getD 1 wiimote_zero) []
      (by decide) (by decide) (by decide) (by decide) (fun _ _ => rfl),
    by decide, by decide⟩

/-! ## C5: disconnection -/

theorem first_negative_snoc (l : List Int) (x : Int) :
    first_negative (l ++ [x]) =
      if x < 0 ∧ first_negative l = 0 then x else first_negative l := by
  unfold first_negative
  rw [List.find?_append]
  cases h : l.find? (fun x => decide (x < 0)) with
  | none =>
    by_cases hx : x < 0
    · simp [hx]
    · simp [hx]
  | some a =>
    have ha : a < 0 := by simpa using List.find?_some h
    have : a ≠ 0 := by omega
    simp [this]

theorem results_from_succ (E : Env) (n k : Nat) :
    results_from E n (k + 1) = results_from E n k ++ [E.ret (n + k)] := by
  simp [results_from, List.range_succ]

theorem chn_sel_set_get (c : chn_sel) (w : fake_wiimote_t) : c.set w (c.get w) = w := by
  cases c <;> rfl

/-- The state of `fake_wiimote_disconnect` after the calls `cs` have been made
on top of the trace `tr0`. -/
theorem disconnect_chn_step_acc (E : Env) (c : chn_sel) (sid : Nat) (tr0 cs : List Event)
    (wc : fake_wiimote_t) :
    disconnect_chn_step E c
        (first_negative (results_from E tr0.length cs.length), wc,
          { starting_id := sid, trace := tr0 ++ cs }) =
      (first_negative (results_from E tr0.length
          (cs ++ disconnect_req_of wc.hci_con_handle (c.get wc)).length),
        c.set wc (disconnected_chn (c.get wc)),
        { starting_id := sid,
          trace := tr0 ++ (cs ++ disconnect_req_of wc.hci_con_handle (c.get wc)) }) := by
  unfold disconnect_chn_step disconnect_req_of disconnected_chn
  by_cases h : l2cap_channel_is_accepted (c.get wc) = true
  · simp only [h, if_true, disconnect_l2cap_channel, call_int, List.length_append,
      List.length_singleton, results_from_succ, first_negative_snoc, List.append_assoc]
  · simp [h, chn_sel_set_get]


theorem fake_wiimote_disconnect_calls (E : Env) (W : world_t) (w : fake_wiimote_t) :
    (fake_wiimote_disconnect E W w).2.2 =
      { W with trace := W.trace ++
        (if l2cap_channel_is_complete w.psm_hid_intr_chn = true ∧
              w.input_device_ops.has_disconnect = true then
            [Event.ops_disconnect w.usrdata] else []) ++
        (disconnect_req_of w.hci_con_handle w.psm_sdp_chn ++
          disconnect_req_of w.hci_con_handle w.psm_hid_cntl_chn ++
          disconnect_req_of w.hci_con_handle w.psm_hid_intr_chn ++
          (if w.baseband_state = baseband_state_e.BASEBAND_STATE_COMPLETE then
            [Event.enqueue_hci_event_discon_compl w.hci_con_handle 0 0x13] else [])) } ∧
    (fake_wiimote_disconnect E W w).2.1 =
      { w with
        psm_sdp_chn := disconnected_chn w.psm_sdp_chn
        psm_hid_cntl_chn := disconnected_chn w.psm_hid_cntl_chn
        psm_hid_intr_chn := disconnected_chn w.psm_hid_intr_chn
        active := false } ∧
    (fake_wiimote_disconnect E W w).1 =
      first_negative (results_from E
        (W.trace ++
          (if l2cap_channel_is_complete w.psm_hid_intr_chn = true ∧
                w.input_device_ops.has_disconnect = true then
              [Event.ops_disconnect w.usrdata] else [])).length
        (disconnect_req_of w.hci_con_handle w.psm_sdp_chn ++
          disconnect_req_of w.hci_con_handle w.psm_hid_cntl_chn ++
          disconnect_req_of w.hci_con_handle w.psm_hid_intr_chn ++
          (if w.baseband_state = baseband_state_e.BASEBAND_STATE_COMPLETE then
            [Event.enqueue_hci_event_discon_compl w.hci_con_handle 0 0x13] else [])).length) := by
  generalize hcb : (if l2cap_channel_is_complete w.psm_hid_intr_chn = true ∧
      w.input_device_ops.has_disconnect = true then
      [Event.ops_disconnect w.usrdata] else []) = cb
  have hW1 : (if l2cap_channel_is_complete w.psm_hid_intr_chn then
        if w.input_device_ops.has_disconnect then
          call_void W (Event.ops_disconnect w.usrdata)
        else W
      else W) = { starting_id := W.starting_id, trace := (W.trace ++ cb) ++ [] } := by
    rw [← hcb]
    by_cases h1 : l2cap_channel_is_complete w.psm_hid_intr_chn = true <;>
    by_cases h2 : w.input_device_ops.has_disconnect = true <;>
    simp [h1, h2, call_void]
  have e1 : disconnect_chn_step E chn_sel.psm_sdp_chn
      (0, w, { starting_id := W.starting_id, trace := (W.trace ++ cb) ++ [] }) = _ :=
    disconnect_chn_step_acc E chn_sel.psm_sdp_chn W.starting_id (W.trace ++ cb) [] w
  unfold fake_wiimote_disconnect
  simp only [hW1]
  rw [e1, disconnect_chn_step_acc, disconnect_chn_step_acc]
  simp only [chn_sel.get, chn_sel.set, List.nil_append]
  by_cases h6 : w.baseband_state = baseband_state_e.BASEBAND_STATE_COMPLETE
  · simp only [h6, if_true, call_int, List.length_append, List.length_singleton,
      results_from_succ, first_negative_snoc, List.append_assoc]
    simp only [← Nat.add_assoc, results_from_succ, first_negative_snoc]
    exact ⟨trivial, trivial, trivial⟩
  · simp [h6]

/-- C5 (what the code does). For every session state `fake_wiimote_disconnect`
makes these calls, in this order: the driver disconnect callback if and only if
the HID-Interrupt channel is complete (`l2cap_channel_is_complete`) and the
callback exists; one L2CAP disconnect-req (remote_cid, local_cid) for each of the
SDP, HID-Control and HID-Interrupt channels that is accepted, whatever the
earlier sends returned; one HCI disconnection-complete event if and only if the
baseband state is Complete.  Afterwards every channel that was accepted is
invalid, `active` is false and nothing else of the session has changed.  The
value returned is the first negative result among the disconnect-req sends and
the enqueue of the disconnection-complete event, or 0 if none of them is
negative. -/
theorem C5_disconnect (E : Env) (W : world_t) (w : fake_wiimote_t) :
    (fake_wiimote_disconnect E W w).2.2 =
      { W with trace := W.trace ++
        (if l2cap_channel_is_complete w.psm_hid_intr_chn = true ∧
              w.input_device_ops.has_disconnect = true then
            [Event.ops_disconnect w.usrdata] else []) ++
        (disconnect_req_of w.hci_con_handle w.psm_sdp_chn ++
          disconnect_req_of w.hci_con_handle w.psm_hid_cntl_chn ++
          disconnect_req_of w.hci_con_handle w.psm_hid_intr_chn ++
          (if w.baseband_state = baseband_state_e.BASEBAND_STATE_COMPLETE then
            [Event.enqueue_hci_event_discon_compl w.hci_con_handle 0 0x13] else [])) } ∧
    (fake_wiimote_disconnect E W w).2.1 =
      { w with
        psm_sdp_chn := disconnected_chn w.psm_sdp_chn
        psm_hid_cntl_chn := disconnected_chn w.psm_hid_cntl_chn
        psm_hid_intr_chn := disconnected_chn w.psm_hid_intr_chn
        active := false } ∧
    (fake_wiimote_disconnect E W w).1 =
      first_negative (results_from E
        (W.trace ++
          (if l2cap_channel_is_complete w.psm_hid_intr_chn = true ∧
                w.input_device_ops.has_disconnect = true then
              [Event.ops_disconnect w.usrdata] else [])).length
        (disconnect_req_of w.hci_con_handle w.psm_sdp_chn ++
          disconnect_req_of w.hci_con_handle w.psm_hid_cntl_chn ++
          disconnect_req_of w.hci_con_handle w.psm_hid_intr_chn ++
          (if w.baseband_state = baseband_state_e.BASEBAND_STATE_COMPLETE then
            [Event.enqueue_hci_event_discon_compl w.hci_con_handle 0 0x13] else [])).length) :=
  fake_wiimote_disconnect_calls E W w

set_option maxRecDepth 100000 in
/-- C5, the claim as stated fails: for a session with baseband Complete and no
accepted channel, in an environment whose enqueue fails with -1, no L2CAP
disconnect-req is sent at all, so no send fails and the first negative result of
the sends is 0; the function returns -1, the result of the enqueue of the
disconnection-complete event. -/
theorem C5_disconnect_counterexample :
    (fake_wiimote_disconnect env_fail world_init wiimote_linking).2.2.trace =
      [Event.enqueue_hci_event_discon_compl 0x101 0 0x13] ∧
    (disconnect_req_of wiimote_linking.hci_con_handle wiimote_linking.psm_sdp_chn ++
      disconnect_req_of wiimote_linking.hci_con_handle wiimote_linking.psm_hid_cntl_chn ++
      disconnect_req_of wiimote_linking.hci_con_handle wiimote_linking.psm_hid_intr_chn) = [] ∧
    (fake_wiimote_disconnect env_fail world_init wiimote_linking).1 = -1 ∧
    (fake_wiimote_disconnect env_fail world_init wiimote_linking).1 ≠
      first_negative (results_from env_fail 0
        (disconnect_req_of wiimote_linking.hci_con_handle wiimote_linking.psm_sdp_chn ++
          disconnect_req_of wiimote_linking.hci_con_handle wiimote_linking.psm_hid_cntl_chn ++
          disconnect_req_of wiimote_linking.hci_con_handle
            wiimote_linking.psm_hid_intr_chn).length) := by
  decide

/-! ## C6: the connection handle after a disconnect -/

theorem disconnected_chn_not_accepted (c : l2cap_channel_info_t) :
    l2cap_channel_is_accepted (disconnected_chn c) = false := by
  unfold disconnected_chn
  by_cases h : l2cap_channel_is_accepted c = true
  · rw [if_pos h]
    simp [l2cap_channel_is_accepted]
  · rw [if_neg h]
    simpa using h

theorem disconnected_chn_not_complete (c : l2cap_channel_info_t) :
    l2cap_channel_is_complete (disconnected_chn c) = false := by
  have h := disconnected_chn_not_accepted c
  unfold l2cap_channel_is_complete
  simp [h]

theorem disconnect_req_of_disconnected (h : Nat) (c : l2cap_channel_info_t) :
    disconnect_req_of h (disconnected_chn c) = [] := by
  unfold disconnect_req_of
  simp [disconnected_chn_not_accepted]

/-- C6 (what the code does). `fake_wiimote_disconnect` does not touch
`baseband_state`: when the HCI Disconnect handler has disconnected a connected
session with connection handle `h`, the session still has baseband state
Complete and handle `h`, `fake_wiimote_mgr_hci_handle_belongs_to_fake_wiimote(h)`
still returns true, and a second HCI Disconnect for `h` matches the session
again, returns true and enqueues one more disconnection-complete event. -/
theorem C6_handle_survives_disconnect (E : Env) (W : world_t) (w : fake_wiimote_t)
    (rest : List fake_wiimote_t) (h reason : Nat)
    (hconn : w.baseband_state = baseband_state_e.BASEBAND_STATE_COMPLETE)
    (hh : w.hci_con_handle = h) :
    (fake_wiimote_mgr_handle_hci_cmd_disconnect E W h reason (w :: rest)).1 = true ∧
    ((fake_wiimote_mgr_handle_hci_cmd_disconnect E W h reason (w :: rest)).2.1.head?.map
      (fun v => (v.active, v.baseband_state, v.hci_con_handle))) =
      some (false, baseband_state_e.BASEBAND_STATE_COMPLETE, h) ∧
    fake_wiimote_mgr_hci_handle_belongs_to_fake_wiimote h
      (fake_wiimote_mgr_handle_hci_cmd_disconnect E W h reason (w :: rest)).2.1 = true ∧
    (fake_wiimote_mgr_handle_hci_cmd_disconnect E
      (fake_wiimote_mgr_handle_hci_cmd_disconnect E W h reason (w :: rest)).2.2 h reason
      (fake_wiimote_mgr_handle_hci_cmd_disconnect E W h reason (w :: rest)).2.1).1 = true ∧
    (fake_wiimote_mgr_handle_hci_cmd_disconnect E
      (fake_wiimote_mgr_handle_hci_cmd_disconnect E W h reason (w :: rest)).2.2 h reason
      (fake_wiimote_mgr_handle_hci_cmd_disconnect E W h reason (w :: rest)).2.1).2.2.trace =
      (fake_wiimote_mgr_handle_hci_cmd_disconnect E W h reason (w :: rest)).2.2.trace ++
        [Event.enqueue_hci_event_discon_compl h 0 0x13] := by
  obtain ⟨hW, hw, -⟩ := fake_wiimote_disconnect_calls E W w
  have h1 : fake_wiimote_mgr_handle_hci_cmd_disconnect E W h reason (w :: rest) =
      (true, (fake_wiimote_disconnect E W w).2.1 :: rest, (fake_wiimote_disconnect E W w).2.2) := by
    unfold fake_wiimote_mgr_handle_hci_cmd_disconnect
    rw [if_neg (by simp [fake_wiimote_is_connected, hconn, hh])]
  have hb : (fake_wiimote_disconnect E W w).2.1.baseband_state =
      baseband_state_e.BASEBAND_STATE_COMPLETE := by rw [hw]; exact hconn
  have hc : (fake_wiimote_disconnect E W w).2.1.hci_con_handle = h := by rw [hw]; exact hh
  have h2 : fake_wiimote_mgr_handle_hci_cmd_disconnect E (fake_wiimote_disconnect E W w).2.2 h
      reason ((fake_wiimote_disconnect E W w).2.1 :: rest) =
      (true, (fake_wiimote_disconnect E (fake_wiimote_disconnect E W w).2.2
          (fake_wiimote_disconnect E W w).2.1).2.1 :: rest,
        (fake_wiimote_disconnect E (fake_wiimote_disconnect E W w).2.2
          (fake_wiimote_disconnect E W w).2.1).2.2) := by
    unfold fake_wiimote_mgr_handle_hci_cmd_disconnect
    rw [if_neg (by simp [fake_wiimote_is_connected, hb, hc])]
  obtain ⟨hW2, -, -⟩ := fake_wiimote_disconnect_calls E (fake_wiimote_disconnect E W w).2.2
    (fake_wiimote_disconnect E W w).2.1
  rw [h1]
  refine ⟨rfl, ?_, ?_, ?_, ?_⟩
  · simp [hw, hconn, hh]
  · show fake_wiimote_mgr_hci_handle_belongs_to_fake_wiimote h
      ((fake_wiimote_disconnect E W w).2.1 :: rest) = true
    unfold fake_wiimote_mgr_hci_handle_belongs_to_fake_wiimote
    simp [fake_wiimote_is_connected, hb, hc]
  · show (fake_wiimote_mgr_handle_hci_cmd_disconnect E (fake_wiimote_disconnect E W w).2.2 h
      reason ((fake_wiimote_disconnect E W w).2.1 :: rest)).1 = true
    rw [h2]
  · show (fake_wiimote_mgr_handle_hci_cmd_disconnect E (fake_wiimote_disconnect E W w).2.2 h
      reason ((fake_wiimote_disconnect E W w).2.1 :: rest)).2.2.trace = _
    rw [h2]
    simp only
    rw [hW2, hb, hc]
    rw [hw]
    simp [disconnect_req_of_disconnected, disconnected_chn_not_complete]

set_option maxRecDepth 100000 in
/-- C6 at a concrete input: the session with baseband Complete and connection
handle 0x101, HCI Disconnect for 0x101 sent twice. -/
theorem C6_handle_survives_disconnect_witness :
    fake_wiimote_mgr_hci_handle_belongs_to_fake_wiimote 0x101
      (fake_wiimote_mgr_handle_hci_cmd_disconnect env_ok world_init 0x101 0x13
        (wiimote_linking :: fw_added.tail)).2.1 = true ∧
    (fake_wiimote_mgr_handle_hci_cmd_disconnect env_ok
      (fake_wiimote_mgr_handle_hci_cmd_disconnect env_ok world_init 0x101 0x13
        (wiimote_linking :: fw_added.tail)).2.2 0x101 0x13
      (fake_wiimote_mgr_handle_hci_cmd_disconnect env_ok world_init 0x101 0x13
        (wiimote_linking :: fw_added.tail)).2.1).2.2.trace =
      [Event.enqueue_hci_event_discon_compl 0x101 0 0x13,
       Event.enqueue_hci_event_discon_compl 0x101 0 0x13] :=
  ⟨(C6_handle_survives_disconnect env_ok world_init wiimote_linking fw_added.tail 0x101 0x13
      rfl rfl).2.2.1,
    by decide⟩

/-! ## C10: the data report -/

theorem extension_read_data_frame (H : Headers) (w : fake_wiimote_t) (address size : Nat) :
    (extension_read_data H w address size).2.2 =
      { w with
        extension_key := (extension_read_data H w address size).2.2.extension_key
        extension_key_dirty :=
          (extension_read_data H w address size).2.2.extension_key_dirty } := by
  unfold extension_read_data
  split
  · rfl
  · dsimp only
    split
    · split <;> rfl
    · rfl

theorem data_report_fill_frame (H : Headers) (E : Env) (w : fake_wiimote_t) :
    (data_report_fill H E w).2.hci_con_handle = w.hci_con_handle ∧
    (data_report_fill H E w).2.psm_hid_intr_chn = w.psm_hid_intr_chn ∧
    (data_report_fill H E w).2.reporting_mode = w.reporting_mode := by
  unfold data_report_fill
  dsimp only
  split
  · dsimp only
    rw [extension_read_data_frame]
    exact ⟨rfl, rfl, rfl⟩
  · exact ⟨rfl, rfl, rfl⟩

/-- C10. For every session state, with the report size
`(has_btn(mode) ? 2 : 0) + ext_size(mode)` within what the send functions accept
(their assertion) and within a `u8`: if `reporting_mode` is not Disabled and
reporting is continuous or the input is dirty, `fake_wiimote_send_data_report`
makes exactly one call, the send of one HID input report on the HID-Interrupt
channel with report id `reporting_mode` and a payload of that size, and
`input_dirty` is false afterwards; otherwise it makes no call and leaves the
session unchanged. -/
theorem C10_send_data_report (H : Headers) (E : Env) (W : world_t) (w : fake_wiimote_t)
    (hfit : (if H.input_report_has_btn w.reporting_mode then 2 else 0) +
      H.input_report_ext_size w.reporting_mode ≤ H.WIIMOTE_MAX_PAYLOAD - 2)
    (hu8 : (if H.input_report_has_btn w.reporting_mode then 2 else 0) +
      H.input_report_ext_size w.reporting_mode < 256) :
    if w.reporting_mode ≠ H.INPUT_REPORT_ID_REPORT_DISABLED ∧
        (w.reporting_continuous = true ∨ w.input_dirty = true) then
      ∃ w1 W1 bytes,
        fake_wiimote_send_data_report H E W w = some (w1, W1) ∧
        W1.trace = W.trace ++
          [Event.l2cap_send_msg w.hci_con_handle w.psm_hid_intr_chn.remote_cid
            (((H.HID_TYPE_DATA <<< 4) ||| H.HID_PARAM_INPUT) % 256) w.reporting_mode
            (hid_payload.raw bytes)] ∧
        bytes.length = (if H.input_report_has_btn w.reporting_mode then 2 else 0) +
          H.input_report_ext_size w.reporting_mode ∧
        w1.input_dirty = false
    else
      fake_wiimote_send_data_report H E W w = some (w, W) := by
  have he : H.input_report_ext_size w.reporting_mode % 256 =
      H.input_report_ext_size w.reporting_mode := Nat.mod_eq_of_lt (by omega)
  unfold fake_wiimote_send_data_report
  by_cases hd : w.reporting_mode = H.INPUT_REPORT_ID_REPORT_DISABLED
  · simp [hd]
  · by_cases hc : w.reporting_continuous = true ∨ w.input_dirty = true
    · rw [if_pos ⟨hd, hc⟩, if_neg hd, if_pos hc]
      simp only [he, Nat.mod_eq_of_lt hu8]
      unfold send_hid_input_report
      rw [if_pos (by simpa [hid_payload.fits, memread_length] using hfit)]
      obtain ⟨h1, h2, h3⟩ := data_report_fill_frame H E w
      refine ⟨_, _, memread (data_report_fill H E w).1 0
        ((if H.input_report_has_btn w.reporting_mode then 2 else 0) +
          H.input_report_ext_size w.reporting_mode), rfl, ?_, ?_, rfl⟩
      · simp only [call_int, h1, h2, h3]
      · exact memread_length _ _ _
    · rw [if_neg (fun h => hc h.2), if_neg hd, if_neg hc]

set_option maxRecDepth 100000 in
/-- C10 at a concrete input: buttons-only mode 0x30, input dirty. -/
theorem C10_send_data_report_witness :
    ∃ w1 W1 bytes,
      fake_wiimote_send_data_report wii env_ok world_init
        { wiimote_linking with input_dirty := true } = some (w1, W1) ∧
      W1.trace = world_init.trace ++
        [Event.l2cap_send_msg 0x101 0 0xA1 0x30 (hid_payload.raw bytes)] ∧
      bytes.length = 2 ∧
      w1.input_dirty = false := by
  have h := C10_send_data_report wii env_ok world_init
    { wiimote_linking with input_dirty := true } (by decide) (by decide)
  rw [if_pos (by decide)] at h
  exact h

/-! ## Executions: what each function leaves alone -/

theorem marks_append (a b : List Event) : marks (a ++ b) = marks a ++ marks b := by
  simp [marks]

theorem send_hid_input_report_marks (H : Headers) (E : Env) (W : world_t)
    (h d r : Nat) (p : hid_payload) (res : Int × world_t)
    (hs : send_hid_input_report H E W h d r p = some res) :
    marks res.2.trace = marks W.trace ∧ res.2.starting_id = W.starting_id := by
  unfold send_hid_input_report at hs
  split at hs
  · cases hs
    simp [call_int, marks, Event.mark?]
  · cases hs

theorem extension_write_data_frame (H : Headers) (w : fake_wiimote_t) (src : List Nat)
    (address size : Nat) :
    link_part (extension_write_data H w src address size).2 = link_part w := by
  unfold extension_write_data
  split
  · rfl
  · dsimp only
    split <;> rfl

theorem read_request_switch_frame (H : Headers) (w : fake_wiimote_t) (address read_size : Nat) :
    link_part (read_request_switch H w address read_size).2.2 = link_part w := by
  unfold read_request_switch
  dsimp only
  split_ifs <;> first | rfl | (rw [extension_read_data_frame]; rfl)

theorem read_request_advance_frame (H : Headers) (error read_size : Nat) (w : fake_wiimote_t) :
    link_part (read_request_advance H error read_size w).2 = link_part w := by
  unfold read_request_advance
  split <;> rfl

theorem write_request_switch_frame (H : Headers) (w : fake_wiimote_t) (write : write_data_t) :
    link_part (write_request_switch H w write).2 = link_part w := by
  unfold write_request_switch
  dsimp only
  split_ifs <;> first | rfl | exact extension_write_data_frame _ _ _ _ _

theorem process_read_request_quiet (H : Headers) (E : Env) (W : world_t)
    (w : fake_wiimote_t) (res : Bool × fake_wiimote_t × world_t)
    (hs : fake_wiimote_process_read_request H E W w = some res) :
    marks res.2.2.trace = marks W.trace ∧ res.2.2.starting_id = W.starting_id ∧
      link_part res.2.1 = link_part w := by
  unfold fake_wiimote_process_read_request at hs
  dsimp only at hs
  split at hs
  · cases hs
    exact ⟨rfl, rfl, rfl⟩
  · split at hs
    · cases hs
    · rename_i r hr
      cases hs
      have := send_hid_input_report_marks _ _ _ _ _ _ _ _ hr
      refine ⟨this.1, this.2, ?_⟩
      dsimp only
      rw [read_request_advance_frame, read_request_switch_frame]

theorem process_write_request_quiet (H : Headers) (E : Env) (W : world_t)
    (w : fake_wiimote_t) (write : write_data_t) (res : fake_wiimote_t × world_t)
    (hs : fake_wiimote_process_write_request H E W w write = some res) :
    marks res.2.trace = marks W.trace ∧ res.2.starting_id = W.starting_id ∧
      link_part res.1 = link_part w := by
  unfold fake_wiimote_process_write_request at hs
  dsimp only at hs
  split at hs
  · cases hs
    exact ⟨rfl, rfl, rfl⟩
  · unfold wiimote_send_ack at hs
    split at hs
    · cases hs
    · rename_i r hr
      cases hs
      have := send_hid_input_report_marks _ _ _ _ _ _ _ _ hr
      exact ⟨this.1, this.2, write_request_switch_frame _ _ _⟩

theorem process_extension_change_quiet (H : Headers) (E : Env) (W : world_t)
    (fw : List fake_wiimote_t) (i : Nat)
    (w : fake_wiimote_t) (res : Bool × fake_wiimote_t × world_t)
    (hs : fake_wiimote_process_extension_change H E W fw i w = some res) :
    marks res.2.2.trace = marks W.trace ∧ res.2.2.starting_id = W.starting_id ∧
      link_part res.2.1 = link_part w := by
  unfold fake_wiimote_process_extension_change at hs
  split at hs
  · cases hs
    exact ⟨rfl, rfl, rfl⟩
  · dsimp only at hs
    unfold wiimote_send_input_report_status at hs
    split at hs
    · cases hs
    · rename_i r hr
      cases hs
      have := send_hid_input_report_marks _ _ _ _ _ _ _ _ hr
      refine ⟨this.1, this.2, ?_⟩
      dsimp only
      split <;> rfl

theorem data_report_fill_link (H : Headers) (E : Env) (w : fake_wiimote_t) :
    link_part (data_report_fill H E w).2 = link_part w := by
  unfold data_report_fill
  dsimp only
  split
  · dsimp only
    rw [extension_read_data_frame]
    rfl
  · rfl

theorem send_data_report_quiet (H : Headers) (E : Env) (W : world_t)
    (w : fake_wiimote_t) (res : fake_wiimote_t × world_t)
    (hs : fake_wiimote_send_data_report H E W w = some res) :
    marks res.2.trace = marks W.trace ∧ res.2.starting_id = W.starting_id ∧
      link_part res.1 = link_part w := by
  unfold fake_wiimote_send_data_report at hs
  split at hs
  · cases hs
    exact ⟨rfl, rfl, rfl⟩
  · split at hs
    · dsimp only at hs
      split at hs
      · cases hs
      · rename_i r hr
        cases hs
        have := send_hid_input_report_marks _ _ _ _ _ _ _ _ hr
        exact ⟨this.1, this.2, data_report_fill_link H E w⟩
    · cases hs
      exact ⟨rfl, rfl, rfl⟩

theorem wiimote_send_ack_marks (H : Headers) (E : Env) (W : world_t) (w : fake_wiimote_t)
    (r e : Nat) (res : Int × world_t) (hs : wiimote_send_ack H E W w r e = some res) :
    marks res.2.trace = marks W.trace ∧ res.2.starting_id = W.starting_id :=
  send_hid_input_report_marks _ _ _ _ _ _ _ _ hs

theorem hid_intr_data_output_quiet (H : Headers) (E : Env) (W : world_t)
    (fw : List fake_wiimote_t) (i : Nat) (w : fake_wiimote_t) (rep : output_report)
    (res : fake_wiimote_t × world_t)
    (hs : handle_hid_intr_data_output H E W fw i w rep = some res) :
    marks res.2.trace = marks W.trace ∧ res.2.starting_id = W.starting_id ∧
      link_part res.1 = link_part w := by
  cases rep with
  | led leds ack =>
    simp only [handle_hid_intr_data_output] at hs
    split at hs
    · split at hs
      · cases hs
      · rename_i r hr
        cases hs
        have := wiimote_send_ack_marks _ _ _ _ _ _ _ hr
        refine ⟨?_, ?_, rfl⟩
        · rw [this.1]
          split <;> simp [call_void, marks, Event.mark?]
        · rw [this.2]
          split <;> rfl
    · cases hs
      refine ⟨?_, ?_, rfl⟩
      · dsimp only
        split <;> simp [call_void, marks, Event.mark?]
      · dsimp only
        split <;> rfl
  | status =>
    simp only [handle_hid_intr_data_output] at hs
    unfold wiimote_send_input_report_status at hs
    split at hs
    · cases hs
    · rename_i r hr
      cases hs
      have := send_hid_input_report_marks _ _ _ _ _ _ _ _ hr
      exact ⟨this.1, this.2, rfl⟩
  | report_mode mode continuous ack =>
    simp only [handle_hid_intr_data_output] at hs
    split at hs
    · split at hs
      · cases hs
      · rename_i r hr
        cases hs
        have := wiimote_send_ack_marks _ _ _ _ _ _ _ hr
        exact ⟨this.1, this.2, rfl⟩
    · cases hs
      exact ⟨rfl, rfl, rfl⟩
  | write_data write =>
    simp only [handle_hid_intr_data_output] at hs
    exact process_write_request_quiet _ _ _ _ _ _ hs
  | read_data space slave_address address size =>
    simp only [handle_hid_intr_data_output] at hs
    split at hs
    · split at hs
      · cases hs
      · rename_i r hr
        cases hs
        have := wiimote_send_ack_marks _ _ _ _ _ _ _ hr
        exact ⟨this.1, this.2, rfl⟩
    · split at hs
      · cases hs
      · rename_i r hr
        cases hs
        have := process_read_request_quiet _ _ _ _ _ hr
        exact ⟨this.1, this.2.1, this.2.2⟩
  | other id =>
    simp only [handle_hid_intr_data_output] at hs
    cases hs
    exact ⟨rfl, rfl, rfl⟩

theorem quiet_of_link (a b : fake_wiimote_t × world_t)
    (hm : marks b.2.trace = marks a.2.trace) (hl : link_part b.1 = link_part a.1) :
    quiet_step a b := by
  simp only [link_part, Prod.mk.injEq] at hl
  refine ⟨hm, hl.2.2.1, ?_⟩
  rw [hl.2.2.2.2.2.1]
  exact id

theorem marks_disconnect_req_of (h : Nat) (c : l2cap_channel_info_t) :
    marks (disconnect_req_of h c) = [] := by
  unfold disconnect_req_of
  split <;> rfl

theorem disconnected_chn_valid (c : l2cap_channel_info_t)
    (h : (disconnected_chn c).valid = true) : c.valid = true := by
  unfold disconnected_chn at h
  split at h
  · cases h
  · exact h

theorem disconnect_quiet (E : Env) (W : world_t) (w : fake_wiimote_t) :
    quiet_step (w, W) (fake_wiimote_disconnect E W w).2 := by
  obtain ⟨hW, hw, -⟩ := fake_wiimote_disconnect_calls E W w
  refine ⟨?_, ?_, ?_⟩
  · rw [hW]
    simp only [marks_append, marks_disconnect_req_of, List.append_nil]
    split <;> split <;> simp [marks, Event.mark?]
  · rw [hw]
  · rw [hw]
    exact disconnected_chn_valid _

theorem chn_sel_set_acl (c : chn_sel) (w : fake_wiimote_t) (info : l2cap_channel_info_t) :
    (c.set w info).acl_state = w.acl_state := by
  cases c <;> rfl

theorem chn_sel_set_cntl_valid (c : chn_sel) (w : fake_wiimote_t) (info : l2cap_channel_info_t)
    (hv : info.valid = (c.get w).valid ∨ info.valid = false)
    (h : (c.set w info).psm_hid_cntl_chn.valid = true) :
    w.psm_hid_cntl_chn.valid = true := by
  cases c
  · exact h
  · simp only [chn_sel.set, chn_sel.get] at h hv
    rcases hv with hv | hv
    · rw [← hv]; exact h
    · rw [hv] at h; cases h
  · exact h

theorem config_req_quiet (H : Headers) (E : Env) (W : world_t) (w : fake_wiimote_t)
    (ident dcid flags : Nat) (options : List Nat) (options_size : Nat)
    (res : fake_wiimote_t × world_t)
    (hs : handle_l2cap_config_req H E W w ident dcid flags options options_size = some res) :
    quiet_step (w, W) res := by
  unfold handle_l2cap_config_req at hs
  split at hs
  · cases hs
  · split at hs
    · cases hs
    · split at hs
      · cases hs
      · rename_i info hinfo
        dsimp only at hs
        split at hs
        · cases hs
        · cases hs
          refine ⟨?_, chn_sel_set_acl _ _ _, chn_sel_set_cntl_valid _ _ _ (Or.inl rfl)⟩
          simp [call_int, marks, Event.mark?]

theorem signal_quiet (H : Headers) (E : Env) (W : world_t) (w : fake_wiimote_t)
    (ident : Nat) (cmd : l2cap_cmd) (res : fake_wiimote_t × world_t)
    (hs : handle_l2cap_signal_channel H E W w ident cmd = some res) :
    quiet_step (w, W) res := by
  cases cmd with
  | connect_req psm scid =>
    simp only [handle_l2cap_signal_channel] at hs
    cases hs
    exact ⟨rfl, rfl, id⟩
  | connect_rsp dcid scid result status =>
    simp only [handle_l2cap_signal_channel] at hs
    split at hs
    · simp only [Option.some.injEq] at hs
      rw [← hs]
      exact disconnect_quiet E W w
    · split at hs
      · cases hs
      · split at hs
        · cases hs
        · cases hs
          exact ⟨rfl, chn_sel_set_acl _ _ _, chn_sel_set_cntl_valid _ _ _ (Or.inl rfl)⟩
  | config_req dcid flags options options_size =>
    simp only [handle_l2cap_signal_channel] at hs
    exact config_req_quiet _ _ _ _ _ _ _ _ _ _ hs
  | config_rsp scid flags result =>
    simp only [handle_l2cap_signal_channel] at hs
    split at hs
    · cases hs
    · split at hs
      · cases hs
      · cases hs
        exact ⟨rfl, chn_sel_set_acl _ _ _, chn_sel_set_cntl_valid _ _ _ (Or.inl rfl)⟩
  | disconnect_req dcid scid =>
    simp only [handle_l2cap_signal_channel] at hs
    split at hs
    · cases hs
    · cases hs
      split
      · refine ⟨?_, chn_sel_set_acl _ _ _, chn_sel_set_cntl_valid _ _ _ (Or.inr rfl)⟩
        dsimp only [call_int]
        split <;> simp [call_void, marks, Event.mark?]
      · refine ⟨?_, rfl, id⟩
        simp [call_int, marks, Event.mark?]
  | other code =>
    simp only [handle_l2cap_signal_channel] at hs
    cases hs
    exact ⟨rfl, rfl, id⟩

theorem check_send_config_quiet (H : Headers) (E : Env) (W : world_t) (h : Nat)
    (info : l2cap_channel_info_t) :
    (check_send_config_for_new_channel H E W h info).1.valid = info.valid ∧
    marks (check_send_config_for_new_channel H E W h info).2.trace = marks W.trace := by
  unfold check_send_config_for_new_channel
  split
  · dsimp only
    split <;> simp [call_int, marks, Event.mark?]
  · exact ⟨rfl, rfl⟩

theorem tick_send_configs_quiet (H : Headers) (E : Env) (W : world_t) (w : fake_wiimote_t) :
    marks (tick_send_configs H E W w).2.trace = marks W.trace ∧
    (tick_send_configs H E W w).1.acl_state = w.acl_state ∧
    (tick_send_configs H E W w).1.psm_hid_cntl_chn.valid = w.psm_hid_cntl_chn.valid := by
  unfold tick_send_configs
  dsimp only
  refine ⟨?_, rfl, (check_send_config_quiet _ _ _ _ _).1⟩
  rw [(check_send_config_quiet _ _ _ _ _).2, (check_send_config_quiet _ _ _ _ _).2]

theorem tick_linking_cascade_cases (H : Headers) (E : Env) (W : world_t) (i : Nat)
    (w : fake_wiimote_t) (res : fake_wiimote_t × world_t)
    (hs : tick_linking_cascade H E W i w = some res) :
    (res = (w, W)) ∨
    (marks res.2.trace = marks W.trace ++ [mark.connect_req H.L2CAP_PSM_HID_CNTL] ∧
      res.1.acl_state = w.acl_state) ∨
    (marks res.2.trace = marks W.trace ++ [mark.connect_req H.L2CAP_PSM_HID_INTR] ∧
      w.psm_hid_cntl_chn.valid = true ∧ res.1.acl_state = w.acl_state ∧
      res.1.psm_hid_cntl_chn = w.psm_hid_cntl_chn) ∨
    (marks res.2.trace = marks W.trace ++ [mark.assigned] ∧
      res.1.acl_state = acl_state_e.ACL_STATE_INACTIVE ∧
      l2cap_channel_is_complete w.psm_hid_cntl_chn = true ∧
      l2cap_channel_is_complete w.psm_hid_intr_chn = true ∧
      res.1.psm_hid_cntl_chn = w.psm_hid_cntl_chn) := by
  unfold tick_linking_cascade at hs
  by_cases hc : w.psm_hid_cntl_chn.valid = true
  · by_cases hi : w.psm_hid_intr_chn.valid = true
    · by_cases hcomp : (l2cap_channel_is_complete w.psm_hid_cntl_chn &&
          l2cap_channel_is_complete w.psm_hid_intr_chn) = true
      · simp only [hc, hi, hcomp, Bool.not_true, Bool.false_eq_true, if_false,
          if_true, Option.some.injEq] at hs
        subst hs
        simp only [Bool.and_eq_true] at hcomp
        right; right; right
        exact ⟨by simp [call_void, marks, Event.mark?], rfl, hcomp.1, hcomp.2, rfl⟩
      · simp only [hc, hi, hcomp, Bool.not_true, Bool.false_eq_true, if_false,
          Option.some.injEq] at hs
        exact Or.inl hs.symm
    · simp only [hc, hi, Bool.not_true, Bool.false_eq_true, if_false,
        Bool.not_false, if_true] at hs
      split at hs
      · simp only [Option.some.injEq] at hs
        subst hs
        right; right; left
        exact ⟨by simp [call_int, generate_l2cap_channel_id, marks, Event.mark?],
          hc, rfl, rfl⟩
      · cases hs
  · simp only [hc, Bool.not_false, if_true, Bool.false_eq_true] at hs
    split at hs
    · simp only [Option.some.injEq] at hs
      subst hs
      right; left
      exact ⟨by simp [call_int, generate_l2cap_channel_id, marks, Event.mark?], rfl⟩
    · cases hs

theorem tick_cases (H : Headers) (E : Env) (W : world_t) (fw : List fake_wiimote_t) (i : Nat)
    (w : fake_wiimote_t) (res : fake_wiimote_t × world_t)
    (hs : fake_wiimote_tick H E W fw i w = some res) :
    quiet_step (w, W) res ∨
    (marks res.2.trace = marks W.trace ++ [mark.connect_req H.L2CAP_PSM_HID_CNTL] ∧
      res.1.acl_state = w.acl_state) ∨
    (marks res.2.trace = marks W.trace ++ [mark.connect_req H.L2CAP_PSM_HID_INTR] ∧
      w.psm_hid_cntl_chn.valid = true ∧ res.1.acl_state = w.acl_state) ∨
    (marks res.2.trace = marks W.trace ++ [mark.assigned] ∧
      w.baseband_state = baseband_state_e.BASEBAND_STATE_COMPLETE ∧
      w.acl_state = acl_state_e.ACL_STATE_LINKING ∧
      res.1.acl_state = acl_state_e.ACL_STATE_INACTIVE ∧
      l2cap_channel_is_complete w.psm_hid_cntl_chn = true ∧
      l2cap_channel_is_complete w.psm_hid_intr_chn = true ∧
      (res.1.psm_hid_cntl_chn.valid = true → w.psm_hid_cntl_chn.valid = true)) := by
  unfold fake_wiimote_tick at hs
  split at hs
  · -- REQUEST_CONNECTION
    left
    dsimp only at hs
    split at hs <;> cases hs <;>
      exact ⟨by simp [call_void, marks, Event.mark?], rfl, id⟩
  · split at hs
    · rename_i hbb
      split at hs
      · -- LINKING
        rename_i hacl
        split at hs
        · cases hs
        · rename_i w1 W1 hcasc
          cases hs
          obtain ⟨hm, ha, hv⟩ := tick_send_configs_quiet H E W1 w1
          rcases tick_linking_cascade_cases H E W i w (w1, W1) hcasc with h | h | h | h
          · cases h
            left
            exact ⟨hm, ha, fun hx => hv ▸ hx⟩
          · right; left
            exact ⟨hm.trans h.1, ha.trans h.2⟩
          · right; right; left
            exact ⟨hm.trans h.1, h.2.1, ha.trans h.2.2.1⟩
          · right; right; right
            refine ⟨hm.trans h.1, hbb, hacl, ha.trans h.2.1, h.2.2.1, h.2.2.2.1, ?_⟩
            intro hx
            rw [hv, h.2.2.2.2] at hx
            exact hx
      · -- post-link processing
        left
        split at hs
        · cases hs
        · rename_i w1 W1 hr
          cases hs
          have := process_read_request_quiet _ _ _ _ _ hr
          exact quiet_of_link (w, W) (w1, W1) this.1 this.2.2
        · rename_i w1 W1 hr
          have h1 := process_read_request_quiet _ _ _ _ _ hr
          split at hs
          · cases hs
          · rename_i w2 W2 hr2
            cases hs
            have h2 := process_extension_change_quiet _ _ _ _ _ _ _ hr2
            exact quiet_of_link (w, W) (w2, W2) (h2.1.trans h1.1) (h2.2.2.trans h1.2.2)
          · rename_i w2 W2 hr2
            have h2 := process_extension_change_quiet _ _ _ _ _ _ _ hr2
            have h3 := send_data_report_quiet _ _ _ _ _ hs
            exact quiet_of_link (w, W) res (h3.1.trans (h2.1.trans h1.1))
              (h3.2.2.trans (h2.2.2.trans h1.2.2))
    · cases hs
      left
      exact ⟨rfl, rfl, id⟩

theorem accept_con_body_marks (H : Headers) (E : Env) (W : world_t) (bdaddr : List Nat)
    (role : Nat) (w : fake_wiimote_t) (res : fake_wiimote_t × world_t)
    (hs : accept_con_body H E W bdaddr role w = some res) :
    marks res.2.trace = marks W.trace ++ [mark.accept] ∧
    res.1.acl_state = acl_state_e.ACL_STATE_LINKING ∧
    res.1.psm_hid_cntl_chn = w.psm_hid_cntl_chn := by
  unfold accept_con_body at hs
  dsimp only at hs
  split at hs
  · cases hs
  · split at hs
    · cases hs
    · rename_i W3 hW3
      split at hs
      · cases hs
      · cases hs
        refine ⟨?_, rfl, rfl⟩
        split at hW3
        · split at hW3
          · cases hW3
          · cases hW3
            simp [call_int, call_void, marks, Event.mark?]
        · cases hW3
          simp [call_int, call_void, marks, Event.mark?]

/-- The effect of one step of a session on the marked calls, the ACL state and
the validity of the HID-Control channel record. -/
theorem exec_step_cases (H : Headers) (E : Env) (s : fake_wiimote_t × world_t) (st : step)
    (res : fake_wiimote_t × world_t) (hs : exec_step H E s st = some res) :
    quiet_step s res ∨
    (marks res.2.trace = marks s.2.trace ++ [mark.connect_req H.L2CAP_PSM_HID_CNTL] ∧
      res.1.acl_state = s.1.acl_state) ∨
    (marks res.2.trace = marks s.2.trace ++ [mark.connect_req H.L2CAP_PSM_HID_INTR] ∧
      s.1.psm_hid_cntl_chn.valid = true ∧ res.1.acl_state = s.1.acl_state) ∨
    (marks res.2.trace = marks s.2.trace ++ [mark.assigned] ∧
      (∃ fw i, st = step.tick fw i) ∧
      s.1.acl_state = acl_state_e.ACL_STATE_LINKING ∧
      res.1.acl_state = acl_state_e.ACL_STATE_INACTIVE ∧
      l2cap_channel_is_complete s.1.psm_hid_cntl_chn = true ∧
      l2cap_channel_is_complete s.1.psm_hid_intr_chn = true ∧
      (res.1.psm_hid_cntl_chn.valid = true → s.1.psm_hid_cntl_chn.valid = true)) ∨
    (marks res.2.trace = marks s.2.trace ++ [mark.accept] ∧
      (res.1.psm_hid_cntl_chn.valid = true → s.1.psm_hid_cntl_chn.valid = true)) := by
  cases st with
  | tick fw i =>
    simp only [exec_step] at hs
    split at hs
    · rcases tick_cases H E s.2 fw i s.1 res hs with h | h | h | h
      · exact Or.inl h
      · exact Or.inr (Or.inl h)
      · exact Or.inr (Or.inr (Or.inl h))
      · exact Or.inr (Or.inr (Or.inr (Or.inl
          ⟨h.1, ⟨fw, i, rfl⟩, h.2.2.1, h.2.2.2.1, h.2.2.2.2.1, h.2.2.2.2.2.1, h.2.2.2.2.2.2⟩)))
    · cases hs
      exact Or.inl ⟨rfl, rfl, id⟩
  | accept_con bdaddr role =>
    simp only [exec_step] at hs
    have := accept_con_body_marks H E s.2 bdaddr role s.1 res hs
    exact Or.inr (Or.inr (Or.inr (Or.inr ⟨this.1, fun hx => this.2.2 ▸ hx⟩)))
  | reject_con =>
    simp only [exec_step, Option.some.injEq] at hs
    subst hs
    exact Or.inl (disconnect_quiet E s.2 s.1)
  | hci_disconnect h =>
    simp only [exec_step] at hs
    split at hs
    · cases hs
      exact Or.inl ⟨rfl, rfl, id⟩
    · simp only [Option.some.injEq] at hs
      subst hs
      exact Or.inl (disconnect_quiet E s.2 s.1)
  | remove_input_device =>
    simp only [exec_step, Option.some.injEq] at hs
    subst hs
    exact Or.inl (disconnect_quiet E s.2 s.1)
  | signal ident cmd =>
    simp only [exec_step] at hs
    split at hs
    · exact Or.inl (signal_quiet H E s.2 s.1 ident cmd res hs)
    · cases hs
      exact Or.inl ⟨rfl, rfl, id⟩
  | hid_output fw i local_cid rep =>
    simp only [exec_step] at hs
    split at hs
    · split at hs
      · split at hs
        · have := hid_intr_data_output_quiet H E s.2 fw i s.1 rep res hs
          exact Or.inl (quiet_of_link s res this.1 this.2.2)
        · cases hs
          exact Or.inl ⟨rfl, rfl, id⟩
      · cases hs
        exact Or.inl ⟨rfl, rfl, id⟩
    · cases hs
      exact Or.inl ⟨rfl, rfl, id⟩
  | set_extension ext =>
    simp only [exec_step, Option.some.injEq] at hs
    subst hs
    exact Or.inl ⟨rfl, rfl, id⟩
  | report_input buttons =>
    simp only [exec_step, Option.some.injEq] at hs
    subst hs
    refine Or.inl ⟨rfl, ?_, ?_⟩
    · unfold fake_wiimote_mgr_report_input
      dsimp only
      split <;> rfl
    · unfold fake_wiimote_mgr_report_input
      dsimp only
      split <;> exact id
  | cid_elsewhere =>
    simp only [exec_step, Option.some.injEq] at hs
    subst hs
    exact Or.inl ⟨rfl, rfl, id⟩

/-! ## Executions: invariants -/

theorem exec_invariant (H : Headers) (E : Env) (P : fake_wiimote_t × world_t → Prop)
    (hstep : ∀ s st res, P s → exec_step H E s st = some res → P res)
    (steps : List step) :
    ∀ s0 s, P s0 → exec H E s0 steps = some s → P s := by
  induction steps with
  | nil =>
    intro s0 s h0 hs
    simp only [exec, Option.some.injEq] at hs
    exact hs ▸ h0
  | cons st rest ih =>
    intro s0 s h0 hs
    simp only [exec] at hs
    split at hs
    · cases hs
    · rename_i s1 h1
      exact ih s1 s (hstep s0 st s1 h0 h1) hs

theorem cntl_before_intr_snoc (c i : Nat) (ms : List mark) (m : mark)
    (ho : cntl_before_intr c i ms)
    (hm : m = mark.connect_req i → mark.connect_req c ∈ ms) :
    cntl_before_intr c i (ms ++ [m]) := by
  intro pre post heq
  rcases List.eq_nil_or_concat post with hpost | ⟨post1, x, hpost⟩
  · subst hpost
    have := List.append_inj' (show ms ++ [m] = pre ++ [mark.connect_req i] from heq) rfl
    rw [← this.1]
    exact hm (List.singleton_inj.1 this.2)
  · subst hpost
    have h2 : ms ++ [m] = (pre ++ mark.connect_req i :: post1) ++ [x] := by
      rw [heq]; simp
    exact ho pre post1 (List.append_inj' h2 rfl).1

/-- The invariant behind the ordering of the connect-reqs: a valid HID-Control
channel record has its connect-req in the trace, every connect-req of the trace
is for HID-Control or HID-Interrupt, and every connect-req for HID-Interrupt
comes after one for HID-Control. -/
theorem connect_order_step (H : Headers) (E : Env)
    (hpsm : H.L2CAP_PSM_HID_CNTL ≠ H.L2CAP_PSM_HID_INTR)
    (s : fake_wiimote_t × world_t) (st : step)
    (res : fake_wiimote_t × world_t)
    (hP : (s.1.psm_hid_cntl_chn.valid = true →
        mark.connect_req H.L2CAP_PSM_HID_CNTL ∈ marks s.2.trace) ∧
      (∀ p, mark.connect_req p ∈ marks s.2.trace →
        p = H.L2CAP_PSM_HID_CNTL ∨ p = H.L2CAP_PSM_HID_INTR) ∧
      cntl_before_intr H.L2CAP_PSM_HID_CNTL H.L2CAP_PSM_HID_INTR (marks s.2.trace))
    (hs : exec_step H E s st = some res) :
    (res.1.psm_hid_cntl_chn.valid = true →
        mark.connect_req H.L2CAP_PSM_HID_CNTL ∈ marks res.2.trace) ∧
      (∀ p, mark.connect_req p ∈ marks res.2.trace →
        p = H.L2CAP_PSM_HID_CNTL ∨ p = H.L2CAP_PSM_HID_INTR) ∧
      cntl_before_intr H.L2CAP_PSM_HID_CNTL H.L2CAP_PSM_HID_INTR (marks res.2.trace) := by
  obtain ⟨hv, hp, ho⟩ := hP
  have hp_snoc : ∀ m : mark,
      (∀ p, m = mark.connect_req p → p = H.L2CAP_PSM_HID_CNTL ∨ p = H.L2CAP_PSM_HID_INTR) →
      ∀ p, mark.connect_req p ∈ marks s.2.trace ++ [m] →
        p = H.L2CAP_PSM_HID_CNTL ∨ p = H.L2CAP_PSM_HID_INTR := by
    intro m hm p hmem
    rcases List.mem_append.1 hmem with h | h
    · exact hp p h
    · exact hm p (List.mem_singleton.1 h).symm
  rcases exec_step_cases H E s st res hs with h | h | h | h | h
  · obtain ⟨hm, -, hval⟩ := h
    rw [hm]
    exact ⟨fun hx => hv (hval hx), hp, ho⟩
  · rw [h.1]
    refine ⟨fun _ => List.mem_append_right _ (List.mem_singleton_self _), ?_, ?_⟩
    · exact hp_snoc _ (fun p hp => Or.inl (mark.connect_req.inj hp).symm)
    · exact cntl_before_intr_snoc _ _ _ _ ho
        (fun hx => absurd (mark.connect_req.inj hx) hpsm)
  · rw [h.1]
    refine ⟨fun _ => List.mem_append_left _ (hv h.2.1), ?_, ?_⟩
    · exact hp_snoc _ (fun p hp => Or.inr (mark.connect_req.inj hp).symm)
    · exact cntl_before_intr_snoc _ _ _ _ ho (fun _ => hv h.2.1)
  · rw [h.1]
    refine ⟨fun hx => List.mem_append_left _ (hv (h.2.2.2.2.2.2 hx)), ?_, ?_⟩
    · exact hp_snoc _ (fun p hp => by cases hp)
    · exact cntl_before_intr_snoc _ _ _ _ ho (fun hx => by cases hx)
  · rw [h.1]
    refine ⟨fun hx => List.mem_append_left _ (hv (h.2 hx)), ?_, ?_⟩
    · exact hp_snoc _ (fun p hp => by cases hp)
    · exact cntl_before_intr_snoc _ _ _ _ ho (fun hx => by cases hx)

/-! ## C8: HID-Control is connected before HID-Interrupt -/

/-- C8. In every execution of a session that starts from the session
`fake_wiimote_mgr_add_input_device` creates (with an empty trace) and goes
through any sequence of ticks, HCI commands, L2CAP signalling commands, output
reports and driver calls, every L2CAP connect-req the session has emitted for
PSM HID-Interrupt comes after a connect-req for PSM HID-Control, and the first
connect-req emitted is for HID-Control.  A tick, from any state, emits a
connect-req for HID-Interrupt only when the HID-Control channel record is
already valid. -/
theorem C8_cntl_connect_req_first (H : Headers) (E : Env)
    (hpsm : H.L2CAP_PSM_HID_CNTL ≠ H.L2CAP_PSM_HID_INTR)
    (usrdata : Nat) (ops : input_device_ops_t) (w0 : fake_wiimote_t) (sid : Nat)
    (steps : List step) (s : fake_wiimote_t × world_t)
    (hexec : exec H E (add_input_device_assign H usrdata ops w0,
      { starting_id := sid, trace := [] }) steps = some s) :
    cntl_before_intr H.L2CAP_PSM_HID_CNTL H.L2CAP_PSM_HID_INTR (marks s.2.trace) ∧
    (∀ pre p post, marks s.2.trace = pre ++ mark.connect_req p :: post →
      (∀ q, mark.connect_req q ∉ pre) → p = H.L2CAP_PSM_HID_CNTL) ∧
    (∀ (w : fake_wiimote_t) (W : world_t) (fw : List fake_wiimote_t) (i : Nat)
      (res : fake_wiimote_t × world_t) (new : List mark),
      fake_wiimote_tick H E W fw i w = some res →
      marks res.2.trace = marks W.trace ++ new →
      mark.connect_req H.L2CAP_PSM_HID_INTR ∈ new →
      w.psm_hid_cntl_chn.valid = true) := by
  have h0 : cntl_before_intr H.L2CAP_PSM_HID_CNTL H.L2CAP_PSM_HID_INTR (marks []) := by
    intro pre post h
    cases pre <;> cases h
  have hinv := exec_invariant H E
    (fun s => (s.1.psm_hid_cntl_chn.valid = true →
        mark.connect_req H.L2CAP_PSM_HID_CNTL ∈ marks s.2.trace) ∧
      (∀ p, mark.connect_req p ∈ marks s.2.trace →
        p = H.L2CAP_PSM_HID_CNTL ∨ p = H.L2CAP_PSM_HID_INTR) ∧
      cntl_before_intr H.L2CAP_PSM_HID_CNTL H.L2CAP_PSM_HID_INTR (marks s.2.trace))
    (fun s st res hP hs => connect_order_step H E hpsm s st res hP hs) steps _ s
    ⟨fun h => Bool.noConfusion h, fun p h => absurd h (List.not_mem_nil _), h0⟩ hexec
  obtain ⟨-, hp, ho⟩ := hinv
  refine ⟨ho, ?_, ?_⟩
  · intro pre p post heq hpre
    rcases hp p (by rw [heq]; simp) with h | h
    · exact h
    · subst h
      exact absurd (ho pre post heq) (hpre _)
  · intro w W fw i res new ht hnew hmem
    rcases tick_cases H E W fw i w res ht with h | h | h | h
    · rw [h.1] at hnew
      have : new = [] := by simpa using hnew.symm
      subst this
      cases hmem
    · rw [h.1] at hnew
      have : new = [mark.connect_req H.L2CAP_PSM_HID_CNTL] := (List.append_cancel_left hnew).symm
      subst this
      have hc : H.L2CAP_PSM_HID_INTR = H.L2CAP_PSM_HID_CNTL := by simpa using hmem
      exact absurd hc.symm hpsm
    · exact h.2.1
    · rw [h.1] at hnew
      have : new = [mark.assigned] := (List.append_cancel_left hnew).symm
      subst this
      simp at hmem

set_option maxRecDepth 1000000 in
/-- C8 at a concrete input: the execution `steps_link_up` of the fresh session,
in which the marked calls are the accept, the connect-req for HID-Control
(PSM 0x11), the connect-req for HID-Interrupt (PSM 0x13) and the `assigned`
callback, in this order. -/
theorem C8_cntl_connect_req_first_witness :
    ∃ s, exec wii env_ok (wiimote_fresh, world_init) steps_link_up = some s ∧
      marks s.2.trace =
        [mark.accept, mark.connect_req 0x11, mark.connect_req 0x13, mark.assigned] ∧
      cntl_before_intr 0x11 0x13 (marks s.2.trace) := by
  have hm : (exec wii env_ok (wiimote_fresh, world_init) steps_link_up).map
      (fun s => marks s.2.trace) =
      some [mark.accept, mark.connect_req 0x11, mark.connect_req 0x13, mark.assigned] := by
    decide
  cases hs : exec wii env_ok (wiimote_fresh, world_init) steps_link_up with
  | none => rw [hs] at hm; cases hm
  | some s =>
    rw [hs] at hm
    exact ⟨s, rfl, Option.some.inj hm,
      (C8_cntl_connect_req_first wii env_ok (by decide) 7 ops_all
        { wiimote_zero with bdaddr := wii.FAKE_WIIMOTE_BDADDR 0 } 0x40 steps_link_up s hs).1⟩

/-! ## C9: the assigned callback -/

theorem count_snoc_ne (ms : List mark) (m x : mark) (h : x ≠ m) :
    (ms ++ [x]).count m = ms.count m := by
  simp [List.count_append, List.count_singleton, h]

theorem count_snoc_self (ms : List mark) (m : mark) :
    (ms ++ [m]).count m = ms.count m + 1 := by
  simp [List.count_append]

/-- The invariant behind the counting of the `assigned` callbacks: the callbacks
made so far, plus one while the ACL state is Linking, are at most the accepts
handled so far. -/
theorem assigned_count_step (H : Headers) (E : Env) (s : fake_wiimote_t × world_t) (st : step)
    (res : fake_wiimote_t × world_t)
    (hP : (marks s.2.trace).count mark.assigned +
        (if s.1.acl_state = acl_state_e.ACL_STATE_LINKING then 1 else 0) ≤
      (marks s.2.trace).count mark.accept)
    (hs : exec_step H E s st = some res) :
    (marks res.2.trace).count mark.assigned +
        (if res.1.acl_state = acl_state_e.ACL_STATE_LINKING then 1 else 0) ≤
      (marks res.2.trace).count mark.accept := by
  rcases exec_step_cases H E s st res hs with h | h | h | h | h
  · rw [h.1, h.2.1]
    exact hP
  · rw [h.1, h.2, count_snoc_ne _ _ _ (by simp), count_snoc_ne _ _ _ (by simp)]
    exact hP
  · rw [h.1, h.2.2, count_snoc_ne _ _ _ (by simp), count_snoc_ne _ _ _ (by simp)]
    exact hP
  · rw [h.1, h.2.2.2.1, count_snoc_self, count_snoc_ne _ _ _ (by simp)]
    rw [h.2.2.1] at hP
    simpa using hP
  · rw [h.1, count_snoc_self, count_snoc_ne _ _ _ (by simp)]
    split at hP <;> split <;> omega

set_option maxRecDepth 1000000 in
/-- C9, the claim as stated fails: in the execution `steps_accept_twice` the link
comes up, the `assigned` callback is invoked, the host sends a second
Accept_Connection_Request for the session, which sets the ACL state to Linking
again, and the next tick invokes the `assigned` callback a second time. -/
theorem C9_assigned_twice_counterexample :
    (exec wii env_ok (wiimote_fresh, world_init) steps_accept_twice).map
        (fun s => ((marks s.2.trace).count mark.assigned, s.1.active)) =
      some (2, true) := by
  decide

/-- C9 (what the code does). In every execution of a session that starts from
the session `fake_wiimote_mgr_add_input_device` creates (with an empty trace)
and goes through any sequence of ticks, HCI commands, L2CAP signalling commands,
output reports and driver calls, the `assigned` callback has been invoked at
most as many times as Accept_Connection_Request commands have been handled for
the session, so at most once when the host accepts the connection once.  From
any state, a step that invokes the callback is a tick, and at the start of that
tick the ACL state is Linking and both the HID-Control and the HID-Interrupt
channel are complete. -/
theorem C9_assigned_once_per_accept (H : Headers) (E : Env)
    (usrdata : Nat) (ops : input_device_ops_t) (w0 : fake_wiimote_t) (sid : Nat)
    (steps : List step) (s : fake_wiimote_t × world_t)
    (hexec : exec H E (add_input_device_assign H usrdata ops w0,
      { starting_id := sid, trace := [] }) steps = some s) :
    (marks s.2.trace).count mark.assigned ≤ (marks s.2.trace).count mark.accept ∧
    ((marks s.2.trace).count mark.accept ≤ 1 → (marks s.2.trace).count mark.assigned ≤ 1) ∧
    (∀ (a : fake_wiimote_t × world_t) (st : step) (b : fake_wiimote_t × world_t)
      (new : List mark),
      exec_step H E a st = some b →
      marks b.2.trace = marks a.2.trace ++ new →
      mark.assigned ∈ new →
      (∃ fw i, st = step.tick fw i) ∧
      a.1.acl_state = acl_state_e.ACL_STATE_LINKING ∧
      l2cap_channel_is_complete a.1.psm_hid_cntl_chn = true ∧
      l2cap_channel_is_complete a.1.psm_hid_intr_chn = true) := by
  have hinv := exec_invariant H E
    (fun s => (marks s.2.trace).count mark.assigned +
        (if s.1.acl_state = acl_state_e.ACL_STATE_LINKING then 1 else 0) ≤
      (marks s.2.trace).count mark.accept)
    (fun s st res hP hs => assigned_count_step H E s st res hP hs) steps _ s
    (by simp [marks, add_input_device_assign, acl_state_e.of_int,
      l2cap_channel_state_e.to_int]) hexec
  have hle : (marks s.2.trace).count mark.assigned ≤ (marks s.2.trace).count mark.accept :=
    le_trans (Nat.le_add_right _ _) hinv
  refine ⟨hle, fun h1 => le_trans hle h1, ?_⟩
  intro a st b new hs hnew hmem
  rcases exec_step_cases H E a st b hs with h | h | h | h | h
  · rw [h.1] at hnew
    have : new = [] := by simpa using hnew.symm
    subst this
    cases hmem
  · rw [h.1] at hnew
    have : new = [_] := (List.append_cancel_left hnew).symm
    subst this
    simp at hmem
  · rw [h.1] at hnew
    have : new = [_] := (List.append_cancel_left hnew).symm
    subst this
    simp at hmem
  · exact ⟨h.2.1, h.2.2.1, h.2.2.2.2.1, h.2.2.2.2.2.1⟩
  · rw [h.1] at hnew
    have : new = [_] := (List.append_cancel_left hnew).symm
    subst this
    simp at hmem

set_option maxRecDepth 1000000 in
/-- C9 at a concrete input: the execution `steps_link_up` of the fresh session,
with one accept and one `assigned` callback. -/
theorem C9_assigned_once_per_accept_witness :
    ∃ s, exec wii env_ok (wiimote_fresh, world_init) steps_link_up = some s ∧
      (marks s.2.trace).count mark.accept = 1 ∧
      (marks s.2.trace).count mark.assigned = 1 ∧
      (marks s.2.trace).count mark.assigned ≤ (marks s.2.trace).count mark.accept := by
  have hm : (exec wii env_ok (wiimote_fresh, world_init) steps_link_up).map
      (fun s => ((marks s.2.trace).count mark.accept, (marks s.2.trace).count mark.assigned)) =
      some (1, 1) := by
    decide
  cases hs : exec wii env_ok (wiimote_fresh, world_init) steps_link_up with
  | none => rw [hs] at hm; cases hm
  | some s =>
    rw [hs] at hm
    have h2 := Option.some.inj hm
    simp only [Prod.mk.injEq] at h2
    exact ⟨s, rfl, h2.1, h2.2,
      (C9_assigned_once_per_accept wii env_ok 7 ops_all
        { wiimote_zero with bdaddr := wii.FAKE_WIIMOTE_BDADDR 0 } 0x40 steps_link_up s hs).1⟩

/-! ## What the report functions send -/

theorem send_hid_input_report_eq (H : Headers) (E : Env) (W : world_t)
    (h d r : Nat) (p : hid_payload) (hp : p.fits H = true) :
    send_hid_input_report H E W h d r p =
      some (E.ret W.trace.length, { W with trace := W.trace ++
        [Event.l2cap_send_msg h d (((H.HID_TYPE_DATA <<< 4) ||| H.HID_PARAM_INPUT) % 256) r p] }) := by
  unfold send_hid_input_report
  rw [if_pos hp]
  rfl

theorem wiimote_send_ack_eq (H : Headers) (E : Env) (W : world_t) (w : fake_wiimote_t)
    (rpt_id error_code : Nat) :
    wiimote_send_ack H E W w rpt_id error_code =
      some (E.ret W.trace.length, { W with trace := W.trace ++
        [input_report_of H w H.INPUT_REPORT_ID_ACK
          (hid_payload.ack w.buttons rpt_id error_code)] }) := by
  unfold wiimote_send_ack
  rw [send_hid_input_report_eq H E W _ _ _ (hid_payload.ack w.buttons rpt_id error_code) rfl]
  rfl

theorem wiimote_send_input_report_status_eq (H : Headers) (E : Env) (W : world_t)
    (fw : List fake_wiimote_t) (w : fake_wiimote_t) :
    wiimote_send_input_report_status H E W fw w =
      some (E.ret W.trace.length, { W with trace := W.trace ++
        [input_report_of H w H.INPUT_REPORT_ID_STATUS
          (hid_payload.status w.buttons
            ((fw.head?.map (fun v => v.cur_extension)) !=
              some wiimote_mgr_ext_u.WIIMOTE_MGR_EXT_NONE))] }) := by
  unfold wiimote_send_input_report_status
  rw [send_hid_input_report_eq H E W _ _ _ (hid_payload.status w.buttons _) rfl]
  rfl

theorem extension_read_data_read_frame (H : Headers) (w : fake_wiimote_t) (address size : Nat) :
    read_frame (extension_read_data H w address size).2.2 = read_frame w := by
  rw [extension_read_data_frame]
  rfl

theorem read_request_switch_read_frame (H : Headers) (w : fake_wiimote_t)
    (address read_size : Nat) :
    read_frame (read_request_switch H w address read_size).2.2 = read_frame w := by
  unfold read_request_switch
  dsimp only
  split_ifs <;> first | rfl | exact extension_read_data_read_frame _ _ _ _

theorem read_request_advance_read_frame (H : Headers) (error read_size : Nat)
    (w : fake_wiimote_t) :
    read_frame (read_request_advance H error read_size w).2 = read_frame w := by
  unfold read_request_advance
  split <;> rfl

/-- The session after one step of a pending read agrees with the session
before it on every field but the read cursor, the cached key and its dirty
flag. -/
theorem read_step_read_frame (H : Headers) (w : fake_wiimote_t) (address read_size : Nat) :
    read_frame (read_request_advance H (read_request_switch H w address read_size).1 read_size
        (read_request_switch H w address read_size).2.2).2 = read_frame w := by
  rw [read_request_advance_read_frame, read_request_switch_read_frame]

theorem process_read_request_idle (H : Headers) (E : Env) (W : world_t) (w : fake_wiimote_t)
    (h0 : w.read_request.size = 0) :
    fake_wiimote_process_read_request H E W w = some (false, w, W) := by
  unfold fake_wiimote_process_read_request
  simp [h0]

theorem process_read_request_step (H : Headers) (E : Env) (W : world_t) (w : fake_wiimote_t)
    (h0 : w.read_request.size ≠ 0) :
    fake_wiimote_process_read_request H E W w =
      some (true,
        (read_request_advance H
          (read_request_switch H w w.read_request.address (min 16 w.read_request.size)).1
          (min 16 w.read_request.size)
          (read_request_switch H w w.read_request.address (min 16 w.read_request.size)).2.2).2,
        { W with trace := W.trace ++
          [input_report_of H w H.INPUT_REPORT_ID_READ_DATA_REPLY
            (hid_payload.read_data w.buttons
              ((read_request_advance H
                (read_request_switch H w w.read_request.address
                  (min 16 w.read_request.size)).1
                (min 16 w.read_request.size)
                (read_request_switch H w w.read_request.address
                  (min 16 w.read_request.size)).2.2).1 - 1)
              (read_request_switch H w w.read_request.address (min 16 w.read_request.size)).1
              w.read_request.address
              (read_request_switch H w w.read_request.address
                (min 16 w.read_request.size)).2.1)] }) := by
  have hf := read_step_read_frame H w w.read_request.address (min 16 w.read_request.size)
  simp only [read_frame, Prod.mk.injEq] at hf
  obtain ⟨⟨-, -, hh, -, -⟩, ⟨-, -, hi⟩, ⟨-, -, -, -, hb⟩, -⟩ := hf
  unfold fake_wiimote_process_read_request
  have hm : ¬ min 16 w.read_request.size = 0 := by omega
  simp only [hm, if_false]
  rw [send_hid_input_report_eq H E W _ _ _ (hid_payload.read_data _ _ _ _ _) rfl]
  simp only [input_report_of, hh, hi, hb]

theorem process_extension_change_idle (H : Headers) (E : Env) (W : world_t)
    (fw : List fake_wiimote_t) (i : Nat) (w : fake_wiimote_t)
    (h : w.new_extension = w.cur_extension) :
    fake_wiimote_process_extension_change H E W fw i w = some (false, w, W) := by
  unfold fake_wiimote_process_extension_change
  rw [if_pos h]

theorem process_extension_change_step (H : Headers) (E : Env) (W : world_t)
    (fw : List fake_wiimote_t) (i : Nat) (w : fake_wiimote_t)
    (h : w.new_extension ≠ w.cur_extension) :
    fake_wiimote_process_extension_change H E W fw i w =
      some (true, extension_change_applied H w,
        { W with trace := W.trace ++
          [input_report_of H w H.INPUT_REPORT_ID_STATUS
            (hid_payload.status w.buttons
              ((((fw.set i (extension_change_applied H w)).head?).map
                (fun v => v.cur_extension)) !=
                  some wiimote_mgr_ext_u.WIIMOTE_MGR_EXT_NONE))] }) := by
  have hw : (match extension_id_code H w.new_extension with
      | some id_code =>
        { w with
          extension_regs := memwrite w.extension_regs H.OFFSET_identifier id_code 6 }
      | none => w) =
      { w with extension_regs :=
          match extension_id_code H w.new_extension with
          | some id_code => memwrite w.extension_regs H.OFFSET_identifier id_code 6
          | none => w.extension_regs } := by
    cases extension_id_code H w.new_extension <;> rfl
  unfold fake_wiimote_process_extension_change
  rw [if_neg h]
  dsimp only
  rw [wiimote_send_input_report_status_eq, hw]
  rfl

theorem send_data_report_disabled (H : Headers) (E : Env) (W : world_t) (w : fake_wiimote_t)
    (h : w.reporting_mode = H.INPUT_REPORT_ID_REPORT_DISABLED) :
    fake_wiimote_send_data_report H E W w = some (w, W) := by
  unfold fake_wiimote_send_data_report
  rw [if_pos h]

/-- The three cases of the post-link branch of `fake_wiimote_tick`. -/
theorem tick_post_link (H : Headers) (E : Env) (W : world_t) (fw : List fake_wiimote_t)
    (i : Nat) (w : fake_wiimote_t)
    (hb : w.baseband_state = baseband_state_e.BASEBAND_STATE_COMPLETE)
    (ha : w.acl_state ≠ acl_state_e.ACL_STATE_LINKING) :
    fake_wiimote_tick H E W fw i w =
      if w.read_request.size ≠ 0 then
        (fake_wiimote_process_read_request H E W w).map (fun r => r.2)
      else if w.new_extension ≠ w.cur_extension then
        (fake_wiimote_process_extension_change H E W fw i w).map (fun r => r.2)
      else
        fake_wiimote_send_data_report H E W w := by
  unfold fake_wiimote_tick
  rw [if_neg (by rw [hb]; decide), if_pos hb, if_neg ha]
  by_cases h0 : w.read_request.size = 0
  · rw [process_read_request_idle H E W w h0, if_neg (by simpa using h0)]
    dsimp only
    by_cases h1 : w.new_extension = w.cur_extension
    · rw [process_extension_change_idle H E W fw i w h1, if_neg (by simpa using h1)]
    · rw [process_extension_change_step H E W fw i w h1, if_pos h1]
      rfl
  · rw [process_read_request_step H E W w h0, if_pos h0]
    rfl

/-! ## Ticks that send no input report -/

theorem check_send_config_no_report (H : Headers) (E : Env) (W : world_t) (h : Nat)
    (info : l2cap_channel_info_t) :
    ∃ new, (check_send_config_for_new_channel H E W h info).2.trace = W.trace ++ new ∧
      ∀ e ∈ new, e.is_input_report = false := by
  unfold check_send_config_for_new_channel
  split
  · refine ⟨[Event.l2cap_send_config_req h info.remote_cid H.WII_REQUEST_MTU
      H.L2CAP_FLUSH_TIMO_DEFAULT], ?_, ?_⟩
    · dsimp only [call_int]
      split <;> rfl
    · intro e he
      rw [List.mem_singleton.1 he]
      rfl
  · exact ⟨[], (List.append_nil _).symm, fun e he => absurd he (List.not_mem_nil _)⟩

theorem tick_send_configs_no_report (H : Headers) (E : Env) (W : world_t) (w : fake_wiimote_t) :
    (tick_send_configs H E W w).1.reporting_mode = w.reporting_mode ∧
    ∃ new, (tick_send_configs H E W w).2.trace = W.trace ++ new ∧
      ∀ e ∈ new, e.is_input_report = false := by
  unfold tick_send_configs
  dsimp only
  refine ⟨rfl, ?_⟩
  obtain ⟨n1, h1, hn1⟩ := check_send_config_no_report H E W w.hci_con_handle w.psm_hid_cntl_chn
  obtain ⟨n2, h2, hn2⟩ := check_send_config_no_report H E
    (check_send_config_for_new_channel H E W w.hci_con_handle w.psm_hid_cntl_chn).2
    w.hci_con_handle w.psm_hid_intr_chn
  refine ⟨n1 ++ n2, ?_, ?_⟩
  · rw [h2, h1, List.append_assoc]
  · intro e he
    rcases List.mem_append.1 he with h | h
    · exact hn1 e h
    · exact hn2 e h

theorem tick_linking_cascade_no_report (H : Headers) (E : Env) (W : world_t) (i : Nat)
    (w : fake_wiimote_t) (res : fake_wiimote_t × world_t)
    (hs : tick_linking_cascade H E W i w = some res) :
    res.1.reporting_mode = w.reporting_mode ∧
    ∃ new, res.2.trace = W.trace ++ new ∧ ∀ e ∈ new, e.is_input_report = false := by
  unfold tick_linking_cascade at hs
  split at hs
  · dsimp only at hs
    split at hs
    · cases hs
      exact ⟨rfl, [_], rfl, fun e he => by rw [List.mem_singleton.1 he]; rfl⟩
    · cases hs
  · split at hs
    · dsimp only at hs
      split at hs
      · cases hs
        exact ⟨rfl, [_], rfl, fun e he => by rw [List.mem_singleton.1 he]; rfl⟩
      · cases hs
    · split at hs
      · cases hs
        exact ⟨rfl, [_], rfl, fun e he => by rw [List.mem_singleton.1 he]; rfl⟩
      · cases hs
        exact ⟨rfl, [], (List.append_nil _).symm, fun e he => absurd he (List.not_mem_nil _)⟩

/-- A tick of a session that is not in the post-link branch (baseband not
Complete, or ACL Linking) sends no HID input report and keeps the reporting
mode. -/
theorem tick_pre_link_no_report (H : Headers) (E : Env) (W : world_t)
    (fw : List fake_wiimote_t) (i : Nat) (w : fake_wiimote_t) (res : fake_wiimote_t × world_t)
    (hpre : w.baseband_state ≠ baseband_state_e.BASEBAND_STATE_COMPLETE ∨
      w.acl_state = acl_state_e.ACL_STATE_LINKING)
    (hs : fake_wiimote_tick H E W fw i w = some res) :
    res.1.reporting_mode = w.reporting_mode ∧
    ∃ new, res.2.trace = W.trace ++ new ∧ ∀ e ∈ new, e.is_input_report = false := by
  unfold fake_wiimote_tick at hs
  split at hs
  · dsimp only at hs
    split at hs <;> cases hs <;>
      exact ⟨rfl, [_], rfl, fun e he => by rw [List.mem_singleton.1 he]; rfl⟩
  · split at hs
    · rename_i hb
      rcases hpre with h | h
      · exact absurd hb h
      · rw [if_pos h] at hs
        split at hs
        · cases hs
        · rename_i w1 W1 hc
          cases hs
          obtain ⟨hm1, n1, h1, hn1⟩ := tick_linking_cascade_no_report H E W i w (w1, W1) hc
          obtain ⟨hm2, n2, h2, hn2⟩ := tick_send_configs_no_report H E W1 w1
          refine ⟨hm2.trans hm1, n1 ++ n2, ?_, ?_⟩
          · rw [h2]
            dsimp only at h1
            rw [h1, List.append_assoc]
          · intro e he
            rcases List.mem_append.1 he with h | h
            · exact hn1 e h
            · exact hn2 e h
    · cases hs
      exact ⟨rfl, [], (List.append_nil _).symm, fun e he => absurd he (List.not_mem_nil _)⟩

/-! ## C11: no data report while reporting is disabled -/

theorem not_data_report_of_not_input_report (e : Event) (h : e.is_input_report = false) :
    e.is_data_report = false := by
  cases e <;> first | rfl | cases h

theorem tick_disabled (H : Headers) (E : Env) (W : world_t) (fw : List fake_wiimote_t)
    (i : Nat) (w : fake_wiimote_t) (res : fake_wiimote_t × world_t)
    (hd : w.reporting_mode = H.INPUT_REPORT_ID_REPORT_DISABLED)
    (hs : fake_wiimote_tick H E W fw i w = some res) :
    res.1.reporting_mode = H.INPUT_REPORT_ID_REPORT_DISABLED ∧
    ∃ new, res.2.trace = W.trace ++ new ∧ ∀ e ∈ new, e.is_data_report = false := by
  by_cases hpost : w.baseband_state = baseband_state_e.BASEBAND_STATE_COMPLETE ∧
      w.acl_state ≠ acl_state_e.ACL_STATE_LINKING
  · rw [tick_post_link H E W fw i w hpost.1 hpost.2] at hs
    by_cases h0 : w.read_request.size = 0
    · rw [if_neg (by simpa using h0)] at hs
      by_cases h1 : w.new_extension = w.cur_extension
      · rw [if_neg (by simpa using h1), send_data_report_disabled H E W w hd] at hs
        cases hs
        exact ⟨hd, [], (List.append_nil _).symm, fun e he => absurd he (List.not_mem_nil _)⟩
      · rw [if_pos h1, process_extension_change_step H E W fw i w h1] at hs
        cases hs
        exact ⟨rfl, [_], rfl, fun e he => by rw [List.mem_singleton.1 he]; rfl⟩
    · rw [if_pos h0, process_read_request_step H E W w h0] at hs
      cases hs
      have hf := read_step_read_frame H w w.read_request.address (min 16 w.read_request.size)
      simp only [read_frame, Prod.mk.injEq] at hf
      refine ⟨?_, [_], rfl, fun e he => by rw [List.mem_singleton.1 he]; rfl⟩
      exact hf.2.2.1.2.2.1.trans hd
  · have hpre : w.baseband_state ≠ baseband_state_e.BASEBAND_STATE_COMPLETE ∨
        w.acl_state = acl_state_e.ACL_STATE_LINKING := by
      by_cases hb : w.baseband_state = baseband_state_e.BASEBAND_STATE_COMPLETE
      · right
        by_contra ha
        exact hpost ⟨hb, ha⟩
      · exact Or.inl hb
    obtain ⟨hm, new, hn, hnew⟩ := tick_pre_link_no_report H E W fw i w res hpre hs
    exact ⟨hm.trans hd, new, hn,
      fun e he => not_data_report_of_not_input_report e (hnew e he)⟩

theorem report_input_mode (w : fake_wiimote_t) (buttons : Nat) :
    (fake_wiimote_mgr_report_input w buttons).reporting_mode = w.reporting_mode := by
  unfold fake_wiimote_mgr_report_input
  split <;> rfl

theorem report_input_ext_mode (H : Headers) (w : fake_wiimote_t) (buttons : Nat)
    (ext_data : List Nat) (ext_size : Nat) :
    (fake_wiimote_mgr_report_input_ext H w buttons ext_data ext_size).reporting_mode =
      w.reporting_mode := by
  unfold fake_wiimote_mgr_report_input_ext
  dsimp only
  split
  · split <;> rfl
  · rfl

theorem exec_input_invariant (H : Headers) (E : Env) (P : fake_wiimote_t × world_t → Prop)
    (hstep : ∀ s st res, P s → exec_input_step H E s st = some res → P res)
    (steps : List input_step) :
    ∀ s0 s, P s0 → exec_input H E s0 steps = some s → P s := by
  induction steps with
  | nil =>
    intro s0 s h0 hs
    simp only [exec_input, Option.some.injEq] at hs
    exact hs ▸ h0
  | cons st rest ih =>
    intro s0 s h0 hs
    simp only [exec_input] at hs
    split at hs
    · cases hs
    · rename_i s1 h1
      exact ih s1 s (hstep s0 st s1 h0 h1) hs

/-- C11. If the reporting mode of a session is Disabled, then after any sequence
of ticks and driver input updates (`fake_wiimote_mgr_report_input`,
`fake_wiimote_mgr_report_input_ext`), whatever `input_dirty` and
`reporting_continuous` are, the reporting mode is still Disabled and none of
the calls made in the meantime sends a data report. -/
theorem C11_disabled_no_data_report (H : Headers) (E : Env) (steps : List input_step)
    (s0 s : fake_wiimote_t × world_t)
    (hd : s0.1.reporting_mode = H.INPUT_REPORT_ID_REPORT_DISABLED)
    (hexec : exec_input H E s0 steps = some s) :
    s.1.reporting_mode = H.INPUT_REPORT_ID_REPORT_DISABLED ∧
    ∃ new, s.2.trace = s0.2.trace ++ new ∧ ∀ e ∈ new, e.is_data_report = false := by
  refine exec_input_invariant H E
    (fun s => s.1.reporting_mode = H.INPUT_REPORT_ID_REPORT_DISABLED ∧
      ∃ new, s.2.trace = s0.2.trace ++ new ∧ ∀ e ∈ new, e.is_data_report = false)
    ?_ steps s0 s
    ⟨hd, [], (List.append_nil _).symm, fun e he => absurd he (List.not_mem_nil _)⟩ hexec
  intro a st b ⟨ha, n0, hn0, hnew0⟩ hs
  cases st with
  | tick fw i =>
    simp only [exec_input_step] at hs
    split at hs
    · obtain ⟨hm, n1, hn1, hnew1⟩ := tick_disabled H E a.2 fw i a.1 b ha hs
      refine ⟨hm, n0 ++ n1, ?_, ?_⟩
      · rw [hn1, hn0, List.append_assoc]
      · intro e he
        rcases List.mem_append.1 he with h | h
        · exact hnew0 e h
        · exact hnew1 e h
    · cases hs
      exact ⟨ha, n0, hn0, hnew0⟩
  | report_input buttons =>
    simp only [exec_input_step, Option.some.injEq] at hs
    subst hs
    exact ⟨(report_input_mode _ _).trans ha, n0, hn0, hnew0⟩
  | report_input_ext buttons ext_data ext_size =>
    simp only [exec_input_step, Option.some.injEq] at hs
    subst hs
    exact ⟨(report_input_ext_mode _ _ _ _ _).trans ha, n0, hn0, hnew0⟩

set_option maxRecDepth 1000000 in
/-- C11 at a concrete input: the linked session with reporting disabled,
continuous reporting on and the input dirty, through four ticks and two driver
updates; no call is made at all. -/
theorem C11_disabled_no_data_report_witness :
    ∃ s, exec_input wii env_ok (wiimote_report_disabled, world_init) steps_input = some s ∧
      s.2.trace = [] ∧ s.1.buttons = 0x0008 ∧
      s.1.reporting_mode = wii.INPUT_REPORT_ID_REPORT_DISABLED := by
  have hm : (exec_input wii env_ok (wiimote_report_disabled, world_init) steps_input).map
      (fun s => (s.2.trace, s.1.buttons)) = some ([], 0x0008) := by
    decide
  cases hs : exec_input wii env_ok (wiimote_report_disabled, world_init) steps_input with
  | none => rw [hs] at hm; cases hm
  | some s =>
    rw [hs] at hm
    have h2 := Option.some.inj hm
    simp only [Prod.mk.injEq] at h2
    exact ⟨s, rfl, h2.1, h2.2,
      (C11_disabled_no_data_report wii env_ok steps_input
        (wiimote_report_disabled, world_init) s rfl hs).1⟩

/-! ## C12: one input report per tick -/

theorem send_hid_input_report_trace (H : Headers) (E : Env) (W : world_t)
    (h d r : Nat) (p : hid_payload) (x : Int × world_t)
    (hx : send_hid_input_report H E W h d r p = some x) :
    x.2.trace = W.trace ++
      [Event.l2cap_send_msg h d (((H.HID_TYPE_DATA <<< 4) ||| H.HID_PARAM_INPUT) % 256) r p] := by
  unfold send_hid_input_report at hx
  by_cases hp : p.fits H = true
  · rw [if_pos hp] at hx
    cases hx
    rfl
  · rw [if_neg hp] at hx
    cases hx

theorem send_data_report_trace (H : Headers) (E : Env) (W : world_t) (w : fake_wiimote_t)
    (res : fake_wiimote_t × world_t) (hs : fake_wiimote_send_data_report H E W w = some res) :
    ∃ new, res.2.trace = W.trace ++ new ∧ new.length ≤ 1 := by
  unfold fake_wiimote_send_data_report at hs
  split at hs
  · cases hs
    exact ⟨[], (List.append_nil _).symm, Nat.zero_le _⟩
  · split at hs
    · dsimp only at hs
      split at hs
      · cases hs
      · rename_i r hr
        cases hs
        exact ⟨[_], send_hid_input_report_trace H E W _ _ _ _ r hr, Nat.le_refl _⟩
    · cases hs
      exact ⟨[], (List.append_nil _).symm, Nat.zero_le _⟩

/-- C12. For every session state, one call of `fake_wiimote_tick` sends at most
one HID input report.  In the post-link branch (baseband Complete, ACL not
Linking): when a memory read is pending, the only call of the tick is the send
of one READ_DATA_REPLY, and the current and pending extension, the register
window, the reporting mode and `input_dirty` are unchanged; otherwise, when the
pending extension differs from the current one, the only call is the send of
the input-status report of the extension change; only otherwise is the tick the
data-report path.  In the other branches no HID input report is sent. -/
theorem C12_tick_one_report (H : Headers) (E : Env) (W : world_t) (fw : List fake_wiimote_t)
    (i : Nat) (w : fake_wiimote_t) (res : fake_wiimote_t × world_t)
    (ht : fake_wiimote_tick H E W fw i w = some res) :
    (∃ new, res.2.trace = W.trace ++ new ∧
      (new.filter Event.is_input_report).length ≤ 1) ∧
    (w.baseband_state = baseband_state_e.BASEBAND_STATE_COMPLETE →
      w.acl_state ≠ acl_state_e.ACL_STATE_LINKING → w.read_request.size ≠ 0 →
      (∃ sz err data, res.2.trace = W.trace ++
        [input_report_of H w H.INPUT_REPORT_ID_READ_DATA_REPLY
          (hid_payload.read_data w.buttons sz err w.read_request.address data)]) ∧
      res.1.cur_extension = w.cur_extension ∧ res.1.new_extension = w.new_extension ∧
      res.1.extension_regs = w.extension_regs ∧
      res.1.reporting_mode = w.reporting_mode ∧ res.1.input_dirty = w.input_dirty) ∧
    (w.baseband_state = baseband_state_e.BASEBAND_STATE_COMPLETE →
      w.acl_state ≠ acl_state_e.ACL_STATE_LINKING → w.read_request.size = 0 →
      w.new_extension ≠ w.cur_extension →
      res.1 = extension_change_applied H w ∧
      ∃ bit, res.2.trace = W.trace ++
        [input_report_of H w H.INPUT_REPORT_ID_STATUS (hid_payload.status w.buttons bit)]) ∧
    (w.baseband_state = baseband_state_e.BASEBAND_STATE_COMPLETE →
      w.acl_state ≠ acl_state_e.ACL_STATE_LINKING → w.read_request.size = 0 →
      w.new_extension = w.cur_extension →
      fake_wiimote_send_data_report H E W w = some res) ∧
    (w.baseband_state ≠ baseband_state_e.BASEBAND_STATE_COMPLETE ∨
        w.acl_state = acl_state_e.ACL_STATE_LINKING →
      ∃ new, res.2.trace = W.trace ++ new ∧ ∀ e ∈ new, e.is_input_report = false) := by
  have hread : w.baseband_state = baseband_state_e.BASEBAND_STATE_COMPLETE →
      w.acl_state ≠ acl_state_e.ACL_STATE_LINKING → w.read_request.size ≠ 0 →
      (∃ sz err data, res.2.trace = W.trace ++
        [input_report_of H w H.INPUT_REPORT_ID_READ_DATA_REPLY
          (hid_payload.read_data w.buttons sz err w.read_request.address data)]) ∧
      res.1.cur_extension = w.cur_extension ∧ res.1.new_extension = w.new_extension ∧
      res.1.extension_regs = w.extension_regs ∧
      res.1.reporting_mode = w.reporting_mode ∧ res.1.input_dirty = w.input_dirty := by
    intro hb ha h0
    rw [tick_post_link H E W fw i w hb ha, if_pos h0,
      process_read_request_step H E W w h0] at ht
    cases ht
    have hf := read_step_read_frame H w w.read_request.address (min 16 w.read_request.size)
    simp only [read_frame, Prod.mk.injEq] at hf
    exact ⟨⟨_, _, _, rfl⟩, hf.2.2.2.1, hf.2.2.2.2.1, hf.2.2.2.2.2.1, hf.2.2.1.2.2.1,
      hf.2.2.2.2.2.2.1⟩
  have hext : w.baseband_state = baseband_state_e.BASEBAND_STATE_COMPLETE →
      w.acl_state ≠ acl_state_e.ACL_STATE_LINKING → w.read_request.size = 0 →
      w.new_extension ≠ w.cur_extension →
      res.1 = extension_change_applied H w ∧
      ∃ bit, res.2.trace = W.trace ++
        [input_report_of H w H.INPUT_REPORT_ID_STATUS (hid_payload.status w.buttons bit)] := by
    intro hb ha h0 h1
    rw [tick_post_link H E W fw i w hb ha, if_neg (by simpa using h0), if_pos h1,
      process_extension_change_step H E W fw i w h1] at ht
    cases ht
    exact ⟨rfl, _, rfl⟩
  have hdata : w.baseband_state = baseband_state_e.BASEBAND_STATE_COMPLETE →
      w.acl_state ≠ acl_state_e.ACL_STATE_LINKING → w.read_request.size = 0 →
      w.new_extension = w.cur_extension →
      fake_wiimote_send_data_report H E W w = some res := by
    intro hb ha h0 h1
    rw [tick_post_link H E W fw i w hb ha, if_neg (by simpa using h0),
      if_neg (by simpa using h1)] at ht
    exact ht
  have hpre : w.baseband_state ≠ baseband_state_e.BASEBAND_STATE_COMPLETE ∨
        w.acl_state = acl_state_e.ACL_STATE_LINKING →
      ∃ new, res.2.trace = W.trace ++ new ∧ ∀ e ∈ new, e.is_input_report = false :=
    fun h => (tick_pre_link_no_report H E W fw i w res h ht).2
  refine ⟨?_, hread, hext, hdata, hpre⟩
  by_cases hb : w.baseband_state = baseband_state_e.BASEBAND_STATE_COMPLETE
  · by_cases ha : w.acl_state = acl_state_e.ACL_STATE_LINKING
    · obtain ⟨new, hn, hnew⟩ := hpre (Or.inr ha)
      refine ⟨new, hn, ?_⟩
      rw [List.filter_eq_nil_iff.2 (fun e he => by simp [hnew e he])]
      exact Nat.zero_le _
    · by_cases h0 : w.read_request.size = 0
      · by_cases h1 : w.new_extension = w.cur_extension
        · obtain ⟨new, hn, hlen⟩ := send_data_report_trace H E W w res (hdata hb ha h0 h1)
          exact ⟨new, hn, le_trans (List.length_filter_le _ _) hlen⟩
        · obtain ⟨-, bit, hn⟩ := hext hb ha h0 h1
          exact ⟨[_], hn, List.length_filter_le _ _⟩
      · obtain ⟨⟨sz, err, data, hn⟩, -⟩ := hread hb ha h0
        exact ⟨[_], hn, List.length_filter_le _ _⟩
  · obtain ⟨new, hn, hnew⟩ := hpre (Or.inl hb)
    refine ⟨new, hn, ?_⟩
    rw [List.filter_eq_nil_iff.2 (fun e he => by simp [hnew e he])]
    exact Nat.zero_le _

set_option maxRecDepth 1000000 in
/-- C12 at a concrete input: the linked session with a read of 20 bytes pending,
the extension Nunchuk waiting and the input dirty; the tick sends the
READ_DATA_REPLY for the first 16 bytes and nothing else, and the extension
change and the data report wait. -/
theorem C12_tick_one_report_witness :
    ∃ res, fake_wiimote_tick wii env_ok world_init [wiimote_all_pending] 0
        wiimote_all_pending = some res ∧
      res.2.trace = [Event.l2cap_send_msg 0x101 0x82 0xA1 0x21
        (hid_payload.read_data 0 15 0 0 (List.replicate 16 0))] ∧
      res.1.read_request.size = 4 ∧
      res.1.cur_extension = wiimote_mgr_ext_u.WIIMOTE_MGR_EXT_NONE ∧
      res.1.input_dirty = true ∧
      ∃ new, res.2.trace = world_init.trace ++ new ∧
        (new.filter Event.is_input_report).length ≤ 1 := by
  have hm : (fake_wiimote_tick wii env_ok world_init [wiimote_all_pending] 0
      wiimote_all_pending).map
      (fun s => (s.2.trace, s.1.read_request.size, s.1.cur_extension, s.1.input_dirty)) =
      some ([Event.l2cap_send_msg 0x101 0x82 0xA1 0x21
        (hid_payload.read_data 0 15 0 0 (List.replicate 16 0))], 4,
        wiimote_mgr_ext_u.WIIMOTE_MGR_EXT_NONE, true) := by
    decide
  cases hs : fake_wiimote_tick wii env_ok world_init [wiimote_all_pending] 0
      wiimote_all_pending with
  | none => rw [hs] at hm; cases hm
  | some s =>
    rw [hs] at hm
    have h2 := Option.some.inj hm
    simp only [Prod.mk.injEq] at h2
    exact ⟨s, rfl, h2.1, h2.2.1, h2.2.2.1, h2.2.2.2,
      (C12_tick_one_report wii env_ok world_init [wiimote_all_pending] 0
        wiimote_all_pending s hs).1⟩

/-! ## C13: the extension bit of the input-status report -/

/-- C13. For a session at an index other than 0 of the session table whose
pending extension differs from its current one,
`fake_wiimote_process_extension_change` sets `cur_extension` to the pending
value and `reporting_mode` to Disabled and makes exactly one call, the send of
an input-status report with that session's buttons; but the extension bit of
the report is that of the FIRST session of the table (`fake_wiimotes[0]`), not
that of the session changed. -/
theorem C13_status_bit_of_first_session (H : Headers) (E : Env) (W : world_t)
    (w0 : fake_wiimote_t) (rest : List fake_wiimote_t) (k : Nat) (w : fake_wiimote_t)
    (h : w.new_extension ≠ w.cur_extension) :
    fake_wiimote_process_extension_change H E W (w0 :: rest) (k + 1) w =
      some (true, extension_change_applied H w,
        { W with trace := W.trace ++
          [input_report_of H w H.INPUT_REPORT_ID_STATUS
            (hid_payload.status w.buttons
              (w0.cur_extension != wiimote_mgr_ext_u.WIIMOTE_MGR_EXT_NONE))] }) ∧
    (extension_change_applied H w).cur_extension = w.new_extension ∧
    (extension_change_applied H w).reporting_mode = H.INPUT_REPORT_ID_REPORT_DISABLED := by
  refine ⟨?_, rfl, rfl⟩
  rw [process_extension_change_step H E W (w0 :: rest) (k + 1) w h]
  have hb : ((((w0 :: rest).set (k + 1) (extension_change_applied H w)).head?).map
      (fun v => v.cur_extension) != some wiimote_mgr_ext_u.WIIMOTE_MGR_EXT_NONE) =
      (w0.cur_extension != wiimote_mgr_ext_u.WIIMOTE_MGR_EXT_NONE) := by
    rw [List.set_cons_succ, List.head?_cons, Option.map_some']
    cases w0.cur_extension <;> rfl
  rw [hb]

set_option maxRecDepth 1000000 in
/-- C13 at a concrete input: session 0 has no extension, session 1 has the
Nunchuk pending; after the change session 1 has the Nunchuk as its current
extension, and the status report sent for it carries extension bit 0. -/
theorem C13_status_bit_of_first_session_witness :
    fake_wiimote_process_extension_change wii env_ok world_init
        [wiimote_linked, wiimote_nunchuk_pending] 1 wiimote_nunchuk_pending =
      some (true, extension_change_applied wii wiimote_nunchuk_pending,
        { world_init with trace :=
          [Event.l2cap_send_msg 0x102 0x82 0xA1 0x20 (hid_payload.status 0x0400 false)] }) ∧
    (extension_change_applied wii wiimote_nunchuk_pending).cur_extension =
      wiimote_mgr_ext_u.WIIMOTE_MGR_EXT_NUNCHUK :=
  ⟨(C13_status_bit_of_first_session wii env_ok world_init wiimote_linked
      [wiimote_nunchuk_pending] 0 wiimote_nunchuk_pending (by decide)).1, rfl⟩

/-! ## C14: WRITE_DATA -/

theorem write_request_switch_ack_fields (H : Headers) (w : fake_wiimote_t)
    (write : write_data_t) :
    (write_request_switch H w write).2.hci_con_handle = w.hci_con_handle ∧
    (write_request_switch H w write).2.psm_hid_intr_chn = w.psm_hid_intr_chn ∧
    (write_request_switch H w write).2.buttons = w.buttons := by
  unfold write_request_switch extension_write_data
  dsimp only
  split_ifs <;> exact ⟨rfl, rfl, rfl⟩

theorem extension_write_data_result (H : Headers) (w : fake_wiimote_t) (src : List Nat)
    (address size : Nat) :
    (extension_write_data H w src address size).1 = decide (address + size ≤ 256) := by
  unfold extension_write_data EXTENSION_REGS_SIZE
  by_cases h : address + size > 256
  · rw [if_pos h]
    simp only [Nat.not_le.2 h, decide_False]
  · rw [if_neg h]
    simp only [Nat.not_lt.1 h, decide_True]

theorem write_request_switch_code (H : Headers) (w : fake_wiimote_t) (write : write_data_t)
    (hsp : H.ADDRESS_SPACE_EEPROM ≠ H.ADDRESS_SPACE_I2C_BUS ∧
      H.ADDRESS_SPACE_EEPROM ≠ H.ADDRESS_SPACE_I2C_BUS_ALT) :
    (write_request_switch H w write).1 = write_data_error_code H write := by
  obtain ⟨h1, h2⟩ := hsp
  unfold write_request_switch write_data_error_code
  dsimp only
  rw [extension_write_data_result]
  by_cases he : write.space = H.ADDRESS_SPACE_EEPROM
  · have n1 : ¬ write.space = H.ADDRESS_SPACE_I2C_BUS := by rw [he]; exact h1
    have n2 : ¬ write.space = H.ADDRESS_SPACE_I2C_BUS_ALT := by rw [he]; exact h2
    by_cases ho : write.address + write.size > H.EEPROM_FREE_SIZE
    · have p1 : ((write.space = H.ADDRESS_SPACE_EEPROM ∧
          write.address + write.size > H.EEPROM_FREE_SIZE) ∨
          ((write.space = H.ADDRESS_SPACE_I2C_BUS ∨
            write.space = H.ADDRESS_SPACE_I2C_BUS_ALT) ∧
            write.slave_address = H.EEPROM_I2C_ADDR)) := Or.inl ⟨he, ho⟩
      simp only [if_pos he, if_pos ho, if_pos p1]
    · have c1 : ¬ ((write.space = H.ADDRESS_SPACE_EEPROM ∧
          write.address + write.size > H.EEPROM_FREE_SIZE) ∨
          ((write.space = H.ADDRESS_SPACE_I2C_BUS ∨
            write.space = H.ADDRESS_SPACE_I2C_BUS_ALT) ∧
            write.slave_address = H.EEPROM_I2C_ADDR)) := by
        rintro (⟨-, a⟩ | ⟨a | a, -⟩)
        · exact ho a
        · exact n1 a
        · exact n2 a
      have c2 : ¬ ((write.space = H.ADDRESS_SPACE_I2C_BUS ∨
          write.space = H.ADDRESS_SPACE_I2C_BUS_ALT) ∧
          write.slave_address = H.EXTENSION_I2C_ADDR ∧
          write.address + write.size > 256) := by
        rintro ⟨a | a, -⟩
        · exact n1 a
        · exact n2 a
      have c3 : ¬ (write.space ≠ H.ADDRESS_SPACE_EEPROM ∧
          write.space ≠ H.ADDRESS_SPACE_I2C_BUS ∧
          write.space ≠ H.ADDRESS_SPACE_I2C_BUS_ALT) := fun a => a.1 he
      simp only [if_pos he, if_neg ho, if_neg c1, if_neg c2, if_neg c3]
  · have c3 : (write.space ≠ H.ADDRESS_SPACE_EEPROM ∧
        write.space ≠ H.ADDRESS_SPACE_I2C_BUS ∧
        write.space ≠ H.ADDRESS_SPACE_I2C_BUS_ALT) ↔
        ¬ (write.space = H.ADDRESS_SPACE_I2C_BUS ∨
          write.space = H.ADDRESS_SPACE_I2C_BUS_ALT) := by
      constructor
      · rintro ⟨-, a, b⟩ (c | c)
        · exact a c
        · exact b c
      · intro a
        exact ⟨he, fun c => a (Or.inl c), fun c => a (Or.inr c)⟩
    by_cases hi : write.space = H.ADDRESS_SPACE_I2C_BUS ∨
        write.space = H.ADDRESS_SPACE_I2C_BUS_ALT
    · by_cases hs : write.slave_address = H.EEPROM_I2C_ADDR
      · have p1 : ((write.space = H.ADDRESS_SPACE_EEPROM ∧
          write.address + write.size > H.EEPROM_FREE_SIZE) ∨
          ((write.space = H.ADDRESS_SPACE_I2C_BUS ∨
            write.space = H.ADDRESS_SPACE_I2C_BUS_ALT) ∧
            write.slave_address = H.EEPROM_I2C_ADDR)) := Or.inr ⟨hi, hs⟩
        simp only [if_neg he, if_pos hi, if_pos hs, if_pos p1]
      · have c1 : ¬ ((write.space = H.ADDRESS_SPACE_EEPROM ∧
            write.address + write.size > H.EEPROM_FREE_SIZE) ∨
            ((write.space = H.ADDRESS_SPACE_I2C_BUS ∨
              write.space = H.ADDRESS_SPACE_I2C_BUS_ALT) ∧
              write.slave_address = H.EEPROM_I2C_ADDR)) := by
          rintro (⟨a, -⟩ | ⟨-, a⟩)
          · exact he a
          · exact hs a
        by_cases hx : write.slave_address = H.EXTENSION_I2C_ADDR
        · by_cases ho : write.address + write.size > 256
          · have p2 : ((write.space = H.ADDRESS_SPACE_I2C_BUS ∨
          write.space = H.ADDRESS_SPACE_I2C_BUS_ALT) ∧
          write.slave_address = H.EXTENSION_I2C_ADDR ∧
          write.address + write.size > 256) := ⟨hi, hx, ho⟩
            simp only [if_neg he, if_pos hi, if_neg hs, if_pos hx, if_neg c1,
              if_pos p2, Nat.not_le.2 ho, decide_False, Bool.false_eq_true, if_false]
          · have c2 : ¬ ((write.space = H.ADDRESS_SPACE_I2C_BUS ∨
                write.space = H.ADDRESS_SPACE_I2C_BUS_ALT) ∧
                write.slave_address = H.EXTENSION_I2C_ADDR ∧
                write.address + write.size > 256) := fun a => ho a.2.2
            simp only [if_neg he, if_pos hi, if_neg hs, if_pos hx, if_neg c1, if_neg c2,
              if_neg (fun a => c3.1 a hi), Nat.not_lt.1 ho, decide_True, if_true]
        · have c2 : ¬ ((write.space = H.ADDRESS_SPACE_I2C_BUS ∨
              write.space = H.ADDRESS_SPACE_I2C_BUS_ALT) ∧
              write.slave_address = H.EXTENSION_I2C_ADDR ∧
              write.address + write.size > 256) := fun a => hx a.2.1
          simp only [if_neg he, if_pos hi, if_neg hs, if_neg hx, if_neg c1, if_neg c2,
            if_neg (fun a => c3.1 a hi)]
    · have c1 : ¬ ((write.space = H.ADDRESS_SPACE_EEPROM ∧
          write.address + write.size > H.EEPROM_FREE_SIZE) ∨
          ((write.space = H.ADDRESS_SPACE_I2C_BUS ∨
            write.space = H.ADDRESS_SPACE_I2C_BUS_ALT) ∧
            write.slave_address = H.EEPROM_I2C_ADDR)) := by
        rintro (⟨a, -⟩ | ⟨a, -⟩)
        · exact he a
        · exact hi a
      have c2 : ¬ ((write.space = H.ADDRESS_SPACE_I2C_BUS ∨
          write.space = H.ADDRESS_SPACE_I2C_BUS_ALT) ∧
          write.slave_address = H.EXTENSION_I2C_ADDR ∧
          write.address + write.size > 256) := fun a => hi a.1
      simp only [if_neg he, if_neg hi, if_neg c1, if_neg c2, if_pos (c3.2 hi)]

theorem extension_write_data_fail (H : Headers) (w : fake_wiimote_t) (src : List Nat)
    (address size : Nat) (h : (extension_write_data H w src address size).1 ≠ true) :
    (extension_write_data H w src address size).2 = w := by
  rw [extension_write_data_result] at h
  have h2 : address + size > EXTENSION_REGS_SIZE := by
    unfold EXTENSION_REGS_SIZE
    simpa using h
  unfold extension_write_data
  rw [if_pos h2]

theorem write_request_switch_fail (H : Headers) (w : fake_wiimote_t) (write : write_data_t)
    (hc : (write_request_switch H w write).1 ≠ H.ERROR_CODE_SUCCESS) :
    (write_request_switch H w write).2 = w := by
  unfold write_request_switch at hc ⊢
  dsimp only at hc ⊢
  split_ifs at hc ⊢
  all_goals first
    | rfl
    | exact absurd rfl hc
    | exact extension_write_data_fail H w _ _ _ (by assumption)

/-- C14. For every WRITE_DATA output report (the address spaces being distinct
constants): if `size == 0` or `size > 16`, `handle_hid_intr_data_output` makes
no call and leaves the session as it is; otherwise it makes exactly one call,
the send of an ACK for WRITE_DATA with the session's buttons and the error code
of the spec (`write_data_error_code`), and whenever that code is not SUCCESS
the session (EEPROM, register window, `extension_key_dirty` and all the rest)
is unchanged. -/
theorem C14_write_data (H : Headers) (E : Env) (W : world_t) (fw : List fake_wiimote_t)
    (i : Nat) (w : fake_wiimote_t) (write : write_data_t)
    (hsp : H.ADDRESS_SPACE_EEPROM ≠ H.ADDRESS_SPACE_I2C_BUS ∧
      H.ADDRESS_SPACE_EEPROM ≠ H.ADDRESS_SPACE_I2C_BUS_ALT) :
    (write.size = 0 ∨ write.size > 16 →
      handle_hid_intr_data_output H E W fw i w (output_report.write_data write) =
        some (w, W)) ∧
    (¬ (write.size = 0 ∨ write.size > 16) →
      ∃ s, handle_hid_intr_data_output H E W fw i w (output_report.write_data write) =
          some (s, { W with trace := W.trace ++
            [input_report_of H w H.INPUT_REPORT_ID_ACK
              (hid_payload.ack w.buttons H.OUTPUT_REPORT_ID_WRITE_DATA
                (write_data_error_code H write))] }) ∧
        (write_data_error_code H write ≠ H.ERROR_CODE_SUCCESS → s = w)) := by
  constructor
  · intro h
    show fake_wiimote_process_write_request H E W w write = some (w, W)
    unfold fake_wiimote_process_write_request
    rw [if_pos h]
  · intro h
    refine ⟨(write_request_switch H w write).2, ?_, ?_⟩
    · show fake_wiimote_process_write_request H E W w write = _
      unfold fake_wiimote_process_write_request
      rw [if_neg h]
      dsimp only
      rw [wiimote_send_ack_eq]
      obtain ⟨a, b, c⟩ := write_request_switch_ack_fields H w write
      simp only [input_report_of, a, b, c, write_request_switch_code H w write hsp]
    · intro hc
      rw [← write_request_switch_code H w write hsp] at hc
      exact write_request_switch_fail H w write hc

set_option maxRecDepth 1000000 in
/-- C14 at a concrete input: 8 bytes written to the extension registers at 0xFA
run over the window; one ACK with NACK (7) is sent and the session is unchanged. -/
theorem C14_write_data_witness :
    handle_hid_intr_data_output wii env_ok world_init [wiimote_linked] 0 wiimote_linked
        (output_report.write_data write_past_window) =
      some (wiimote_linked, { world_init with trace :=
        [Event.l2cap_send_msg 0x101 0x82 0xA1 0x22 (hid_payload.ack 0 0x16 7)] }) := by
  obtain ⟨s, h, hf⟩ := (C14_write_data wii env_ok world_init [wiimote_linked] 0
    wiimote_linked write_past_window (by decide)).2 (by decide)
  rw [hf (by decide)] at h
  exact h

/-! ## C15: READ_DATA while a read is in flight -/

/-- C15. For every session with a memory read in flight (`read_request.size`
not 0) and every READ_DATA output report received in that state,
`handle_hid_intr_data_output` makes exactly one call, the send of an ACK for
READ_DATA with error BUSY and the session's buttons (so no READ_DATA_REPLY),
and the session, the cursor of the read in flight included, is unchanged. -/
theorem C15_read_data_busy (H : Headers) (E : Env) (W : world_t) (fw : List fake_wiimote_t)
    (i : Nat) (w : fake_wiimote_t) (space slave_address address size : Nat)
    (h : w.read_request.size ≠ 0) :
    ∃ new, handle_hid_intr_data_output H E W fw i w
        (output_report.read_data space slave_address address size) =
        some (w, { W with trace := W.trace ++ [new] }) ∧
      new = input_report_of H w H.INPUT_REPORT_ID_ACK
        (hid_payload.ack w.buttons H.OUTPUT_REPORT_ID_READ_DATA H.ERROR_CODE_BUSY) ∧
      new.is_read_data_reply = false := by
  refine ⟨_, ?_, rfl, rfl⟩
  unfold handle_hid_intr_data_output
  dsimp only
  rw [if_pos h, wiimote_send_ack_eq]

set_option maxRecDepth 1000000 in
/-- C15 at a concrete input: the session with 20 bytes of EEPROM still to read
gets a READ_DATA for 4 bytes of the extension registers; one ACK with BUSY (4)
is sent and the cursor still reads 20 bytes of EEPROM from address 0. -/
theorem C15_read_data_busy_witness :
    handle_hid_intr_data_output wii env_ok world_init [wiimote_all_pending] 0
        wiimote_all_pending (output_report.read_data 1 0x52 0xFA 4) =
      some (wiimote_all_pending, { world_init with trace :=
        [Event.l2cap_send_msg 0x101 0x82 0xA1 0x22 (hid_payload.ack 0 0x17 4)] }) ∧
    wiimote_all_pending.read_request =
      { space := 0, slave_address := 0, address := 0, size := 20 } := by
  obtain ⟨new, h, hn, -⟩ := C15_read_data_busy wii env_ok world_init [wiimote_all_pending] 0
    wiimote_all_pending 1 0x52 0xFA 4 (by decide)
  rw [hn] at h
  exact ⟨h, rfl⟩

/-! ## C16: errors of a read step -/

theorem extension_read_data_result (H : Headers) (w : fake_wiimote_t) (address size : Nat) :
    (extension_read_data H w address size).1 = decide (address + size ≤ 256) := by
  unfold extension_read_data EXTENSION_REGS_SIZE
  by_cases h : address + size > 256
  · rw [if_pos h]
    simp only [Nat.not_le.2 h, decide_False]
  · rw [if_neg h]
    dsimp only
    split_ifs <;> simp only [Nat.not_lt.1 h, decide_True]

theorem extension_read_data_fail (H : Headers) (w : fake_wiimote_t) (address size : Nat)
    (h : (extension_read_data H w address size).1 ≠ true) :
    extension_read_data H w address size = (false, [], w) := by
  rw [extension_read_data_result] at h
  have h2 : address + size > EXTENSION_REGS_SIZE := by
    unfold EXTENSION_REGS_SIZE
    simpa using h
  unfold extension_read_data
  rw [if_pos h2]

theorem read_request_switch_code (H : Headers) (w : fake_wiimote_t)
    (hsp : H.ADDRESS_SPACE_EEPROM ≠ H.ADDRESS_SPACE_I2C_BUS ∧
      H.ADDRESS_SPACE_EEPROM ≠ H.ADDRESS_SPACE_I2C_BUS_ALT) :
    (read_request_switch H w w.read_request.address (min 16 w.read_request.size)).1 =
      read_step_error_code H w := by
  obtain ⟨h1, h2⟩ := hsp
  unfold read_request_switch read_step_error_code
  dsimp only
  rw [extension_read_data_result]
  by_cases he : w.read_request.space = H.ADDRESS_SPACE_EEPROM
  · have n1 : ¬ w.read_request.space = H.ADDRESS_SPACE_I2C_BUS := by rw [he]; exact h1
    have n2 : ¬ w.read_request.space = H.ADDRESS_SPACE_I2C_BUS_ALT := by rw [he]; exact h2
    by_cases ho : w.read_request.address + w.read_request.size > H.EEPROM_FREE_SIZE
    · have p1 : ((w.read_request.space = H.ADDRESS_SPACE_EEPROM ∧
          w.read_request.address + w.read_request.size > H.EEPROM_FREE_SIZE) ∨
          ((w.read_request.space = H.ADDRESS_SPACE_I2C_BUS ∨
            w.read_request.space = H.ADDRESS_SPACE_I2C_BUS_ALT) ∧
            w.read_request.slave_address = H.EEPROM_I2C_ADDR)) := Or.inl ⟨he, ho⟩
      simp only [if_pos he, if_pos ho, if_pos p1]
    · have c1 : ¬ ((w.read_request.space = H.ADDRESS_SPACE_EEPROM ∧
          w.read_request.address + w.read_request.size > H.EEPROM_FREE_SIZE) ∨
          ((w.read_request.space = H.ADDRESS_SPACE_I2C_BUS ∨
            w.read_request.space = H.ADDRESS_SPACE_I2C_BUS_ALT) ∧
            w.read_request.slave_address = H.EEPROM_I2C_ADDR)) := by
        rintro (⟨-, a⟩ | ⟨a | a, -⟩)
        · exact ho a
        · exact n1 a
        · exact n2 a
      have c2 : ¬ ((w.read_request.space = H.ADDRESS_SPACE_I2C_BUS ∨
          w.read_request.space = H.ADDRESS_SPACE_I2C_BUS_ALT) ∧
          w.read_request.slave_address = H.EXTENSION_I2C_ADDR ∧
          w.read_request.address + min 16 w.read_request.size > 256) := by
        rintro ⟨a | a, -⟩
        · exact n1 a
        · exact n2 a
      have c3 : ¬ (w.read_request.space ≠ H.ADDRESS_SPACE_EEPROM ∧
          w.read_request.space ≠ H.ADDRESS_SPACE_I2C_BUS ∧
          w.read_request.space ≠ H.ADDRESS_SPACE_I2C_BUS_ALT) := fun a => a.1 he
      simp only [if_pos he, if_neg ho, if_neg c1, if_neg c2, if_neg c3]
  · have c3 : (w.read_request.space ≠ H.ADDRESS_SPACE_EEPROM ∧
        w.read_request.space ≠ H.ADDRESS_SPACE_I2C_BUS ∧
        w.read_request.space ≠ H.ADDRESS_SPACE_I2C_BUS_ALT) ↔
        ¬ (w.read_request.space = H.ADDRESS_SPACE_I2C_BUS ∨
          w.read_request.space = H.ADDRESS_SPACE_I2C_BUS_ALT) := by
      constructor
      · rintro ⟨-, a, b⟩ (c | c)
        · exact a c
        · exact b c
      · intro a
        exact ⟨he, fun c => a (Or.inl c), fun c => a (Or.inr c)⟩
    by_cases hi : w.read_request.space = H.ADDRESS_SPACE_I2C_BUS ∨
        w.read_request.space = H.ADDRESS_SPACE_I2C_BUS_ALT
    · by_cases hs : w.read_request.slave_address = H.EEPROM_I2C_ADDR
      · have p1 : ((w.read_request.space = H.ADDRESS_SPACE_EEPROM ∧
          w.read_request.address + w.read_request.size > H.EEPROM_FREE_SIZE) ∨
          ((w.read_request.space = H.ADDRESS_SPACE_I2C_BUS ∨
            w.read_request.space = H.ADDRESS_SPACE_I2C_BUS_ALT) ∧
            w.read_request.slave_address = H.EEPROM_I2C_ADDR)) := Or.inr ⟨hi, hs⟩
        simp only [if_neg he, if_pos hi, if_pos hs, if_pos p1]
      · have c1 : ¬ ((w.read_request.space = H.ADDRESS_SPACE_EEPROM ∧
            w.read_request.address + w.read_request.size > H.EEPROM_FREE_SIZE) ∨
            ((w.read_request.space = H.ADDRESS_SPACE_I2C_BUS ∨
              w.read_request.space = H.ADDRESS_SPACE_I2C_BUS_ALT) ∧
              w.read_request.slave_address = H.EEPROM_I2C_ADDR)) := by
          rintro (⟨a, -⟩ | ⟨-, a⟩)
          · exact he a
          · exact hs a
        by_cases hx : w.read_request.slave_address = H.EXTENSION_I2C_ADDR
        · by_cases ho : w.read_request.address + min 16 w.read_request.size > 256
          · have p2 : ((w.read_request.space = H.ADDRESS_SPACE_I2C_BUS ∨
          w.read_request.space = H.ADDRESS_SPACE_I2C_BUS_ALT) ∧
          w.read_request.slave_address = H.EXTENSION_I2C_ADDR ∧
          w.read_request.address + min 16 w.read_request.size > 256) := ⟨hi, hx, ho⟩
            simp only [if_neg he, if_pos hi, if_neg hs, if_pos hx, if_neg c1,
              if_pos p2, Nat.not_le.2 ho, decide_False, Bool.false_eq_true, if_false]
          · have c2 : ¬ ((w.read_request.space = H.ADDRESS_SPACE_I2C_BUS ∨
                w.read_request.space = H.ADDRESS_SPACE_I2C_BUS_ALT) ∧
                w.read_request.slave_address = H.EXTENSION_I2C_ADDR ∧
                w.read_request.address + min 16 w.read_request.size > 256) := fun a => ho a.2.2
            simp only [if_neg he, if_pos hi, if_neg hs, if_pos hx, if_neg c1, if_neg c2,
              if_neg (fun a => c3.1 a hi), Nat.not_lt.1 ho, decide_True, if_true]
        · have c2 : ¬ ((w.read_request.space = H.ADDRESS_SPACE_I2C_BUS ∨
              w.read_request.space = H.ADDRESS_SPACE_I2C_BUS_ALT) ∧
              w.read_request.slave_address = H.EXTENSION_I2C_ADDR ∧
              w.read_request.address + min 16 w.read_request.size > 256) := fun a => hx a.2.1
          simp only [if_neg he, if_pos hi, if_neg hs, if_neg hx, if_neg c1, if_neg c2,
            if_neg (fun a => c3.1 a hi)]
    · have c1 : ¬ ((w.read_request.space = H.ADDRESS_SPACE_EEPROM ∧
          w.read_request.address + w.read_request.size > H.EEPROM_FREE_SIZE) ∨
          ((w.read_request.space = H.ADDRESS_SPACE_I2C_BUS ∨
            w.read_request.space = H.ADDRESS_SPACE_I2C_BUS_ALT) ∧
            w.read_request.slave_address = H.EEPROM_I2C_ADDR)) := by
        rintro (⟨a, -⟩ | ⟨a, -⟩)
        · exact he a
        · exact hi a
      have c2 : ¬ ((w.read_request.space = H.ADDRESS_SPACE_I2C_BUS ∨
          w.read_request.space = H.ADDRESS_SPACE_I2C_BUS_ALT) ∧
          w.read_request.slave_address = H.EXTENSION_I2C_ADDR ∧
          w.read_request.address + min 16 w.read_request.size > 256) := fun a => hi a.1
      simp only [if_neg he, if_neg hi, if_neg c1, if_neg c2, if_pos (c3.2 hi)]

theorem read_request_switch_fail (H : Headers) (w : fake_wiimote_t) (address read_size : Nat)
    (hc : (read_request_switch H w address read_size).1 ≠ H.ERROR_CODE_SUCCESS) :
    (read_request_switch H w address read_size).2 = (List.replicate 16 0, w) := by
  unfold read_request_switch at hc ⊢
  dsimp only at hc ⊢
  split_ifs at hc ⊢
  all_goals first
    | rfl
    | exact absurd rfl hc
    | rw [extension_read_data_fail H w _ _ (by assumption)]

/-- C16. For every step of a pending read (`read_request.size` not 0; the
address spaces being distinct constants and the three error codes distinct from
SUCCESS): `fake_wiimote_process_read_request` makes exactly one call, the send
of a READ_DATA_REPLY with the session's buttons, the pre-step address and the
error code of the spec (`read_step_error_code`); that code is not SUCCESS
exactly when the space is EEPROM and `address + remaining > EEPROM_FREE_SIZE`,
or the space is an I2C alias and the slave is `EEPROM_I2C_ADDR`, or the space is
an I2C alias, the slave is `EXTENSION_I2C_ADDR` and `address + min(16,
remaining) > 256`, or the space is none of the three; and on every non-success
the session afterwards is the session before with `read_request.size` set to 0
(address unchanged), and the reply has `size_minus_one = 15` and 16 zero bytes
of data. -/
theorem C16_read_step_error (H : Headers) (E : Env) (W : world_t) (w : fake_wiimote_t)
    (h0 : w.read_request.size ≠ 0)
    (hsp : H.ADDRESS_SPACE_EEPROM ≠ H.ADDRESS_SPACE_I2C_BUS ∧
      H.ADDRESS_SPACE_EEPROM ≠ H.ADDRESS_SPACE_I2C_BUS_ALT)
    (herr : H.ERROR_CODE_INVALID_ADDRESS ≠ H.ERROR_CODE_SUCCESS ∧
      H.ERROR_CODE_NACK ≠ H.ERROR_CODE_SUCCESS ∧
      H.ERROR_CODE_INVALID_SPACE ≠ H.ERROR_CODE_SUCCESS) :
    (∃ s sz data, fake_wiimote_process_read_request H E W w =
        some (true, s, { W with trace := W.trace ++
          [input_report_of H w H.INPUT_REPORT_ID_READ_DATA_REPLY
            (hid_payload.read_data w.buttons sz (read_step_error_code H w)
              w.read_request.address data)] }) ∧
      (read_step_error_code H w ≠ H.ERROR_CODE_SUCCESS →
        s = { w with read_request := { w.read_request with size := 0 } } ∧
        sz = 15 ∧ data = List.replicate 16 0)) ∧
    (read_step_error_code H w ≠ H.ERROR_CODE_SUCCESS ↔
      (w.read_request.space = H.ADDRESS_SPACE_EEPROM ∧
        w.read_request.address + w.read_request.size > H.EEPROM_FREE_SIZE) ∨
      ((w.read_request.space = H.ADDRESS_SPACE_I2C_BUS ∨
          w.read_request.space = H.ADDRESS_SPACE_I2C_BUS_ALT) ∧
        w.read_request.slave_address = H.EEPROM_I2C_ADDR) ∨
      ((w.read_request.space = H.ADDRESS_SPACE_I2C_BUS ∨
          w.read_request.space = H.ADDRESS_SPACE_I2C_BUS_ALT) ∧
        w.read_request.slave_address = H.EXTENSION_I2C_ADDR ∧
        w.read_request.address + min 16 w.read_request.size > 256) ∨
      (w.read_request.space ≠ H.ADDRESS_SPACE_EEPROM ∧
        w.read_request.space ≠ H.ADDRESS_SPACE_I2C_BUS ∧
        w.read_request.space ≠ H.ADDRESS_SPACE_I2C_BUS_ALT)) := by
  constructor
  · refine ⟨(read_request_advance H (read_request_switch H w w.read_request.address (min 16 w.read_request.size)).1
        (min 16 w.read_request.size) (read_request_switch H w w.read_request.address (min 16 w.read_request.size)).2.2).2,
      (read_request_advance H (read_request_switch H w w.read_request.address (min 16 w.read_request.size)).1
        (min 16 w.read_request.size) (read_request_switch H w w.read_request.address (min 16 w.read_request.size)).2.2).1 - 1,
      (read_request_switch H w w.read_request.address (min 16 w.read_request.size)).2.1, ?_, ?_⟩
    · rw [process_read_request_step H E W w h0, read_request_switch_code H w hsp]
    · intro hc
      rw [← read_request_switch_code H w hsp] at hc
      rw [read_request_switch_fail H w _ _ hc]
      unfold read_request_advance
      rw [if_pos hc]
      exact ⟨rfl, rfl, rfl⟩
  · unfold read_step_error_code
    split_ifs with a b c
    · exact ⟨fun _ => a.elim Or.inl (fun x => Or.inr (Or.inl x)), fun _ => herr.1⟩
    · exact ⟨fun _ => Or.inr (Or.inr (Or.inl b)), fun _ => herr.2.1⟩
    · exact ⟨fun _ => Or.inr (Or.inr (Or.inr c)), fun _ => herr.2.2⟩
    · constructor
      · intro x
        exact absurd rfl x
      · rintro (x | x | x | x)
        · exact absurd (Or.inl x) a
        · exact absurd (Or.inr x) a
        · exact absurd x b
        · exact absurd x c

set_option maxRecDepth 1000000 in
/-- C16 at a concrete input: a read of 20 bytes of the extension registers from
0xF8; the first step would run over the window, so the reply carries NACK (7),
`size_minus_one` 15, address 0xF8 and zeros, and the read is cancelled. -/
theorem C16_read_step_error_witness :
    fake_wiimote_process_read_request wii env_ok world_init wiimote_read_past_window =
      some (true,
        { wiimote_read_past_window with
          read_request := { space := 1, slave_address := 0x52, address := 0xF8, size := 0 } },
        { world_init with trace :=
          [Event.l2cap_send_msg 0x101 0x82 0xA1 0x21
            (hid_payload.read_data 0 15 7 0xF8 (List.replicate 16 0))] }) := by
  obtain ⟨s, sz, data, h, hf⟩ := (C16_read_step_error wii env_ok world_init
    wiimote_read_past_window (by decide) (by decide) (by decide)).1
  obtain ⟨hs, hz, hd⟩ := hf (by decide)
  rw [hs, hz, hd] at h
  exact h

/-! ## C17: the cursor of a pending read -/

theorem read_request_switch_read_request (H : Headers) (w : fake_wiimote_t)
    (address read_size : Nat) :
    (read_request_switch H w address read_size).2.2.read_request = w.read_request := by
  unfold read_request_switch extension_read_data
  dsimp only
  split_ifs <;> rfl

theorem read_request_advance_ok (H : Headers) (w : fake_wiimote_t) (error read_size : Nat)
    (h : error = H.ERROR_CODE_SUCCESS) :
    (read_request_advance H error read_size w).2.read_request =
      { w.read_request with
        address := (w.read_request.address + read_size) % 65536
        size := w.read_request.size - read_size } := by
  unfold read_request_advance
  rw [if_neg (by simpa using h)]

set_option maxRecDepth 1000000 in
/-- C17, counterexample to "the address after a successful step is strictly
greater than before and equals the prior address plus min(16, remaining)": a
read of 32 bytes at 0xFFF8 of the I2C bus from slave 0x00 reports SUCCESS, and
the address after the step is 8. -/
theorem C17_address_wraps_counterexample :
    fake_wiimote_process_read_request wii env_ok world_init wiimote_read_wrap =
      some (true,
        { wiimote_read_wrap with
          read_request := { space := 1, slave_address := 0x00, address := 8, size := 16 } },
        { world_init with trace :=
          [Event.l2cap_send_msg 0x101 0x82 0xA1 0x21
            (hid_payload.read_data 0 15 wii.ERROR_CODE_SUCCESS 0xFFF8
              (List.replicate 16 0))] }) ∧
    ¬ (wiimote_read_wrap.read_request.address < 8) ∧
    8 ≠ wiimote_read_wrap.read_request.address +
      min 16 wiimote_read_wrap.read_request.size := by
  decide

/-- C17, amended. For every pending read (`read_request.size` not 0, the
address a 16-bit value) and every step of it whose READ_DATA_REPLY reports
SUCCESS: the remaining size decreases by `min(16, remaining)`, space and slave
are unchanged, and the 16-bit address becomes `(address + min(16, remaining))
mod 2^16`; it is strictly greater than before, and equal to the prior address
plus `min(16, remaining)`, exactly when that sum is below 2^16. -/
theorem C17_read_cursor_advance (H : Headers) (E : Env) (W : world_t) (w s : fake_wiimote_t)
    (W1 : world_t) (buttons sz address : Nat) (data : List Nat)
    (h0 : w.read_request.size ≠ 0) (ha : w.read_request.address < 65536)
    (hstep : fake_wiimote_process_read_request H E W w = some (true, s, W1))
    (hok : W1.trace = W.trace ++
      [input_report_of H w H.INPUT_REPORT_ID_READ_DATA_REPLY
        (hid_payload.read_data buttons sz H.ERROR_CODE_SUCCESS address data)]) :
    s.read_request.size = w.read_request.size - min 16 w.read_request.size ∧
    s.read_request.space = w.read_request.space ∧
    s.read_request.slave_address = w.read_request.slave_address ∧
    s.read_request.address =
      (w.read_request.address + min 16 w.read_request.size) % 65536 ∧
    (w.read_request.address + min 16 w.read_request.size < 65536 ↔
      w.read_request.address < s.read_request.address) ∧
    (w.read_request.address + min 16 w.read_request.size < 65536 ↔
      s.read_request.address = w.read_request.address + min 16 w.read_request.size) := by
  rw [process_read_request_step H E W w h0] at hstep
  have h1 := Option.some.inj hstep
  simp only [Prod.mk.injEq, true_and] at h1
  obtain ⟨hs, hW⟩ := h1
  rw [← hW] at hok
  have h2 := List.append_cancel_left hok
  simp only [input_report_of, List.cons.injEq, Event.l2cap_send_msg.injEq,
    hid_payload.read_data.injEq, and_true, true_and] at h2
  have hr := read_request_advance_ok H
    (read_request_switch H w w.read_request.address (min 16 w.read_request.size)).2.2
    (read_request_switch H w w.read_request.address (min 16 w.read_request.size)).1
    (min 16 w.read_request.size) h2.2.2.1
  rw [hs, read_request_switch_read_request] at hr
  rw [hr]
  dsimp only
  refine ⟨rfl, rfl, rfl, rfl, ?_, ?_⟩
  · constructor
    · intro h
      rw [Nat.mod_eq_of_lt h]
      omega
    · intro h
      by_contra hn
      omega
  · constructor
    · intro h
      exact Nat.mod_eq_of_lt h
    · intro h
      by_contra hn
      omega

set_option maxRecDepth 1000000 in
/-- C17 at a concrete input: the first step of the read of 20 bytes of EEPROM
from address 0 reports SUCCESS and leaves 4 bytes to read from address 16. -/
theorem C17_read_cursor_advance_witness :
    ∃ s W1, fake_wiimote_process_read_request wii env_ok world_init wiimote_all_pending =
        some (true, s, W1) ∧
      s.read_request.size = 4 ∧ s.read_request.address = 16 ∧
      wiimote_all_pending.read_request.address < s.read_request.address := by
  have hm : fake_wiimote_process_read_request wii env_ok world_init wiimote_all_pending =
      some (true,
        { wiimote_all_pending with
          read_request := { space := 0, slave_address := 0, address := 16, size := 4 } },
        { world_init with trace :=
          [Event.l2cap_send_msg 0x101 0x82 0xA1 0x21
            (hid_payload.read_data 0 15 0 0 (List.replicate 16 0))] }) := by
    decide
  have h := C17_read_cursor_advance wii env_ok world_init wiimote_all_pending _ _ 0 15 0
    (List.replicate 16 0) (by decide) (by decide) hm rfl
  exact ⟨_, _, hm, h.1, h.2.2.2.1, h.2.2.2.2.1.1 (by decide)⟩

/-! ## C18: the bounds test of the extension registers -/

/-- C18. `extension_read_data` and `extension_write_data` return failure if and
only if `address + size > 256`, the sum taken in the naturals (no 16-bit
wraparound: address 0xFFFF with size 2 fails); on failure the session (register
window, `extension_key_dirty`, cached key and all the rest) is unchanged, and a
read produces no bytes. -/
theorem C18_extension_bounds (H : Headers) (w : fake_wiimote_t) (src : List Nat)
    (address size : Nat) :
    ((extension_read_data H w address size).1 = false ↔ address + size > 256) ∧
    ((extension_write_data H w src address size).1 = false ↔ address + size > 256) ∧
    (address + size > 256 →
      extension_read_data H w address size = (false, [], w) ∧
      extension_write_data H w src address size = (false, w)) ∧
    (extension_read_data H w 0xFFFF 2).1 = false ∧
    (extension_write_data H w src 0xFFFF 2).1 = false := by
  refine ⟨?_, ?_, ?_, ?_, ?_⟩
  · rw [extension_read_data_result]
    simp
  · rw [extension_write_data_result]
    simp
  · intro h
    have h2 : address + size > EXTENSION_REGS_SIZE := h
    constructor
    · unfold extension_read_data
      rw [if_pos h2]
    · unfold extension_write_data
      rw [if_pos h2]
  · rw [extension_read_data_result]
    decide
  · rw [extension_write_data_result]
    decide

/-! ## C19: CONNECT_RSP -/

theorem get_channel_info_unique (w : fake_wiimote_t) (scid : Nat) (c : chn_sel)
    (hv : (c.get w).valid = true) (hl : (c.get w).local_cid = scid)
    (hu : ∀ c1 : chn_sel, (c1.get w).valid = true → (c1.get w).local_cid = scid → c1 = c) :
    get_channel_info w scid = some c := by
  unfold get_channel_info
  by_cases h1 : (w.psm_sdp_chn.valid && (scid == w.psm_sdp_chn.local_cid)) = true
  · rw [if_pos h1]
    simp only [Bool.and_eq_true, beq_iff_eq] at h1
    rw [hu chn_sel.psm_sdp_chn h1.1 h1.2.symm]
  · rw [if_neg h1]
    by_cases h2 : (w.psm_hid_cntl_chn.valid && (scid == w.psm_hid_cntl_chn.local_cid)) = true
    · rw [if_pos h2]
      simp only [Bool.and_eq_true, beq_iff_eq] at h2
      rw [hu chn_sel.psm_hid_cntl_chn h2.1 h2.2.symm]
    · rw [if_neg h2]
      by_cases h3 : (w.psm_hid_intr_chn.valid &&
          (scid == w.psm_hid_intr_chn.local_cid)) = true
      · rw [if_pos h3]
        simp only [Bool.and_eq_true, beq_iff_eq] at h3
        rw [hu chn_sel.psm_hid_intr_chn h3.1 h3.2.symm]
      · exfalso
        simp only [Bool.and_eq_true, beq_iff_eq] at h1 h2 h3
        cases c
        · exact h1 ⟨hv, hl.symm⟩
        · exact h2 ⟨hv, hl.symm⟩
        · exact h3 ⟨hv, hl.symm⟩

theorem chn_sel_get_set (c : chn_sel) (w : fake_wiimote_t) (info : l2cap_channel_info_t) :
    c.get (c.set w info) = info := by
  cases c <;> rfl

theorem chn_sel_get_set_other (c c1 : chn_sel) (w : fake_wiimote_t)
    (info : l2cap_channel_info_t) (h : c1 ≠ c) :
    c1.get (c.set w info) = c1.get w := by
  cases c <;> cases c1 <;> first | rfl | exact absurd rfl h

theorem disconnected_chn_remote_cid (c : l2cap_channel_info_t) :
    (disconnected_chn c).remote_cid = c.remote_cid := by
  unfold disconnected_chn
  split_ifs <;> rfl

/-- C19. For every inbound CONNECT_RSP handled by `handle_l2cap_signal_channel`:
if `result != L2CAP_SUCCESS`, or `dcid == L2CAP_PSM_NOT_SUPPORTED` and
`scid == 0`, the handler is `fake_wiimote_disconnect`: `active` becomes false
and the `remote_cid` of every channel is what it was; otherwise, under the
assertion of the handler (`status == L2CAP_NO_INFO`), when `scid` is the
`local_cid` of a valid channel `c` (the only such channel), the handler makes no
call, the `remote_cid` of `c` becomes `dcid`, the other fields of `c` and the
other channels are unchanged, and so is `active`. -/
theorem C19_connect_rsp (H : Headers) (E : Env) (W : world_t) (w : fake_wiimote_t)
    (ident dcid scid result status : Nat) (c : chn_sel) :
    (result ≠ H.L2CAP_SUCCESS ∨ (dcid = H.L2CAP_PSM_NOT_SUPPORTED ∧ scid = 0) →
      ∃ s W1, handle_l2cap_signal_channel H E W w ident
          (l2cap_cmd.connect_rsp dcid scid result status) = some (s, W1) ∧
        (s, W1) = (fake_wiimote_disconnect E W w).2 ∧
        s.active = false ∧
        ∀ c1 : chn_sel, (c1.get s).remote_cid = (c1.get w).remote_cid) ∧
    (¬ (result ≠ H.L2CAP_SUCCESS ∨ (dcid = H.L2CAP_PSM_NOT_SUPPORTED ∧ scid = 0)) →
      status = H.L2CAP_NO_INFO →
      (c.get w).valid = true → (c.get w).local_cid = scid →
      (∀ c1 : chn_sel, (c1.get w).valid = true → (c1.get w).local_cid = scid → c1 = c) →
      ∃ s, handle_l2cap_signal_channel H E W w ident
          (l2cap_cmd.connect_rsp dcid scid result status) = some (s, W) ∧
        s = c.set w { c.get w with remote_cid := dcid } ∧
        c.get s = { c.get w with remote_cid := dcid } ∧
        (∀ c1 : chn_sel, c1 ≠ c → c1.get s = c1.get w) ∧
        s.active = w.active) := by
  constructor
  · intro h
    refine ⟨(fake_wiimote_disconnect E W w).2.1, (fake_wiimote_disconnect E W w).2.2,
      ?_, rfl, ?_, ?_⟩
    · unfold handle_l2cap_signal_channel
      dsimp only
      rw [if_pos h]
    · rw [(fake_wiimote_disconnect_calls E W w).2.1]
    · intro c1
      rw [(fake_wiimote_disconnect_calls E W w).2.1]
      cases c1 <;> exact disconnected_chn_remote_cid _
  · intro h hst hv hl hu
    refine ⟨c.set w { c.get w with remote_cid := dcid }, ?_, rfl, chn_sel_get_set _ _ _,
      fun c1 h1 => chn_sel_get_set_other _ _ _ _ h1, ?_⟩
    · unfold handle_l2cap_signal_channel
      dsimp only
      rw [if_neg h, if_neg (by simpa using hst), get_channel_info_unique w scid c hv hl hu]
    · cases c <;> rfl

set_option maxRecDepth 1000000 in
/-- C19 at concrete inputs: after the connect-req for HID-Control (local id
0x40), CONNECT_RSP(dcid 0x81, scid 0x40, SUCCESS) stores 0x81 as the remote id
of HID-Control and makes no call; CONNECT_RSP with result 2 ends the session. -/
theorem C19_connect_rsp_witness :
    (∃ s, handle_l2cap_signal_channel wii env_ok world_init wiimote_cntl_requested 1
        (l2cap_cmd.connect_rsp 0x81 0x40 0 0) = some (s, world_init) ∧
      s.psm_hid_cntl_chn.remote_cid = 0x81 ∧ s.psm_hid_cntl_chn.local_cid = 0x40 ∧
      s.active = true) ∧
    (∃ s W1, handle_l2cap_signal_channel wii env_ok world_init wiimote_cntl_requested 1
        (l2cap_cmd.connect_rsp 0x81 0x40 2 0) = some (s, W1) ∧
      s.active = false ∧ s.psm_hid_cntl_chn.remote_cid = 0) := by
  constructor
  · obtain ⟨s, h, hs, -⟩ := (C19_connect_rsp wii env_ok world_init wiimote_cntl_requested
      1 0x81 0x40 0 0 chn_sel.psm_hid_cntl_chn).2 (by decide) (by decide) (by decide)
      (by decide) (by intro c1; cases c1 <;> decide)
    refine ⟨s, h, ?_, ?_, ?_⟩ <;> rw [hs] <;> rfl
  · obtain ⟨s, W1, h, -, ha, hr⟩ := (C19_connect_rsp wii env_ok world_init
      wiimote_cntl_requested 1 0x81 0x40 2 0 chn_sel.psm_hid_cntl_chn).1 (by decide)
    exact ⟨s, W1, h, ha, hr chn_sel.psm_hid_cntl_chn⟩

/-! ## C20: the options echoed by CONFIG_RSP -/

theorem memread_memwrite_upto (dst src : List Nat) (r n : Nat)
    (h1 : r + n ≤ dst.length) (h2 : n ≤ src.length) :
    memread (memwrite dst r src n) 0 (r + n) = memread dst 0 r ++ src.take n := by
  apply List.ext_getElem
  · simp [memread, Nat.min_eq_left h2]
  · intro i hi1 hi2
    have hi : i < r + n := by simpa [memread] using hi1
    have e1 : (memread (memwrite dst r src n) 0 (r + n))[i] =
        (memwrite dst r src n).getD i 0 := by
      simp [memread]
    rw [e1, memwrite_getD dst r src n i (by omega)]
    by_cases hr : i < r
    · rw [if_neg (by omega), List.getElem_append_left (by simpa [memread] using hr)]
      simp [memread]
    · have hlen : (memread dst 0 r).length = r := memread_length _ _ _
      rw [if_pos (by omega), List.getElem_append_right (by omega)]
      simp only [hlen, List.getElem_take]
      rw [List.getD_eq_getElem _ _ (by omega)]

theorem config_req_loop_turn (H : Headers) (options : List Nat)
    (n fuel offset resp_len remote_mtu : Nat) (tmp : List Nat) (t l : Nat)
    (ht : options.getD offset 0 = t) (hl : options.getD (offset + 1) 0 = l)
    (hlt : offset < n)
    (hok : (t = H.L2CAP_OPT_MTU → l = H.L2CAP_OPT_MTU_SIZE) ∧
      (t = H.L2CAP_OPT_FLUSH_TIMO → l = H.L2CAP_OPT_FLUSH_TIMO_SIZE)) :
    config_req_loop H options n (fuel + 1) offset resp_len remote_mtu tmp =
      config_req_loop H options n fuel (offset + 2 + l) (resp_len + (2 + l))
        (if t = H.L2CAP_OPT_MTU then le16_at options (offset + 2) else remote_mtu)
        (memwrite tmp resp_len options (2 + l)) := by
  rw [config_req_loop, if_pos hlt]
  dsimp only
  rw [ht, hl]
  by_cases h1 : t = H.L2CAP_OPT_MTU
  · rw [if_pos h1, if_pos (hok.1 h1), if_pos h1]
  · rw [if_neg h1, if_neg h1]
    by_cases h2 : t = H.L2CAP_OPT_FLUSH_TIMO
    · rw [if_pos h2, if_pos (hok.2 h2)]
    · rw [if_neg h2]

theorem config_req_loop_done (H : Headers) (options : List Nat)
    (n fuel offset resp_len remote_mtu : Nat) (tmp : List Nat) (h : ¬ offset < n) :
    config_req_loop H options n fuel offset resp_len remote_mtu tmp =
      some (resp_len, remote_mtu, tmp) := by
  cases fuel with
  | zero => rfl
  | succ k => rw [config_req_loop, if_neg h]

theorem config_req_loop_two (H : Headers) (t1 l1 t2 l2 : Nat) (v1 v2 : List Nat)
    (n fuel remote_mtu : Nat) (tmp : List Nat)
    (hv1 : v1.length = l1) (hn : n = 4 + l1 + l2) (hf : 2 ≤ fuel)
    (h1 : (t1 = H.L2CAP_OPT_MTU → l1 = H.L2CAP_OPT_MTU_SIZE) ∧
      (t1 = H.L2CAP_OPT_FLUSH_TIMO → l1 = H.L2CAP_OPT_FLUSH_TIMO_SIZE))
    (h2 : (t2 = H.L2CAP_OPT_MTU → l2 = H.L2CAP_OPT_MTU_SIZE) ∧
      (t2 = H.L2CAP_OPT_FLUSH_TIMO → l2 = H.L2CAP_OPT_FLUSH_TIMO_SIZE)) :
    config_req_loop H ((t1 :: l1 :: v1) ++ (t2 :: l2 :: v2)) n fuel 0 6 remote_mtu tmp =
      some (6 + (2 + l1) + (2 + l2),
        (if t2 = H.L2CAP_OPT_MTU then
            le16_at ((t1 :: l1 :: v1) ++ (t2 :: l2 :: v2)) (4 + l1)
          else if t1 = H.L2CAP_OPT_MTU then
            le16_at ((t1 :: l1 :: v1) ++ (t2 :: l2 :: v2)) 2
          else remote_mtu),
        memwrite (memwrite tmp 6 ((t1 :: l1 :: v1) ++ (t2 :: l2 :: v2)) (2 + l1))
          (6 + (2 + l1)) ((t1 :: l1 :: v1) ++ (t2 :: l2 :: v2)) (2 + l2)) := by
  have hlen1 : (t1 :: l1 :: v1).length = 2 + l1 := by
    simp only [List.length_cons, hv1]
    omega
  have g0 : ((t1 :: l1 :: v1) ++ (t2 :: l2 :: v2)).getD 0 0 = t1 := rfl
  have g1 : ((t1 :: l1 :: v1) ++ (t2 :: l2 :: v2)).getD (0 + 1) 0 = l1 := rfl
  have g2 : ((t1 :: l1 :: v1) ++ (t2 :: l2 :: v2)).getD (0 + 2 + l1) 0 = t2 := by
    rw [List.getD_append_right _ _ _ _ (by omega), hlen1]
    have : 0 + 2 + l1 - (2 + l1) = 0 := by omega
    rw [this]
    rfl
  have g3 : ((t1 :: l1 :: v1) ++ (t2 :: l2 :: v2)).getD (0 + 2 + l1 + 1) 0 = l2 := by
    rw [List.getD_append_right _ _ _ _ (by omega), hlen1]
    have : 0 + 2 + l1 + 1 - (2 + l1) = 1 := by omega
    rw [this]
    rfl
  obtain ⟨k, rfl⟩ : ∃ k, fuel = k + 1 + 1 := ⟨fuel - 2, by omega⟩
  rw [config_req_loop_turn H _ n (k + 1) 0 6 remote_mtu tmp t1 l1 g0 g1 (by omega) h1,
    config_req_loop_turn H _ n k (0 + 2 + l1) (6 + (2 + l1)) _ _ t2 l2 g2 g3 (by omega) h2,
    config_req_loop_done H _ n k _ _ _ _ (by omega)]
  have e1 : 0 + 2 + l1 + 2 = 4 + l1 := by omega
  rw [e1]

/-- C20. What `handle_l2cap_config_req` answers to a CONFIG_REQ whose option
list is two well-formed options `t1 l1 v1` and `t2 l2 v2` (each passing the
assertion on the length of an MTU or flush-timeout option), addressed to a
valid channel `c`: the CONFIG_RSP has scid = `remote_cid` of the channel, flags
0 and result SUCCESS, and `remote_mtu` becomes the value of the last MTU option
(the default without one); but the option list of the response is the first
option followed by the first `2 + l2` bytes of the request's option list, not
by the second option. -/
theorem C20_config_rsp_echo (H : Headers) (E : Env) (W : world_t) (w : fake_wiimote_t)
    (ident dcid : Nat) (c : chn_sel) (t1 l1 t2 l2 : Nat) (v1 v2 : List Nat)
    (hc : get_channel_info w dcid = some c)
    (hv1 : v1.length = l1) (hv2 : v2.length = l2) (hlen : l1 + l2 ≤ 246)
    (h1 : (t1 = H.L2CAP_OPT_MTU → l1 = H.L2CAP_OPT_MTU_SIZE) ∧
      (t1 = H.L2CAP_OPT_FLUSH_TIMO → l1 = H.L2CAP_OPT_FLUSH_TIMO_SIZE))
    (h2 : (t2 = H.L2CAP_OPT_MTU → l2 = H.L2CAP_OPT_MTU_SIZE) ∧
      (t2 = H.L2CAP_OPT_FLUSH_TIMO → l2 = H.L2CAP_OPT_FLUSH_TIMO_SIZE)) :
    handle_l2cap_config_req H E W w ident dcid 0
        ((t1 :: l1 :: v1) ++ (t2 :: l2 :: v2)) (4 + l1 + l2) =
      some (c.set w
        { c.get w with
          remote_mtu :=
            if t2 = H.L2CAP_OPT_MTU then
              le16_at ((t1 :: l1 :: v1) ++ (t2 :: l2 :: v2)) (4 + l1)
            else if t1 = H.L2CAP_OPT_MTU then
              le16_at ((t1 :: l1 :: v1) ++ (t2 :: l2 :: v2)) 2
            else H.L2CAP_MTU_DEFAULT },
        { W with trace := W.trace ++
          [Event.l2cap_send_config_rsp w.hci_con_handle dcid ident
            ((htole16_bytes (c.get w).remote_cid ++ htole16_bytes 0 ++
              htole16_bytes H.L2CAP_SUCCESS) ++ (t1 :: l1 :: v1) ++
              ((t1 :: l1 :: v1) ++ (t2 :: l2 :: v2)).take (2 + l2))] }) := by
  have hlen1 : (t1 :: l1 :: v1).length = 2 + l1 := by
    simp only [List.length_cons, hv1]
    omega
  have hlen2 : ((t1 :: l1 :: v1) ++ (t2 :: l2 :: v2)).length = 4 + l1 + l2 := by
    simp only [List.length_append, List.length_cons, hv1, hv2]
    omega
  unfold handle_l2cap_config_req
  rw [if_neg (by simp), if_neg (by omega), hc]
  dsimp only
  rw [config_req_loop_two H t1 l1 t2 l2 v1 v2 (4 + l1 + l2) (4 + l1 + l2) _ _ hv1 rfl
    (by omega) h1 h2]
  dsimp only
  rw [memread_memwrite_upto _ _ (6 + (2 + l1)) (2 + l2)
      (by rw [memwrite_length, memwrite_length, memread_length]; omega) (by omega),
    memread_memwrite_upto _ _ 6 (2 + l1)
      (by rw [memwrite_length, memread_length]; omega) (by omega),
    List.take_left' hlen1]
  have e0 := memread_memwrite (memread E.uninit 0 256) 0
    (htole16_bytes (c.get w).remote_cid ++ htole16_bytes 0 ++ htole16_bytes H.L2CAP_SUCCESS) 6
    (by rw [memread_length]; omega)
  have e1 : memread (htole16_bytes (c.get w).remote_cid ++ htole16_bytes 0 ++
      htole16_bytes H.L2CAP_SUCCESS) 0 6 = _ := memread_self _
  rw [e0, e1]
  rfl

set_option maxRecDepth 1000000 in
/-- C20 at a concrete input: CONFIG_REQ for HID-Control (local id 0x40) with the
options MTU = 185 (`01 02 B9 00`) and flush timeout = 0xFFFF (`02 02 FF FF`);
the CONFIG_RSP carries scid 0x81, result 0 and the options `01 02 B9 00 01 02
B9 00`: the MTU option twice, the flush-timeout option not at all. -/
theorem C20_config_rsp_echo_witness :
    handle_l2cap_config_req wii env_ok world_init wiimote_linked 2 0x40 0
        [0x01, 0x02, 0xB9, 0x00, 0x02, 0x02, 0xFF, 0xFF] 8 =
      some (wiimote_linked, { world_init with trace :=
        [Event.l2cap_send_config_rsp 0x101 0x40 2
          [0x81, 0x00, 0x00, 0x00, 0x00, 0x00,
            0x01, 0x02, 0xB9, 0x00, 0x01, 0x02, 0xB9, 0x00]] }) ∧
    [0x01, 0x02, 0xB9, 0x00, 0x01, 0x02, 0xB9, 0x00] ≠
      [0x01, 0x02, 0xB9, 0x00, 0x02, 0x02, 0xFF, 0xFF] :=
  ⟨C20_config_rsp_echo wii env_ok world_init wiimote_linked 2 0x40
      chn_sel.psm_hid_cntl_chn 0x01 2 0x02 2 [0xB9, 0x00] [0xFF, 0xFF]
      (by decide) rfl rfl (by decide) (by decide) (by decide), by decide⟩

/-! ## C21: the button mapping of the Xbox One driver -/

theorem or_u16_small (b m : Nat) (hb : b < 65536) (hm : m < 65536) :
    or_u16 b m = b ||| m ∧ b ||| m < 65536 := by
  have h : b ||| m < 2 ^ 16 := Nat.or_lt_two_pow hb hm
  exact ⟨Nat.mod_eq_of_lt h, h⟩

theorem xbx1_map_button_eq (c : Bool) (m b : Nat) (hb : b < 65536) (hm : m < 65536) :
    xbx1_map_button c m b = b ||| (if c then m else 0) ∧
    xbx1_map_button c m b < 65536 := by
  unfold xbx1_map_button
  cases c
  · exact ⟨(Nat.or_zero b).symm, hb⟩
  · have h := or_u16_small b m hb hm
    simp only [if_true]
    exact ⟨h.1, h.1 ▸ h.2⟩

theorem land_lor_right (x y z : Nat) : (x ||| y) &&& z = (x &&& z) ||| (y &&& z) := by
  rw [Nat.and_comm, Nat.and_or_distrib_left, Nat.and_comm z x, Nat.and_comm z y]

theorem ite_land_zero (c : Prop) [Decidable c] (m X : Nat) (h : m &&& X = 0) :
    (if c then m else 0) &&& X = 0 := by
  split_ifs
  · exact h
  · exact Nat.zero_and X

theorem ite_land_self (c : Prop) [Decidable c] (X : Nat) :
    (if c then X else 0) &&& X = if c then X else 0 := by
  split_ifs
  · exact Nat.and_self X
  · exact Nat.zero_and X

theorem button_set_ite (c : Prop) [Decidable c] (X : Nat) (hX : X ≠ 0) :
    ((if c then X else 0) != 0) = decide c := by
  split_ifs with h <;> simp [h, hX]

theorem xbx1_map_dpad_vertical_eq (B : Wpad) (input : xbx1_input_report) (b : Nat)
    (hb : b < 65536) (hu : B.WPAD_BUTTON_UP < 65536) (hd : B.WPAD_BUTTON_DOWN < 65536) :
    xbx1_map_dpad_vertical B input b =
      b ||| (if input.dpad = 0 ∨ input.dpad = 1 ∨ input.dpad = 7 then B.WPAD_BUTTON_UP else 0)
        ||| (if input.dpad = 3 ∨ input.dpad = 4 ∨ input.dpad = 5 then B.WPAD_BUTTON_DOWN
          else 0) ∧
    xbx1_map_dpad_vertical B input b < 65536 := by
  unfold xbx1_map_dpad_vertical
  by_cases h1 : input.dpad = 0 ∨ input.dpad = 1 ∨ input.dpad = 7
  · have h2 : ¬ (input.dpad = 3 ∨ input.dpad = 4 ∨ input.dpad = 5) := by omega
    have h := or_u16_small b _ hb hu
    rw [if_pos h1, if_pos h1, if_neg h2, Nat.or_zero]
    exact ⟨h.1, h.1 ▸ h.2⟩
  · rw [if_neg h1, if_neg h1, Nat.or_zero]
    by_cases h2 : input.dpad = 3 ∨ input.dpad = 4 ∨ input.dpad = 5
    · have h := or_u16_small b _ hb hd
      rw [if_pos h2, if_pos h2]
      exact ⟨h.1, h.1 ▸ h.2⟩
    · rw [if_neg h2, if_neg h2, Nat.or_zero]
      exact ⟨rfl, hb⟩

theorem xbx1_map_dpad_horizontal_eq (B : Wpad) (input : xbx1_input_report) (b : Nat)
    (hb : b < 65536) (hr : B.WPAD_BUTTON_RIGHT < 65536) (hl : B.WPAD_BUTTON_LEFT < 65536) :
    xbx1_map_dpad_horizontal B input b =
      b ||| (if input.dpad = 1 ∨ input.dpad = 2 ∨ input.dpad = 3 then B.WPAD_BUTTON_RIGHT
          else 0)
        ||| (if input.dpad = 5 ∨ input.dpad = 6 ∨ input.dpad = 7 then B.WPAD_BUTTON_LEFT
          else 0) ∧
    xbx1_map_dpad_horizontal B input b < 65536 := by
  unfold xbx1_map_dpad_horizontal
  by_cases h1 : input.dpad = 1 ∨ input.dpad = 2 ∨ input.dpad = 3
  · have h2 : ¬ (input.dpad = 5 ∨ input.dpad = 6 ∨ input.dpad = 7) := by omega
    have h := or_u16_small b _ hb hr
    rw [if_pos h1, if_pos h1, if_neg h2, Nat.or_zero]
    exact ⟨h.1, h.1 ▸ h.2⟩
  · rw [if_neg h1, if_neg h1, Nat.or_zero]
    by_cases h2 : input.dpad = 5 ∨ input.dpad = 6 ∨ input.dpad = 7
    · have h := or_u16_small b _ hb hl
      rw [if_pos h2, if_pos h2]
      exact ⟨h.1, h.1 ▸ h.2⟩
    · rw [if_neg h2, if_neg h2, Nat.or_zero]
      exact ⟨rfl, hb⟩

/-- The button word `xbx1_map_buttons` makes of the zero word, as the bitwise or
of the masks selected. -/
theorem xbx1_map_buttons_eq (B : Wpad) (input : xbx1_input_report)
    (hm : ∀ m ∈ B.masks, m ≠ 0 ∧ m < 65536) :
    xbx1_map_buttons B input 0 =
      0 ||| (if input.dpad = 0 ∨ input.dpad = 1 ∨ input.dpad = 7 then B.WPAD_BUTTON_UP else 0)
        ||| (if input.dpad = 3 ∨ input.dpad = 4 ∨ input.dpad = 5 then B.WPAD_BUTTON_DOWN
          else 0)
        ||| (if input.dpad = 1 ∨ input.dpad = 2 ∨ input.dpad = 3 then B.WPAD_BUTTON_RIGHT
          else 0)
        ||| (if input.dpad = 5 ∨ input.dpad = 6 ∨ input.dpad = 7 then B.WPAD_BUTTON_LEFT
          else 0)
        ||| (if input.a then B.WPAD_BUTTON_A else 0)
        ||| (if input.b then B.WPAD_BUTTON_B else 0)
        ||| (if input.y then B.WPAD_BUTTON_1 else 0)
        ||| (if input.x then B.WPAD_BUTTON_2 else 0)
        ||| (if input.home then B.WPAD_BUTTON_HOME else 0)
        ||| (if input.share then B.WPAD_BUTTON_MINUS else 0)
        ||| (if input.options then B.WPAD_BUTTON_PLUS else 0) := by
  have k : ∀ m ∈ B.masks, m < 65536 := fun m h => (hm m h).2
  simp only [Wpad.masks, List.mem_cons, List.mem_singleton, forall_eq_or_imp, forall_eq,
    List.not_mem_nil, false_implies, implies_true, and_true] at k
  obtain ⟨k1, k2, k3, k4, k5, k6, k7, k8, k9, k10, k11⟩ := k
  have v := xbx1_map_dpad_vertical_eq B input 0 (by decide) k1 k2
  have h := xbx1_map_dpad_horizontal_eq B input _ v.2 k3 k4
  have a := xbx1_map_button_eq input.a _ _ h.2 k5
  have b := xbx1_map_button_eq input.b _ _ a.2 k6
  have y := xbx1_map_button_eq input.y _ _ b.2 k7
  have x := xbx1_map_button_eq input.x _ _ y.2 k8
  have o := xbx1_map_button_eq input.home _ _ x.2 k9
  have s := xbx1_map_button_eq input.share _ _ o.2 k10
  have p := xbx1_map_button_eq input.options _ _ s.2 k11
  unfold xbx1_map_buttons
  rw [p.1, s.1, o.1, x.1, y.1, b.1, a.1, h.1, v.1]

/-- C21. For every Xbox One input report (the eleven button masks being
non-zero 16-bit values with no bit in common), `xbx1_map_buttons` applied to the
zero button word sets the direction bits of the standard 8-direction hat table
(`hat_table`: 0 up, 1 up and right, 2 right, 3 down and right, 4 down, 5 down
and left, 6 left, 7 up and left, 8 and above nothing); up and down are never
both set, left and right are never both set; and the bits A, B, 1, 2, HOME,
MINUS, PLUS are set exactly when a, b, y, x, home, share, options are pressed. -/
theorem C21_xbx1_map_buttons (B : Wpad) (input : xbx1_input_report)
    (hpw : B.masks.Pairwise (fun p q => p &&& q = 0))
    (hm : ∀ m ∈ B.masks, m ≠ 0 ∧ m < 65536) :
    (button_set (xbx1_map_buttons B input 0) B.WPAD_BUTTON_UP,
      button_set (xbx1_map_buttons B input 0) B.WPAD_BUTTON_DOWN,
      button_set (xbx1_map_buttons B input 0) B.WPAD_BUTTON_LEFT,
      button_set (xbx1_map_buttons B input 0) B.WPAD_BUTTON_RIGHT) = hat_table input.dpad ∧
    ¬ (button_set (xbx1_map_buttons B input 0) B.WPAD_BUTTON_UP = true ∧
      button_set (xbx1_map_buttons B input 0) B.WPAD_BUTTON_DOWN = true) ∧
    ¬ (button_set (xbx1_map_buttons B input 0) B.WPAD_BUTTON_LEFT = true ∧
      button_set (xbx1_map_buttons B input 0) B.WPAD_BUTTON_RIGHT = true) ∧
    button_set (xbx1_map_buttons B input 0) B.WPAD_BUTTON_A = input.a ∧
    button_set (xbx1_map_buttons B input 0) B.WPAD_BUTTON_B = input.b ∧
    button_set (xbx1_map_buttons B input 0) B.WPAD_BUTTON_1 = input.y ∧
    button_set (xbx1_map_buttons B input 0) B.WPAD_BUTTON_2 = input.x ∧
    button_set (xbx1_map_buttons B input 0) B.WPAD_BUTTON_HOME = input.home ∧
    button_set (xbx1_map_buttons B input 0) B.WPAD_BUTTON_MINUS = input.share ∧
    button_set (xbx1_map_buttons B input 0) B.WPAD_BUTTON_PLUS = input.options := by
  have d := hpw
  have d2 : B.masks.Pairwise (fun p q => q &&& p = 0) :=
    hpw.imp (fun h => by rw [Nat.and_comm]; exact h)
  have n : ∀ m ∈ B.masks, m ≠ 0 := fun m h => (hm m h).1
  simp only [Wpad.masks, List.pairwise_cons, List.mem_cons, List.mem_singleton,
    forall_eq_or_imp, forall_eq, List.not_mem_nil, false_implies, implies_true, and_true,
    List.Pairwise.nil] at d d2 n
  obtain ⟨n1, n2, n3, n4, n5, n6, n7, n8, n9, n10, n11⟩ := n
  have eU : button_set (xbx1_map_buttons B input 0) B.WPAD_BUTTON_UP =
      decide (input.dpad = 0 ∨ input.dpad = 1 ∨ input.dpad = 7) := by
    unfold button_set
    rw [xbx1_map_buttons_eq B input hm]
    simp only [land_lor_right, ite_land_zero, ite_land_self, d, d2, Nat.zero_and,
      Nat.or_zero, Nat.zero_or, button_set_ite _ _ n1, Bool.decide_eq_true]
  have eD : button_set (xbx1_map_buttons B input 0) B.WPAD_BUTTON_DOWN =
      decide (input.dpad = 3 ∨ input.dpad = 4 ∨ input.dpad = 5) := by
    unfold button_set
    rw [xbx1_map_buttons_eq B input hm]
    simp only [land_lor_right, ite_land_zero, ite_land_self, d, d2, Nat.zero_and,
      Nat.or_zero, Nat.zero_or, button_set_ite _ _ n2, Bool.decide_eq_true]
  have eR : button_set (xbx1_map_buttons B input 0) B.WPAD_BUTTON_RIGHT =
      decide (input.dpad = 1 ∨ input.dpad = 2 ∨ input.dpad = 3) := by
    unfold button_set
    rw [xbx1_map_buttons_eq B input hm]
    simp only [land_lor_right, ite_land_zero, ite_land_self, d, d2, Nat.zero_and,
      Nat.or_zero, Nat.zero_or, button_set_ite _ _ n3, Bool.decide_eq_true]
  have eL : button_set (xbx1_map_buttons B input 0) B.WPAD_BUTTON_LEFT =
      decide (input.dpad = 5 ∨ input.dpad = 6 ∨ input.dpad = 7) := by
    unfold button_set
    rw [xbx1_map_buttons_eq B input hm]
    simp only [land_lor_right, ite_land_zero, ite_land_self, d, d2, Nat.zero_and,
      Nat.or_zero, Nat.zero_or, button_set_ite _ _ n4, Bool.decide_eq_true]
  have eA : button_set (xbx1_map_buttons B input 0) B.WPAD_BUTTON_A =
      input.a := by
    unfold button_set
    rw [xbx1_map_buttons_eq B input hm]
    simp only [land_lor_right, ite_land_zero, ite_land_self, d, d2, Nat.zero_and,
      Nat.or_zero, Nat.zero_or, button_set_ite _ _ n5, Bool.decide_eq_true]
  have eB : button_set (xbx1_map_buttons B input 0) B.WPAD_BUTTON_B =
      input.b := by
    unfold button_set
    rw [xbx1_map_buttons_eq B input hm]
    simp only [land_lor_right, ite_land_zero, ite_land_self, d, d2, Nat.zero_and,
      Nat.or_zero, Nat.zero_or, button_set_ite _ _ n6, Bool.decide_eq_true]
  have e1 : button_set (xbx1_map_buttons B input 0) B.WPAD_BUTTON_1 =
      input.y := by
    unfold button_set
    rw [xbx1_map_buttons_eq B input hm]
    simp only [land_lor_right, ite_land_zero, ite_land_self, d, d2, Nat.zero_and,
      Nat.or_zero, Nat.zero_or, button_set_ite _ _ n7, Bool.decide_eq_true]
  have e2 : button_set (xbx1_map_buttons B input 0) B.WPAD_BUTTON_2 =
      input.x := by
    unfold button_set
    rw [xbx1_map_buttons_eq B input hm]
    simp only [land_lor_right, ite_land_zero, ite_land_self, d, d2, Nat.zero_and,
      Nat.or_zero, Nat.zero_or, button_set_ite _ _ n8, Bool.decide_eq_true]
  have eH : button_set (xbx1_map_buttons B input 0) B.WPAD_BUTTON_HOME =
      input.home := by
    unfold button_set
    rw [xbx1_map_buttons_eq B input hm]
    simp only [land_lor_right, ite_land_zero, ite_land_self, d, d2, Nat.zero_and,
      Nat.or_zero, Nat.zero_or, button_set_ite _ _ n9, Bool.decide_eq_true]
  have eM : button_set (xbx1_map_buttons B input 0) B.WPAD_BUTTON_MINUS =
      input.share := by
    unfold button_set
    rw [xbx1_map_buttons_eq B input hm]
    simp only [land_lor_right, ite_land_zero, ite_land_self, d, d2, Nat.zero_and,
      Nat.or_zero, Nat.zero_or, button_set_ite _ _ n10, Bool.decide_eq_true]
  have eP : button_set (xbx1_map_buttons B input 0) B.WPAD_BUTTON_PLUS =
      input.options := by
    unfold button_set
    rw [xbx1_map_buttons_eq B input hm]
    simp only [land_lor_right, ite_land_zero, ite_land_self, d, d2, Nat.zero_and,
      Nat.or_zero, Nat.zero_or, button_set_ite _ _ n11, Bool.decide_eq_true]
  rw [eU, eD, eL, eR, eA, eB, e1, e2, eH, eM, eP]
  refine ⟨?_, ?_, ?_, rfl, rfl, rfl, rfl, rfl, rfl, rfl⟩
  · have hc : input.dpad = 0 ∨ input.dpad = 1 ∨ input.dpad = 2 ∨ input.dpad = 3 ∨
        input.dpad = 4 ∨ input.dpad = 5 ∨ input.dpad = 6 ∨ input.dpad = 7 ∨
        ∃ k, input.dpad = k + 8 := by
      by_cases h8 : input.dpad < 8
      · omega
      · exact Or.inr (Or.inr (Or.inr (Or.inr (Or.inr (Or.inr (Or.inr (Or.inr
          ⟨input.dpad - 8, by omega⟩)))))))
    rcases hc with h | h | h | h | h | h | h | h | ⟨k, h⟩ <;> rw [h]
    any_goals decide
    have f1 : decide (k + 8 = 0 ∨ k + 8 = 1 ∨ k + 8 = 7) = false := decide_eq_false (by omega)
    have f2 : decide (k + 8 = 3 ∨ k + 8 = 4 ∨ k + 8 = 5) = false := decide_eq_false (by omega)
    have f3 : decide (k + 8 = 5 ∨ k + 8 = 6 ∨ k + 8 = 7) = false := decide_eq_false (by omega)
    have f4 : decide (k + 8 = 1 ∨ k + 8 = 2 ∨ k + 8 = 3) = false := decide_eq_false (by omega)
    rw [f1, f2, f3, f4]
    rfl
  · simp only [decide_eq_true_eq]
    omega
  · simp only [decide_eq_true_eq]
    omega

set_option maxRecDepth 1000000 in
/-- C21 at a concrete input, with the masks of the Wiimote protocol: the hat at
3 with a, x and options pressed gives DOWN, RIGHT, A, 2 and PLUS (0x1609). -/
theorem C21_xbx1_map_buttons_witness :
    xbx1_map_buttons wpad_wii xbx1_report_down_right 0 = 0x1609 ∧
    (button_set (xbx1_map_buttons wpad_wii xbx1_report_down_right 0) 0x0800,
      button_set (xbx1_map_buttons wpad_wii xbx1_report_down_right 0) 0x0400,
      button_set (xbx1_map_buttons wpad_wii xbx1_report_down_right 0) 0x0100,
      button_set (xbx1_map_buttons wpad_wii xbx1_report_down_right 0) 0x0200) =
      (false, true, false, true) :=
  ⟨by decide, (C21_xbx1_map_buttons wpad_wii xbx1_report_down_right (by decide)
    (by decide)).1⟩

/-! ## C22: the colour of a slot -/

/-- C22. For every slot value, `xbx1_driver_ops_slot_changed` makes one call,
the interrupt transfer of the LED report whose colour is the row of the colour
table at index `slot % 3` (`ARRAY_SIZE(colors[0])` is the number of columns of
the table, 3), and returns its result; so only the rows off, blue and red are
ever sent, and the colour is the row at `slot` modulo the number of rows (5)
only when the two indices agree. -/
theorem C22_slot_colour_modulo_three (issue : usb_call → Int) (device slot : Nat) :
    xbx1_driver_ops_slot_changed issue device slot =
      xbx1_set_leds_rumble issue device ((colors.getD (slot % 3) []).getD 0 0)
        ((colors.getD (slot % 3) []).getD 1 0) ((colors.getD (slot % 3) []).getD 2 0) ∧
    (colors.getD (slot % 3) [] = [0, 0, 0] ∨ colors.getD (slot % 3) [] = [0, 0, 255] ∨
      colors.getD (slot % 3) [] = [255, 0, 0]) ∧
    (slot % 3 ≠ slot % 5 → colors.getD (slot % 3) [] ≠ slot_colour slot) := by
  have h3 : slot % 3 < 3 := Nat.mod_lt _ (by decide)
  have h5 : slot % 5 < 5 := Nat.mod_lt _ (by decide)
  refine ⟨?_, ?_, ?_⟩
  · unfold xbx1_driver_ops_slot_changed
    have e : (slot % ARRAY_SIZE (colors.getD 0 [])) % 256 = slot % 3 :=
      Nat.mod_eq_of_lt (by
        show slot % 3 < 256
        omega)
    rw [e]
  · have hc : slot % 3 = 0 ∨ slot % 3 = 1 ∨ slot % 3 = 2 := by omega
    rcases hc with h | h | h <;> rw [h] <;> decide
  · intro hne
    unfold slot_colour
    have e5 : colors.length = 5 := rfl
    rw [e5]
    have hc : slot % 3 = 0 ∨ slot % 3 = 1 ∨ slot % 3 = 2 := by omega
    have hd : slot % 5 = 0 ∨ slot % 5 = 1 ∨ slot % 5 = 2 ∨ slot % 5 = 3 ∨ slot % 5 = 4 := by
      omega
    rcases hc with h | h | h <;> rcases hd with k | k | k | k | k <;>
      rw [h, k] at hne ⊢ <;> first | decide | exact absurd rfl hne

/-- C22 at a concrete input: slot 3 is answered with the colour off (0, 0, 0),
the row at index 0, while the row at index 3 of the table is green. -/
theorem C22_slot_colour_modulo_three_witness :
    (xbx1_driver_ops_slot_changed (fun _ => 0) 0 3).1 =
      usb_call.issue_intr_transfer 0 1
        [0x05, 0x03, 0x00, 0x00, 0x00, 0x00, 0, 0, 0, 0x00, 0x00] ∧
    slot_colour 3 = [0, 255, 0] :=
  ⟨congrArg Prod.fst (C22_slot_colour_modulo_three (fun _ => 0) 0 3).1, rfl⟩

/-! ## C23: a read of EEPROM, reply by reply -/

theorem memwrite_zero_pad (src : List Nat) (r : Nat) (hr : r ≤ 16) (hs : src.length = r) :
    memwrite (List.replicate 16 0) 0 src r = src ++ List.replicate (16 - r) 0 := by
  apply List.ext_getElem
  · simp only [memwrite_length, List.length_replicate, List.length_append, hs]
    omega
  · intro j h1 h2
    have hj : j < 16 := by simpa [memwrite_length] using h1
    have e1 : (memwrite (List.replicate 16 0) 0 src r)[j] =
        (memwrite (List.replicate 16 0) 0 src r).getD j 0 :=
      (List.getD_eq_getElem _ _ h1).symm
    rw [e1, memwrite_getD _ _ _ _ _ (by simpa using hj)]
    by_cases hjr : j < r
    · rw [if_pos (by omega), List.getElem_append_left (by omega),
        List.getD_eq_getElem _ _ (by omega)]
      simp
    · have z : (List.replicate 16 0).getD j 0 = 0 := by
        rw [List.getD_eq_getElem _ _ (by rw [List.length_replicate]; exact hj)]
        exact List.getElem_replicate _ _
      rw [if_neg (by omega), List.getElem_append_right (by omega), z]
      exact (List.getElem_replicate _ _).symm

theorem eeprom_read_step (H : Headers) (E : Env) (W : world_t) (w : fake_wiimote_t)
    (slave a n k : Nat) (hk : 16 * k < n) (hfit : a + n ≤ H.EEPROM_FREE_SIZE)
    (h16 : H.EEPROM_FREE_SIZE < 65536) :
    fake_wiimote_process_read_request H E W (eeprom_read_cursor H w slave a n k) =
      some (true, eeprom_read_cursor H w slave a n (k + 1),
        { W with trace := W.trace ++ [eeprom_reply H w a n k] }) := by
  have hsz : (eeprom_read_cursor H w slave a n k).read_request.size ≠ 0 := by
    show n - 16 * k ≠ 0
    omega
  have hmin : min n (16 * k) = 16 * k := by omega
  have hsw : read_request_switch H (eeprom_read_cursor H w slave a n k)
      (a + min n (16 * k)) (min 16 (n - 16 * k)) =
      (H.ERROR_CODE_SUCCESS,
        memwrite (List.replicate 16 0) 0
          (memread w.eeprom (a + min n (16 * k)) (min 16 (n - 16 * k)))
          (min 16 (n - 16 * k)),
        eeprom_read_cursor H w slave a n k) := by
    unfold read_request_switch
    dsimp only
    rw [if_pos (by rfl), if_neg (by
      show ¬ a + min n (16 * k) + (n - 16 * k) > H.EEPROM_FREE_SIZE
      omega)]
    rfl
  rw [process_read_request_step H E W _ hsz]
  have e1 : (eeprom_read_cursor H w slave a n k).read_request.address =
      a + min n (16 * k) := rfl
  have e2 : (eeprom_read_cursor H w slave a n k).read_request.size = n - 16 * k := rfl
  rw [e1, e2, hsw]
  dsimp only
  unfold read_request_advance
  rw [if_neg (by simp)]
  dsimp only
  have e3 : (a + 16 * k + min 16 (n - 16 * k)) % 65536 =
      a + min n (16 * (k + 1)) := by
    rw [Nat.mod_eq_of_lt (by omega)]
    omega
  have e4 : n - 16 * k - min 16 (n - 16 * k) = n - 16 * (k + 1) := by omega
  rw [memwrite_zero_pad _ _ (by omega) (memread_length _ _ _)]
  simp only [eeprom_read_cursor, eeprom_reply, input_report_of, e3, e4, hmin]

theorem eeprom_read_cursor_zero (H : Headers) (w : fake_wiimote_t) (slave a n : Nat) :
    eeprom_read_cursor H w slave a n 0 =
      { w with read_request :=
        { space := H.ADDRESS_SPACE_EEPROM, slave_address := slave, address := a, size := n } } := by
  unfold eeprom_read_cursor
  have e1 : a + min n (16 * 0) = a := by omega
  have e2 : n - 16 * 0 = n := by omega
  rw [e1, e2]

theorem read_then_ticks_reads (H : Headers) (E : Env) (W : world_t)
    (fw : List fake_wiimote_t) (i : Nat) (w : fake_wiimote_t) (slave a n : Nat)
    (hb : w.baseband_state = baseband_state_e.BASEBAND_STATE_COMPLETE)
    (ha : w.acl_state ≠ acl_state_e.ACL_STATE_LINKING)
    (h0 : w.read_request.size = 0)
    (hfit : a + n ≤ H.EEPROM_FREE_SIZE) (h16 : H.EEPROM_FREE_SIZE < 65536) :
    ∀ t, 16 * t < n →
      read_then_ticks H E W fw i w slave a n t =
        some (eeprom_read_cursor H w slave a n (t + 1),
          { W with trace := W.trace ++ (List.range (t + 1)).map (eeprom_reply H w a n) }) := by
  intro t
  induction t with
  | zero =>
    intro ht
    unfold read_then_ticks handle_hid_intr_data_output
    dsimp only
    rw [if_neg (by simpa using h0), ← eeprom_read_cursor_zero,
      eeprom_read_step H E W w slave a n 0 ht hfit h16]
    rfl
  | succ t ih =>
    intro ht
    unfold read_then_ticks
    rw [ih (by omega)]
    dsimp only
    rw [tick_post_link H E _ fw i (eeprom_read_cursor H w slave a n (t + 1)) hb ha, if_pos (by
        show n - 16 * (t + 1) ≠ 0
        omega),
      eeprom_read_step H E _ w slave a n (t + 1) ht hfit h16]
    simp only [Option.map_some', List.range_succ, List.map_append, List.map_cons, List.map_nil,
      List.append_assoc]

theorem eeprom_replies_filter (H : Headers) (w : fake_wiimote_t) (a n m : Nat) :
    ((List.range m).map (eeprom_reply H w a n)).filter Event.is_read_data_reply =
      (List.range m).map (eeprom_reply H w a n) := by
  apply List.filter_eq_self.2
  intro e he
  obtain ⟨k, -, rfl⟩ := List.mem_map.1 he
  rfl

theorem data_report_fill_read_request (H : Headers) (E : Env) (w : fake_wiimote_t) :
    (data_report_fill H E w).2.read_request = w.read_request := by
  unfold data_report_fill
  dsimp only
  split
  · dsimp only
    rw [extension_read_data_frame]
  · rfl

theorem send_data_report_no_reply (H : Headers) (E : Env) (W : world_t) (w : fake_wiimote_t)
    (res : fake_wiimote_t × world_t) (hs : fake_wiimote_send_data_report H E W w = some res) :
    res.1.read_request = w.read_request ∧
    ∃ new, res.2.trace = W.trace ++ new ∧ ∀ e ∈ new, e.is_read_data_reply = false := by
  unfold fake_wiimote_send_data_report at hs
  split at hs
  · cases hs
    exact ⟨rfl, [], (List.append_nil _).symm, fun e he => absurd he (List.not_mem_nil _)⟩
  · split at hs
    · dsimp only at hs
      split at hs
      · cases hs
      · rename_i r hr
        cases hs
        refine ⟨data_report_fill_read_request H E w, [_],
          send_hid_input_report_trace H E W _ _ _ _ r hr, ?_⟩
        intro e he
        rw [List.mem_singleton.1 he]
        rfl
    · cases hs
      exact ⟨rfl, [], (List.append_nil _).symm, fun e he => absurd he (List.not_mem_nil _)⟩

/-- A tick of a post-link session with no read in flight sends no
READ_DATA_REPLY and leaves the session post-link with no read in flight. -/
theorem tick_idle_no_reply (H : Headers) (E : Env) (W : world_t) (fw : List fake_wiimote_t)
    (i : Nat) (w : fake_wiimote_t) (res : fake_wiimote_t × world_t)
    (hb : w.baseband_state = baseband_state_e.BASEBAND_STATE_COMPLETE)
    (ha : w.acl_state ≠ acl_state_e.ACL_STATE_LINKING)
    (h0 : w.read_request.size = 0)
    (hs : fake_wiimote_tick H E W fw i w = some res) :
    res.1.baseband_state = baseband_state_e.BASEBAND_STATE_COMPLETE ∧
    res.1.acl_state ≠ acl_state_e.ACL_STATE_LINKING ∧
    res.1.read_request.size = 0 ∧
    ∃ new, res.2.trace = W.trace ++ new ∧ ∀ e ∈ new, e.is_read_data_reply = false := by
  rw [tick_post_link H E W fw i w hb ha, if_neg (by simpa using h0)] at hs
  by_cases h1 : w.new_extension = w.cur_extension
  · rw [if_neg (by simpa using h1)] at hs
    obtain ⟨hr, hn⟩ := send_data_report_no_reply H E W w res hs
    have hl := (send_data_report_quiet H E W w res hs).2.2
    simp only [link_part, Prod.mk.injEq] at hl
    refine ⟨hl.2.1.trans hb, ?_, by rw [hr]; exact h0, hn⟩
    rw [hl.2.2.1]
    exact ha
  · rw [if_pos h1, process_extension_change_step H E W fw i w h1] at hs
    cases hs
    refine ⟨hb, ha, h0, [_], rfl, ?_⟩
    intro e he
    rw [List.mem_singleton.1 he]
    rfl

theorem memread_add (src : List Nat) (off p q : Nat) :
    memread src off (p + q) = memread src off p ++ memread src (off + p) q := by
  unfold memread
  rw [List.range_add, List.map_append, List.map_map]
  congr 1
  apply List.map_congr_left
  intro j _
  show src.getD (off + (p + j)) 0 = src.getD (off + p + j) 0
  rw [Nat.add_assoc]

theorem eeprom_chunks (e : List Nat) (a n : Nat) :
    ∀ m, (List.range m).flatMap (fun k => memread e (a + 16 * k) (min 16 (n - 16 * k))) =
      memread e a (min n (16 * m)) := by
  intro m
  induction m with
  | zero =>
    have e0 : min n (16 * 0) = 0 := by omega
    rw [e0]
    rfl
  | succ m ih =>
    rw [List.range_succ, List.flatMap_append, ih]
    simp only [List.flatMap_cons, List.flatMap_nil, List.append_nil]
    have e1 : min n (16 * (m + 1)) = min n (16 * m) + min 16 (n - 16 * m) := by omega
    rw [e1, memread_add]
    by_cases h : 16 * m ≤ n
    · rw [Nat.min_eq_right h]
    · have e2 : min 16 (n - 16 * m) = 0 := by omega
      rw [e2]
      rfl

theorem read_then_ticks_done (H : Headers) (E : Env) (W : world_t)
    (fw : List fake_wiimote_t) (i : Nat) (w : fake_wiimote_t) (slave a n : Nat)
    (hb : w.baseband_state = baseband_state_e.BASEBAND_STATE_COMPLETE)
    (ha : w.acl_state ≠ acl_state_e.ACL_STATE_LINKING)
    (h0 : w.read_request.size = 0) (hn : 1 ≤ n)
    (hfit : a + n ≤ H.EEPROM_FREE_SIZE) (h16 : H.EEPROM_FREE_SIZE < 65536) :
    ∀ t s, (n + 15) / 16 ≤ t + 1 → read_then_ticks H E W fw i w slave a n t = some s →
      s.1.baseband_state = baseband_state_e.BASEBAND_STATE_COMPLETE ∧
      s.1.acl_state ≠ acl_state_e.ACL_STATE_LINKING ∧
      s.1.read_request.size = 0 ∧
      ∃ new, s.2.trace = W.trace ++ new ∧
        new.filter Event.is_read_data_reply =
          (List.range ((n + 15) / 16)).map (eeprom_reply H w a n) := by
  intro t
  induction t with
  | zero =>
    intro s hm hs
    rw [read_then_ticks_reads H E W fw i w slave a n hb ha h0 hfit h16 0 (by omega)] at hs
    cases hs
    have e : (n + 15) / 16 = 0 + 1 := by omega
    rw [e]
    exact ⟨hb, ha, by show n - 16 * (0 + 1) = 0; omega, _, rfl, eeprom_replies_filter _ _ _ _ _⟩
  | succ t ih =>
    intro s hm hs
    by_cases hlt : 16 * (t + 1) < n
    · rw [read_then_ticks_reads H E W fw i w slave a n hb ha h0 hfit h16 (t + 1) hlt] at hs
      cases hs
      have e : (n + 15) / 16 = t + 1 + 1 := by omega
      rw [e]
      exact ⟨hb, ha, by show n - 16 * (t + 1 + 1) = 0; omega, _, rfl,
        eeprom_replies_filter _ _ _ _ _⟩
    · unfold read_then_ticks at hs
      cases h1 : read_then_ticks H E W fw i w slave a n t with
      | none => rw [h1] at hs; cases hs
      | some s0 =>
        rw [h1] at hs
        dsimp only at hs
        obtain ⟨qb, qa, q0, new, qt, qf⟩ := ih s0 (by omega) h1
        obtain ⟨rb, ra, r0, new2, rt, rf⟩ := tick_idle_no_reply H E s0.2 fw i s0.1 s qb qa q0 hs
        refine ⟨rb, ra, r0, new ++ new2, by rw [rt, qt, List.append_assoc], ?_⟩
        rw [List.filter_append, qf, List.filter_eq_nil_iff.2 (fun e he => by simp [rf e he]),
          List.append_nil]

/-- C23. For every post-link session with no read in flight and every READ_DATA
output report for `n >= 1` bytes of EEPROM from address `a` with
`a + n <= EEPROM_FREE_SIZE` (a 16-bit constant), followed by ticks only: after
the handler and `t` ticks, as long as `16 t < n`, the calls made are exactly the
replies number 0 to `t` (`eeprom_reply`: error SUCCESS, address `a + 16k`,
`size_minus_one = min(16, n - 16k) - 1`, the EEPROM bytes from `a + 16k`
zero-padded to 16), the first one sent by the handler itself and one more by
each tick, and the session is the old one with the cursor moved on; once
`ceil(n/16)` replies are out, the remaining size is 0 and no later tick sends a
READ_DATA_REPLY; and the payloads of the replies concatenate to the `n` EEPROM
bytes from `a`. -/
theorem C23_eeprom_read (H : Headers) (E : Env) (W : world_t)
    (fw : List fake_wiimote_t) (i : Nat) (w : fake_wiimote_t) (slave a n : Nat)
    (hb : w.baseband_state = baseband_state_e.BASEBAND_STATE_COMPLETE)
    (ha : w.acl_state ≠ acl_state_e.ACL_STATE_LINKING)
    (h0 : w.read_request.size = 0) (hn : 1 ≤ n)
    (hfit : a + n ≤ H.EEPROM_FREE_SIZE) (h16 : H.EEPROM_FREE_SIZE < 65536) :
    (∀ t, 16 * t < n →
      read_then_ticks H E W fw i w slave a n t =
        some (eeprom_read_cursor H w slave a n (t + 1),
          { W with trace := W.trace ++ (List.range (t + 1)).map (eeprom_reply H w a n) })) ∧
    (∀ t s, (n + 15) / 16 ≤ t + 1 → read_then_ticks H E W fw i w slave a n t = some s →
      s.1.read_request.size = 0 ∧
      ∃ new, s.2.trace = W.trace ++ new ∧
        new.filter Event.is_read_data_reply =
          (List.range ((n + 15) / 16)).map (eeprom_reply H w a n)) ∧
    (List.range ((n + 15) / 16)).flatMap
        (fun k => memread w.eeprom (a + 16 * k) (min 16 (n - 16 * k))) =
      memread w.eeprom a n := by
  refine ⟨read_then_ticks_reads H E W fw i w slave a n hb ha h0 hfit h16, ?_, ?_⟩
  · intro t s hm hs
    obtain ⟨-, -, q0, q⟩ := read_then_ticks_done H E W fw i w slave a n hb ha h0 hn hfit h16
      t s hm hs
    exact ⟨q0, q⟩
  · rw [eeprom_chunks]
    have e : min n (16 * ((n + 15) / 16)) = n := by omega
    rw [e]

set_option maxRecDepth 1000000 in
/-- C23 at a concrete input: 20 bytes of EEPROM from address 2, where the
EEPROM holds the byte `j` at address `j`; the handler sends the reply for
addresses 2 to 17 and the next tick the reply for addresses 18 to 21, padded
with zeros, and the read is over. -/
theorem C23_eeprom_read_witness :
    read_then_ticks wii env_ok world_init [wiimote_eeprom_range] 0 wiimote_eeprom_range
        0 2 20 1 =
      some ({ wiimote_eeprom_range with
          read_request := { space := 0, slave_address := 0, address := 22, size := 0 } },
        { world_init with trace :=
          [Event.l2cap_send_msg 0x101 0x82 0xA1 0x21
              (hid_payload.read_data 0 15 0 2
                [2, 3, 4, 5, 6, 7, 8, 9, 10, 11, 12, 13, 14, 15, 16, 17]),
            Event.l2cap_send_msg 0x101 0x82 0xA1 0x21
              (hid_payload.read_data 0 3 0 18
                [18, 19, 20, 21, 0, 0, 0, 0, 0, 0, 0, 0, 0, 0, 0, 0])] }) :=
  (C23_eeprom_read wii env_ok world_init [wiimote_eeprom_range] 0 wiimote_eeprom_range
    0 2 20 (by decide) (by decide) (by decide) (by decide) (by decide) (by decide)).1 1
    (by decide)

/-! ## C24: reads of the extension registers and the cipher -/

/-- C24. For every successful `extension_read_data(address, size)` (that is,
`address + size <= 256`), with the key derivation and the cipher as the pure
functions of the headers: if the encryption flag byte equals
`ENCRYPTION_ENABLED`, the bytes produced are `encrypt(window[address,
address + size), k, address, size)`, where `k` is `derive(encryption_key_data)`
if `extension_key_dirty` was set and the cached key otherwise, and afterwards
`extension_key_dirty` is false and the cached key is `k`; if the flag byte is
not `ENCRYPTION_ENABLED`, the bytes produced are the plain window bytes and the
session is unchanged; in both cases the register window, and every field other
than the key and its flag, is unchanged. -/
theorem C24_extension_read_data (H : Headers) (w : fake_wiimote_t) (address size : Nat)
    (h : address + size ≤ 256) :
    (w.extension_regs.getD H.OFFSET_encryption 0 = H.ENCRYPTION_ENABLED →
      extension_read_data H w address size =
        (true,
          H.wiimote_crypto_encrypt (memread w.extension_regs address size)
            (if w.extension_key_dirty then
              H.wiimote_crypto_generate_key_from_extension_key_data
                (memread w.extension_regs H.OFFSET_encryption_key_data
                  H.SIZEOF_encryption_key_data)
            else w.extension_key) address size,
          { w with
            extension_key :=
              if w.extension_key_dirty then
                H.wiimote_crypto_generate_key_from_extension_key_data
                  (memread w.extension_regs H.OFFSET_encryption_key_data
                    H.SIZEOF_encryption_key_data)
              else w.extension_key
            extension_key_dirty := false })) ∧
    (w.extension_regs.getD H.OFFSET_encryption 0 ≠ H.ENCRYPTION_ENABLED →
      extension_read_data H w address size =
        (true, memread w.extension_regs address size, w)) ∧
    (extension_read_data H w address size).2.2.extension_regs = w.extension_regs := by
  have h2 : ¬ address + size > EXTENSION_REGS_SIZE := by
    unfold EXTENSION_REGS_SIZE
    omega
  refine ⟨?_, ?_, ?_⟩
  · intro he
    unfold extension_read_data
    rw [if_neg h2]
    dsimp only
    rw [if_pos he]
    cases hd : w.extension_key_dirty
    · simp only [Bool.false_eq_true, if_false, Prod.mk.injEq, true_and]
      cases w
      simp only at hd
      rw [hd]
    · simp only [if_true]
  · intro he
    exact extension_read_data_plain H w address size h he
  · rw [extension_read_data_frame]

set_option maxRecDepth 1000000 in
/-- C24 at a concrete input, with the stand-in cipher `x + key[0] + address`:
encryption on, key dirty, seed byte 7; the read of 3 bytes at 0x20 gives
`10 + 7 + 0x20`, `20 + 7 + 0x20`, `30 + 7 + 0x20`, and the key is cached. -/
theorem C24_extension_read_data_witness :
    (extension_read_data wii wiimote_encrypted 0x20 3).1 = true ∧
    (extension_read_data wii wiimote_encrypted 0x20 3).2.1 = [49, 59, 69] ∧
    (extension_read_data wii wiimote_encrypted 0x20 3).2.2.extension_key_dirty = false ∧
    (extension_read_data wii wiimote_encrypted 0x20 3).2.2.extension_key =
      [7, 0, 0, 0, 0, 0, 0, 0, 0, 0, 0, 0, 0, 0, 0, 0] := by
  have h := (C24_extension_read_data wii wiimote_encrypted 0x20 3 (by decide)).1 (by decide)
  rw [h]
  decide

/-! ## C25: writes to the extension registers -/

/-- C25. For every successful `extension_write_data(src, address, size)` with
`size >= 1` (so `address + size <= 256`; the key-data window
`[ENCRYPTION_KEY_DATA_BEGIN, ENCRYPTION_KEY_DATA_END)` is not empty and the
register window has its 256 bytes): `extension_key_dirty` afterwards is true if
`[address, address + size)` meets the key-data window, and keeps its value
otherwise; the window bytes in `[address, address + size)` are the bytes of
`src`, as they are, whatever the encryption flag; every other byte of the
window, and the cached key, is unchanged. -/
theorem C25_extension_write_data (H : Headers) (w : fake_wiimote_t) (src : List Nat)
    (address size : Nat) (h : address + size ≤ 256) (hs : 1 ≤ size)
    (hwin : H.ENCRYPTION_KEY_DATA_BEGIN < H.ENCRYPTION_KEY_DATA_END)
    (hlen : w.extension_regs.length = 256) :
    (extension_write_data H w src address size).1 = true ∧
    ((∃ x, address ≤ x ∧ x < address + size ∧
        H.ENCRYPTION_KEY_DATA_BEGIN ≤ x ∧ x < H.ENCRYPTION_KEY_DATA_END) →
      (extension_write_data H w src address size).2.extension_key_dirty = true) ∧
    (¬ (∃ x, address ≤ x ∧ x < address + size ∧
        H.ENCRYPTION_KEY_DATA_BEGIN ≤ x ∧ x < H.ENCRYPTION_KEY_DATA_END) →
      (extension_write_data H w src address size).2.extension_key_dirty =
        w.extension_key_dirty) ∧
    (∀ j, j < size →
      (extension_write_data H w src address size).2.extension_regs.getD (address + j) 0 =
        src.getD j 0) ∧
    (∀ x, ¬ (address ≤ x ∧ x < address + size) →
      (extension_write_data H w src address size).2.extension_regs.getD x 0 =
        w.extension_regs.getD x 0) ∧
    (extension_write_data H w src address size).2.extension_regs.length = 256 ∧
    (extension_write_data H w src address size).2.extension_key = w.extension_key := by
  obtain ⟨hok, hregs⟩ := extension_write_data_ok H w src address size h
  have hmeet : (∃ x, address ≤ x ∧ x < address + size ∧
      H.ENCRYPTION_KEY_DATA_BEGIN ≤ x ∧ x < H.ENCRYPTION_KEY_DATA_END) ↔
      (address + size > H.ENCRYPTION_KEY_DATA_BEGIN ∧
        address < H.ENCRYPTION_KEY_DATA_END) := by
    constructor
    · rintro ⟨x, a1, a2, a3, a4⟩
      omega
    · rintro ⟨a1, a2⟩
      exact ⟨max address H.ENCRYPTION_KEY_DATA_BEGIN, by omega, by omega, by omega, by omega⟩
  have h2 : ¬ address + size > EXTENSION_REGS_SIZE := by
    unfold EXTENSION_REGS_SIZE
    omega
  refine ⟨hok, ?_, ?_, ?_, ?_, ?_, ?_⟩
  · intro hx
    unfold extension_write_data
    rw [if_neg h2]
    dsimp only
    rw [if_pos (hmeet.1 hx)]
  · intro hx
    unfold extension_write_data
    rw [if_neg h2]
    dsimp only
    rw [if_neg (fun c => hx (hmeet.2 c))]
  · intro j hj
    rw [hregs, memwrite_getD _ _ _ _ _ (by omega), if_pos (by omega)]
    congr 1
    omega
  · intro x hx
    rw [hregs]
    by_cases hl : x < w.extension_regs.length
    · rw [memwrite_getD _ _ _ _ _ hl, if_neg hx]
    · have l1 : (memwrite w.extension_regs address src size).length ≤ x := by
        rw [memwrite_length]
        omega
      rw [List.getD_eq_default _ _ l1, List.getD_eq_default _ _ (by omega)]
  · rw [hregs, memwrite_length, hlen]
  · unfold extension_write_data
    rw [if_neg h2]
    dsimp only
    split_ifs <;> rfl

set_option maxRecDepth 1000000 in
/-- C25 at a concrete input: with encryption enabled and the key cached, three
bytes written at 0x3F reach the key data at 0x40; the key is dirty afterwards,
and the bytes are stored as they are. -/
theorem C25_extension_write_data_witness :
    (extension_read_data wii wiimote_encrypted 0 1).2.2.extension_key_dirty = false ∧
    (extension_write_data wii (extension_read_data wii wiimote_encrypted 0 1).2.2
      [1, 2, 3] 0x3F 3).2.extension_key_dirty = true ∧
    memread (extension_write_data wii (extension_read_data wii wiimote_encrypted 0 1).2.2
      [1, 2, 3] 0x3F 3).2.extension_regs 0x3F 3 = [1, 2, 3] :=
  ⟨by decide,
    (C25_extension_write_data wii (extension_read_data wii wiimote_encrypted 0 1).2.2
      [1, 2, 3] 0x3F 3 (by decide) (by decide) (by decide) (by decide)).2.1
      ⟨0x40, by decide, by decide, by decide, by decide⟩,
    by decide⟩

/-! ## C26: the identifier of the extension after a change -/

theorem extension_id_code_eq (H : Headers) (e : wiimote_mgr_ext_u)
    (he : e ≠ wiimote_mgr_ext_u.WIIMOTE_MGR_EXT_NONE) :
    extension_id_code H e = some (identifier_code H e) := by
  cases e
  · exact absurd rfl he
  all_goals rfl

/-- C26. For every session and every pending extension `e` of Nunchuk, Classic,
Classic Wii U Pro, Guitar and Motion Plus that is different from the current
one (the identifier codes of `wiimote.h` being 6 bytes long and the identifier
field lying inside the register window): materialising the change with
`fake_wiimote_process_extension_change` returns true, and afterwards
`cur_extension` is `e`, the 6 bytes of `extension_regs.identifier` are the
identifier code of `e`, namely `EXT_ID_CODE_NUNCHUNK` for the Nunchuk,
`EXP_ID_CODE_CLASSIC_CONTROLLER` for the Classic, `EXP_ID_CODE_CLASSIC_WIIU_PRO`
for the Classic Wii U Pro, `EXP_ID_CODE_GUITAR` for the Guitar and
`EXP_ID_CODE_MOTION_PLUS` for the Motion Plus, and every other byte of the
register window is unchanged. -/
theorem C26_extension_identifier (H : Headers) (E : Env) (W : world_t)
    (fw : List fake_wiimote_t) (i : Nat) (w : fake_wiimote_t)
    (hne : w.new_extension ≠ w.cur_extension)
    (he : w.new_extension ≠ wiimote_mgr_ext_u.WIIMOTE_MGR_EXT_NONE)
    (hc6 : H.EXT_ID_CODE_NUNCHUNK.length = 6 ∧ H.EXP_ID_CODE_CLASSIC_CONTROLLER.length = 6 ∧
      H.EXP_ID_CODE_CLASSIC_WIIU_PRO.length = 6 ∧ H.EXP_ID_CODE_GUITAR.length = 6 ∧
      H.EXP_ID_CODE_MOTION_PLUS.length = 6)
    (hoff : H.OFFSET_identifier + 6 ≤ w.extension_regs.length) :
    ∃ s W1, fake_wiimote_process_extension_change H E W fw i w = some (true, s, W1) ∧
      s.cur_extension = w.new_extension ∧
      memread s.extension_regs H.OFFSET_identifier 6 = identifier_code H w.new_extension ∧
      (w.new_extension = wiimote_mgr_ext_u.WIIMOTE_MGR_EXT_NUNCHUK →
        memread s.extension_regs H.OFFSET_identifier 6 = H.EXT_ID_CODE_NUNCHUNK) ∧
      (w.new_extension = wiimote_mgr_ext_u.WIIMOTE_MGR_EXT_CLASSIC →
        memread s.extension_regs H.OFFSET_identifier 6 = H.EXP_ID_CODE_CLASSIC_CONTROLLER) ∧
      (w.new_extension = wiimote_mgr_ext_u.WIIMOTE_MGR_EXT_CLASSIC_WIIU_PRO →
        memread s.extension_regs H.OFFSET_identifier 6 = H.EXP_ID_CODE_CLASSIC_WIIU_PRO) ∧
      (w.new_extension = wiimote_mgr_ext_u.WIIMOTE_MGR_EXT_GUITAR →
        memread s.extension_regs H.OFFSET_identifier 6 = H.EXP_ID_CODE_GUITAR) ∧
      (w.new_extension = wiimote_mgr_ext_u.WIIMOTE_MGR_EXT_MOTION_PLUS →
        memread s.extension_regs H.OFFSET_identifier 6 = H.EXP_ID_CODE_MOTION_PLUS) ∧
      (∀ x, ¬ (H.OFFSET_identifier ≤ x ∧ x < H.OFFSET_identifier + 6) →
        s.extension_regs.getD x 0 = w.extension_regs.getD x 0) ∧
      s.extension_regs.length = w.extension_regs.length := by
  have hcode := extension_id_code_eq H w.new_extension he
  have h6 : (identifier_code H w.new_extension).length = 6 := by
    obtain ⟨c1, c2, c3, c4, c5⟩ := hc6
    cases hx : w.new_extension
    · exact absurd hx he
    · exact c1
    · exact c2
    · exact c3
    · exact c4
    · exact c5
  have hregs : (extension_change_applied H w).extension_regs =
      memwrite w.extension_regs H.OFFSET_identifier (identifier_code H w.new_extension) 6 := by
    unfold extension_change_applied
    dsimp only
    rw [hcode]
  have hread : memread (extension_change_applied H w).extension_regs H.OFFSET_identifier 6 =
      identifier_code H w.new_extension := by
    rw [hregs, memread_memwrite _ _ _ _ hoff]
    rw [← h6]
    exact memread_self _
  refine ⟨extension_change_applied H w, _,
    process_extension_change_step H E W fw i w hne, rfl, hread, ?_, ?_, ?_, ?_, ?_, ?_, ?_⟩
  · intro hx; rw [hread, hx]; rfl
  · intro hx; rw [hread, hx]; rfl
  · intro hx; rw [hread, hx]; rfl
  · intro hx; rw [hread, hx]; rfl
  · intro hx; rw [hread, hx]; rfl
  · intro x hx
    rw [hregs]
    by_cases hl : x < w.extension_regs.length
    · rw [memwrite_getD _ _ _ _ _ hl, if_neg hx]
    · have l1 : (memwrite w.extension_regs H.OFFSET_identifier
          (identifier_code H w.new_extension) 6).length ≤ x := by
        rw [memwrite_length]
        omega
      rw [List.getD_eq_default _ _ l1, List.getD_eq_default _ _ (by omega)]
  · rw [hregs, memwrite_length]

set_option maxRecDepth 1000000 in
/-- C26 at concrete inputs, one for each of the five extensions: the session
with that extension pending and the current extension None; after the change the
current extension is the pending one and the bytes 0xFA to 0xFF of the register
window are `00 00 A4 20 00 00` for the Nunchuk, `00 00 A4 20 01 01` for the
Classic, `00 00 A4 20 01 20` for the Classic Wii U Pro, `00 00 A4 20 01 03` for
the Guitar and `00 00 A4 20 04 05` for the Motion Plus. -/
theorem C26_extension_identifier_witness :
    (∃ s W1, fake_wiimote_process_extension_change wii env_ok world_init
        [wiimote_linked, wiimote_pending wiimote_mgr_ext_u.WIIMOTE_MGR_EXT_NUNCHUK] 1
        (wiimote_pending wiimote_mgr_ext_u.WIIMOTE_MGR_EXT_NUNCHUK) = some (true, s, W1) ∧
      s.cur_extension = wiimote_mgr_ext_u.WIIMOTE_MGR_EXT_NUNCHUK ∧
      memread s.extension_regs 0xFA 6 = [0x00, 0x00, 0xA4, 0x20, 0x00, 0x00]) ∧
    (∃ s W1, fake_wiimote_process_extension_change wii env_ok world_init
        [wiimote_linked, wiimote_pending wiimote_mgr_ext_u.WIIMOTE_MGR_EXT_CLASSIC] 1
        (wiimote_pending wiimote_mgr_ext_u.WIIMOTE_MGR_EXT_CLASSIC) = some (true, s, W1) ∧
      s.cur_extension = wiimote_mgr_ext_u.WIIMOTE_MGR_EXT_CLASSIC ∧
      memread s.extension_regs 0xFA 6 = [0x00, 0x00, 0xA4, 0x20, 0x01, 0x01]) ∧
    (∃ s W1, fake_wiimote_process_extension_change wii env_ok world_init
        [wiimote_linked, wiimote_pending wiimote_mgr_ext_u.WIIMOTE_MGR_EXT_CLASSIC_WIIU_PRO] 1
        (wiimote_pending wiimote_mgr_ext_u.WIIMOTE_MGR_EXT_CLASSIC_WIIU_PRO) =
          some (true, s, W1) ∧
      s.cur_extension = wiimote_mgr_ext_u.WIIMOTE_MGR_EXT_CLASSIC_WIIU_PRO ∧
      memread s.extension_regs 0xFA 6 = [0x00, 0x00, 0xA4, 0x20, 0x01, 0x20]) ∧
    (∃ s W1, fake_wiimote_process_extension_change wii env_ok world_init
        [wiimote_linked, wiimote_pending wiimote_mgr_ext_u.WIIMOTE_MGR_EXT_GUITAR] 1
        (wiimote_pending wiimote_mgr_ext_u.WIIMOTE_MGR_EXT_GUITAR) = some (true, s, W1) ∧
      s.cur_extension = wiimote_mgr_ext_u.WIIMOTE_MGR_EXT_GUITAR ∧
      memread s.extension_regs 0xFA 6 = [0x00, 0x00, 0xA4, 0x20, 0x01, 0x03]) ∧
    (∃ s W1, fake_wiimote_process_extension_change wii env_ok world_init
        [wiimote_linked, wiimote_pending wiimote_mgr_ext_u.WIIMOTE_MGR_EXT_MOTION_PLUS] 1
        (wiimote_pending wiimote_mgr_ext_u.WIIMOTE_MGR_EXT_MOTION_PLUS) = some (true, s, W1) ∧
      s.cur_extension = wiimote_mgr_ext_u.WIIMOTE_MGR_EXT_MOTION_PLUS ∧
      memread s.extension_regs 0xFA 6 = [0x00, 0x00, 0xA4, 0x20, 0x04, 0x05]) := by
  refine ⟨?_, ?_, ?_, ?_, ?_⟩
  · obtain ⟨s, W1, h, h1, -, h2, -⟩ := C26_extension_identifier wii env_ok world_init
      [wiimote_linked, wiimote_pending wiimote_mgr_ext_u.WIIMOTE_MGR_EXT_NUNCHUK] 1
      (wiimote_pending wiimote_mgr_ext_u.WIIMOTE_MGR_EXT_NUNCHUK) (by decide) (by decide)
      (by decide) (by decide)
    exact ⟨s, W1, h, h1, h2 rfl⟩
  · obtain ⟨s, W1, h, h1, -, -, h2, -⟩ := C26_extension_identifier wii env_ok world_init
      [wiimote_linked, wiimote_pending wiimote_mgr_ext_u.WIIMOTE_MGR_EXT_CLASSIC] 1
      (wiimote_pending wiimote_mgr_ext_u.WIIMOTE_MGR_EXT_CLASSIC) (by decide) (by decide)
      (by decide) (by decide)
    exact ⟨s, W1, h, h1, h2 rfl⟩
  · obtain ⟨s, W1, h, h1, -, -, -, h2, -⟩ := C26_extension_identifier wii env_ok world_init
      [wiimote_linked, wiimote_pending wiimote_mgr_ext_u.WIIMOTE_MGR_EXT_CLASSIC_WIIU_PRO] 1
      (wiimote_pending wiimote_mgr_ext_u.WIIMOTE_MGR_EXT_CLASSIC_WIIU_PRO) (by decide)
      (by decide) (by decide) (by decide)
    exact ⟨s, W1, h, h1, h2 rfl⟩
  · obtain ⟨s, W1, h, h1, -, -, -, -, h2, -⟩ := C26_extension_identifier wii env_ok world_init
      [wiimote_linked, wiimote_pending wiimote_mgr_ext_u.WIIMOTE_MGR_EXT_GUITAR] 1
      (wiimote_pending wiimote_mgr_ext_u.WIIMOTE_MGR_EXT_GUITAR) (by decide) (by decide)
      (by decide) (by decide)
    exact ⟨s, W1, h, h1, h2 rfl⟩
  · obtain ⟨s, W1, h, h1, -, -, -, -, -, h2, -⟩ := C26_extension_identifier wii env_ok
      world_init
      [wiimote_linked, wiimote_pending wiimote_mgr_ext_u.WIIMOTE_MGR_EXT_MOTION_PLUS] 1
      (wiimote_pending wiimote_mgr_ext_u.WIIMOTE_MGR_EXT_MOTION_PLUS) (by decide) (by decide)
      (by decide) (by decide)
    exact ⟨s, W1, h, h1, h2 rfl⟩

/-! ## C27: signalling packets of a tick while linking -/

theorem check_send_config_trace (H : Headers) (E : Env) (W : world_t) (h : Nat)
    (info : l2cap_channel_info_t) :
    (check_send_config_for_new_channel H E W h info).2.trace =
      W.trace ++ config_req_of H h info := by
  unfold check_send_config_for_new_channel config_req_of
  split
  · dsimp only [call_int]
    split <;> rfl
  · exact (List.append_nil _).symm

theorem tick_send_configs_trace (H : Headers) (E : Env) (W : world_t) (w : fake_wiimote_t) :
    (tick_send_configs H E W w).2.trace =
      W.trace ++ (config_req_of H w.hci_con_handle w.psm_hid_cntl_chn ++
        config_req_of H w.hci_con_handle w.psm_hid_intr_chn) := by
  unfold tick_send_configs
  dsimp only
  rw [check_send_config_trace, check_send_config_trace, List.append_assoc]

theorem config_req_of_length (H : Headers) (h : Nat) (info : l2cap_channel_info_t) :
    (config_req_of H h info).length ≤ 1 := by
  unfold config_req_of
  split
  · exact Nat.le_refl _
  · exact Nat.zero_le _

theorem config_req_of_kind (H : Headers) (h : Nat) (info : l2cap_channel_info_t) :
    ∀ e ∈ config_req_of H h info, e.is_config_req = true ∧ e.is_connect_req = false := by
  unfold config_req_of
  split
  · intro e he
    rw [List.mem_singleton.1 he]
    exact ⟨rfl, rfl⟩
  · intro e he
    exact absurd he (List.not_mem_nil _)

theorem config_req_of_setup (H : Headers) (h : Nat) (info : l2cap_channel_info_t)
    (psm local_cid : Nat) :
    config_req_of H h (l2cap_channel_info_setup info psm local_cid) = [] := by
  unfold config_req_of
  rw [if_neg]
  rintro ⟨a, -⟩
  revert a
  simp [l2cap_channel_is_accepted, l2cap_channel_info_setup]

theorem tick_linking_eq (H : Headers) (E : Env) (W : world_t)
    (fw : List fake_wiimote_t) (i : Nat) (w : fake_wiimote_t)
    (hb : w.baseband_state = baseband_state_e.BASEBAND_STATE_COMPLETE)
    (ha : w.acl_state = acl_state_e.ACL_STATE_LINKING) :
    fake_wiimote_tick H E W fw i w =
      (tick_linking_cascade H E W i w).map (fun r => tick_send_configs H E r.2 r.1) := by
  unfold fake_wiimote_tick
  rw [if_neg (by rw [hb]; decide), if_pos hb, if_pos ha]
  cases tick_linking_cascade H E W i w <;> rfl

/-- The call of the cascade of a linking tick: a connect-req, which leaves the
channel it is for unable to take a config-req, or the callback `assigned`, or
nothing. -/
theorem tick_linking_cascade_calls (H : Headers) (E : Env) (W : world_t) (i : Nat)
    (w : fake_wiimote_t) (res : fake_wiimote_t × world_t)
    (hs : tick_linking_cascade H E W i w = some res) :
    ∃ pre, res.2.trace = W.trace ++ pre ∧
      ((∃ psm scid, pre = [Event.l2cap_send_connect_req w.hci_con_handle psm scid] ∧
          (config_req_of H res.1.hci_con_handle res.1.psm_hid_cntl_chn = [] ∨
            config_req_of H res.1.hci_con_handle res.1.psm_hid_intr_chn = [])) ∨
        pre = [Event.ops_assigned w.usrdata i] ∨ pre = []) := by
  unfold tick_linking_cascade at hs
  split at hs
  · dsimp only at hs
    split at hs
    · cases hs
      exact ⟨[_], rfl, Or.inl ⟨_, _, rfl, Or.inl (config_req_of_setup H w.hci_con_handle
        w.psm_hid_cntl_chn H.L2CAP_PSM_HID_CNTL (generate_l2cap_channel_id W).1)⟩⟩
    · cases hs
  · split at hs
    · dsimp only at hs
      split at hs
      · cases hs
        exact ⟨[_], rfl, Or.inl ⟨_, _, rfl, Or.inr (config_req_of_setup H w.hci_con_handle
          w.psm_hid_intr_chn H.L2CAP_PSM_HID_INTR (generate_l2cap_channel_id W).1)⟩⟩
      · cases hs
    · split at hs
      · cases hs
        exact ⟨[_], rfl, Or.inr (Or.inl rfl)⟩
      · cases hs
        exact ⟨[], (List.append_nil _).symm, Or.inr (Or.inr rfl)⟩

set_option maxRecDepth 1000000 in
/-- C27, counterexample to "at most one signalling packet per tick while
linking": once HID-Control is accepted and HID-Interrupt is not yet requested,
one tick sends the connect-req for HID-Interrupt and the config-req for
HID-Control. -/
theorem C27_two_packets_counterexample :
    fake_wiimote_tick wii env_ok world_next_id [wiimote_cntl_connected] 0
        wiimote_cntl_connected =
      some ({ wiimote_cntl_connected with
          psm_hid_cntl_chn :=
            { wiimote_cntl_connected.psm_hid_cntl_chn with
              state := l2cap_channel_state_e.L2CAP_CHANNEL_STATE_INACTIVE_CONFIG_PEND }
          psm_hid_intr_chn :=
            { valid := true
              state := l2cap_channel_state_e.L2CAP_CHANNEL_STATE_INACTIVE_INACTIVE
              psm := 0x13, local_cid := 0x41, remote_cid := 0, remote_mtu := 0 } },
        { starting_id := 0x42
          trace := [Event.l2cap_send_connect_req 0x101 0x13 0x41,
            Event.l2cap_send_config_req 0x101 0x81 185 0xFFFF] }) ∧
    ([Event.l2cap_send_connect_req 0x101 0x13 0x41,
      Event.l2cap_send_config_req 0x101 0x81 185 0xFFFF].filter
        Event.is_signalling).length = 2 := by
  decide

/-- C27, amended. For every session state with baseband Complete and ACL
Linking, one call of the session tick that returns sends at most two L2CAP
signalling packets: at most one connect-req (from the cascade) and at most two
config-reqs (one for each HID channel that is accepted and still Inactive), and
never a connect-req together with two config-reqs; it sends no other kind of
signalling packet. -/
theorem C27_linking_tick_packets (H : Headers) (E : Env) (W : world_t)
    (fw : List fake_wiimote_t) (i : Nat) (w : fake_wiimote_t) (res : fake_wiimote_t × world_t)
    (hb : w.baseband_state = baseband_state_e.BASEBAND_STATE_COMPLETE)
    (ha : w.acl_state = acl_state_e.ACL_STATE_LINKING)
    (hs : fake_wiimote_tick H E W fw i w = some res) :
    ∃ new, res.2.trace = W.trace ++ new ∧
      (new.filter Event.is_signalling).length ≤ 2 ∧
      (new.filter Event.is_connect_req).length ≤ 1 ∧
      (new.filter Event.is_config_req).length ≤ 2 ∧
      ∀ e ∈ new, e.is_signalling = true → e.is_connect_req = true ∨ e.is_config_req = true := by
  rw [tick_linking_eq H E W fw i w hb ha] at hs
  cases hc : tick_linking_cascade H E W i w with
  | none => rw [hc] at hs; cases hs
  | some r =>
    rw [hc] at hs
    cases hs
    obtain ⟨pre, hpre, hkind⟩ := tick_linking_cascade_calls H E W i w r hc
    have l1 := config_req_of_length H r.1.hci_con_handle r.1.psm_hid_cntl_chn
    have l2 := config_req_of_length H r.1.hci_con_handle r.1.psm_hid_intr_chn
    have k1 := config_req_of_kind H r.1.hci_con_handle r.1.psm_hid_cntl_chn
    have k2 := config_req_of_kind H r.1.hci_con_handle r.1.psm_hid_intr_chn
    have f1 : (config_req_of H r.1.hci_con_handle r.1.psm_hid_cntl_chn).filter
        Event.is_connect_req = [] :=
      List.filter_eq_nil_iff.2 (fun e he => by simp [(k1 e he).2])
    have f2 : (config_req_of H r.1.hci_con_handle r.1.psm_hid_intr_chn).filter
        Event.is_connect_req = [] :=
      List.filter_eq_nil_iff.2 (fun e he => by simp [(k2 e he).2])
    have g1 := List.length_filter_le Event.is_signalling
      (config_req_of H r.1.hci_con_handle r.1.psm_hid_cntl_chn)
    have g2 := List.length_filter_le Event.is_signalling
      (config_req_of H r.1.hci_con_handle r.1.psm_hid_intr_chn)
    have c1 := List.length_filter_le Event.is_config_req
      (config_req_of H r.1.hci_con_handle r.1.psm_hid_cntl_chn)
    have c2 := List.length_filter_le Event.is_config_req
      (config_req_of H r.1.hci_con_handle r.1.psm_hid_intr_chn)
    refine ⟨pre ++ (config_req_of H r.1.hci_con_handle r.1.psm_hid_cntl_chn ++
      config_req_of H r.1.hci_con_handle r.1.psm_hid_intr_chn), ?_, ?_, ?_, ?_, ?_⟩
    · rw [tick_send_configs_trace, hpre, List.append_assoc]
    · simp only [List.filter_append, List.length_append]
      rcases hkind with ⟨psm, scid, rfl, hz | hz⟩ | rfl | rfl
      · rw [hz] at g1 ⊢
        simp only [List.filter_cons, List.filter_nil, Event.is_signalling, if_true,
          List.length_cons, List.length_nil]
        omega
      · rw [hz] at g2 ⊢
        simp only [List.filter_cons, List.filter_nil, Event.is_signalling, if_true,
          List.length_cons, List.length_nil]
        omega
      · simp only [List.filter_cons, List.filter_nil, Event.is_signalling,
          Bool.false_eq_true, if_false, List.length_nil]
        omega
      · simp only [List.filter_nil, List.length_nil]
        omega
    · simp only [List.filter_append, List.length_append, f1, f2, List.length_nil]
      rcases hkind with ⟨psm, scid, rfl, -⟩ | rfl | rfl
      · exact Nat.le_refl _
      · exact Nat.zero_le _
      · exact Nat.zero_le _
    · simp only [List.filter_append, List.length_append]
      rcases hkind with ⟨psm, scid, rfl, -⟩ | rfl | rfl
      · simp only [List.filter_cons, List.filter_nil, Event.is_config_req,
          Bool.false_eq_true, if_false, List.length_nil]
        omega
      · simp only [List.filter_cons, List.filter_nil, Event.is_config_req,
          Bool.false_eq_true, if_false, List.length_nil]
        omega
      · simp only [List.filter_nil, List.length_nil]
        omega
    · intro e he hsig
      rcases List.mem_append.1 he with h | h
      · rcases hkind with ⟨psm, scid, rfl, -⟩ | rfl | rfl
        · rw [List.mem_singleton.1 h]
          exact Or.inl rfl
        · rw [List.mem_singleton.1 h] at hsig
          cases hsig
        · exact absurd h (List.not_mem_nil _)
      · rcases List.mem_append.1 h with h | h
        · exact Or.inr (k1 e h).1
        · exact Or.inr (k2 e h).1

set_option maxRecDepth 1000000 in
/-- C27 at a concrete input: the tick of the counterexample sends two signalling
packets, one connect-req and one config-req. -/
theorem C27_linking_tick_packets_witness :
    ∃ res new, fake_wiimote_tick wii env_ok world_next_id [wiimote_cntl_connected] 0
        wiimote_cntl_connected = some res ∧
      res.2.trace = world_next_id.trace ++ new ∧
      (new.filter Event.is_signalling).length ≤ 2 ∧
      (new.filter Event.is_connect_req).length ≤ 1 := by
  have hm : (fake_wiimote_tick wii env_ok world_next_id [wiimote_cntl_connected] 0
      wiimote_cntl_connected).isSome = true := by
    decide
  cases hs : fake_wiimote_tick wii env_ok world_next_id [wiimote_cntl_connected] 0
      wiimote_cntl_connected with
  | none => rw [hs] at hm; cases hm
  | some s =>
    obtain ⟨new, h1, h2, h3, -⟩ := C27_linking_tick_packets wii env_ok world_next_id
      [wiimote_cntl_connected] 0 wiimote_cntl_connected s (by decide) (by decide) hs
    exact ⟨s, new, rfl, h1, h2, h3⟩

/-! ## C28: a data report whose send fails -/

theorem data_report_fill_session (H : Headers) (E : Env) (w : fake_wiimote_t) :
    (data_report_fill H E w).2 =
      { w with
        extension_key := (data_report_fill H E w).2.extension_key
        extension_key_dirty := (data_report_fill H E w).2.extension_key_dirty } := by
  unfold data_report_fill
  dsimp only
  split
  · dsimp only
    rw [extension_read_data_frame]
  · rfl

/-- What `fake_wiimote_send_data_report` does when it sends: one attempt, and the
session afterwards is the old one with `input_dirty` cleared (and the key cache
as the read of the extension bytes has left it), whatever the send returns. -/
theorem send_data_report_sent (H : Headers) (E : Env) (W : world_t) (w : fake_wiimote_t)
    (res : fake_wiimote_t × world_t)
    (hd : w.reporting_mode ≠ H.INPUT_REPORT_ID_REPORT_DISABLED)
    (hc : w.reporting_continuous = true ∨ w.input_dirty = true)
    (hs : fake_wiimote_send_data_report H E W w = some res) :
    res.1 = { w with
        extension_key := res.1.extension_key
        extension_key_dirty := res.1.extension_key_dirty
        input_dirty := false } ∧
    ∃ bytes, res.2.trace = W.trace ++
      [input_report_of H w w.reporting_mode (hid_payload.raw bytes)] := by
  unfold fake_wiimote_send_data_report at hs
  rw [if_neg hd, if_pos hc] at hs
  dsimp only at hs
  split at hs
  · cases hs
  · rename_i r hr
    cases hs
    obtain ⟨f1, f2, f3⟩ := data_report_fill_frame H E w
    refine ⟨?_, memread (data_report_fill H E w).1 0
      (((if H.input_report_has_btn w.reporting_mode then 2 else 0) +
        H.input_report_ext_size w.reporting_mode % 256) % 256), ?_⟩
    · dsimp only
      rw [data_report_fill_session]
    · rw [send_hid_input_report_trace H E W _ _ _ _ r hr, f1, f2, f3]
      rfl

/-- C28 (what the code does). `fake_wiimote_send_data_report` drops the result
of `send_hid_input_report` and clears `input_dirty` after it.  When a tick of a
post-link session (no read in flight, no extension change pending) attempts a
data report with `input_dirty` set and non-continuous reporting, then whatever
the send primitive returns, failure included, the tick makes that one attempt,
the session stays as active as it was, and `input_dirty` is cleared: the next
tick, whatever its environment, makes no call, so the data report that failed is
not sent again. -/
theorem C28_data_report_not_retried (H : Headers) (E : Env) (W : world_t)
    (fw : List fake_wiimote_t) (i : Nat) (w : fake_wiimote_t) (res : fake_wiimote_t × world_t)
    (hb : w.baseband_state = baseband_state_e.BASEBAND_STATE_COMPLETE)
    (ha : w.acl_state ≠ acl_state_e.ACL_STATE_LINKING)
    (h0 : w.read_request.size = 0) (he : w.new_extension = w.cur_extension)
    (hd : w.reporting_mode ≠ H.INPUT_REPORT_ID_REPORT_DISABLED)
    (hdirty : w.input_dirty = true) (hnc : w.reporting_continuous = false)
    (hs : fake_wiimote_tick H E W fw i w = some res) :
    res.1.active = w.active ∧ res.1.input_dirty = false ∧
    (∃ bytes, res.2.trace = W.trace ++
      [input_report_of H w w.reporting_mode (hid_payload.raw bytes)]) ∧
    ∀ (E2 : Env) (fw2 : List fake_wiimote_t),
      fake_wiimote_tick H E2 res.2 fw2 i res.1 = some res := by
  rw [tick_post_link H E W fw i w hb ha, if_neg (by simpa using h0),
    if_neg (by simpa using he)] at hs
  obtain ⟨hres, htr⟩ := send_data_report_sent H E W w res hd (Or.inr hdirty) hs
  refine ⟨by rw [hres], by rw [hres], htr, ?_⟩
  intro E2 fw2
  have qb : res.1.baseband_state = baseband_state_e.BASEBAND_STATE_COMPLETE := by
    rw [hres]; exact hb
  have qa : res.1.acl_state ≠ acl_state_e.ACL_STATE_LINKING := by
    rw [hres]; exact ha
  have q0 : res.1.read_request.size = 0 := by
    rw [hres]; exact h0
  have qe : res.1.new_extension = res.1.cur_extension := by
    rw [hres]; exact he
  have qd : res.1.reporting_mode ≠ H.INPUT_REPORT_ID_REPORT_DISABLED := by
    rw [hres]; exact hd
  have qc : ¬ (res.1.reporting_continuous = true ∨ res.1.input_dirty = true) := by
    rw [hres]
    dsimp only
    rw [hnc]
    simp
  rw [tick_post_link H E2 res.2 fw2 i res.1 qb qa, if_neg (by simpa using q0),
    if_neg (by simpa using qe)]
  unfold fake_wiimote_send_data_report
  rw [if_neg qd, if_neg qc]

set_option maxRecDepth 1000000 in
/-- C28 at the failing input: a linked session in the buttons-only mode 0x30,
non-continuous, with `input_dirty` set, and every send returning -1.  The tick
attempts the data report once, the session afterwards differs from the one
before in `input_dirty` only, which is cleared, and a second tick makes no
call. -/
theorem C28_data_report_not_retried_witness :
    env_fail.ret world_init.trace.length = -1 ∧
    wiimote_dirty.active = true ∧ wiimote_dirty.input_dirty = true ∧
    wiimote_dirty.reporting_continuous = false ∧
    fake_wiimote_tick wii env_fail world_init [wiimote_dirty] 0 wiimote_dirty =
      some ({ wiimote_dirty with input_dirty := false },
        { world_init with trace :=
          [Event.l2cap_send_msg 0x101 0x82 0xA1 0x30 (hid_payload.raw [0x00, 0x08])] }) ∧
    ∃ res, fake_wiimote_tick wii env_fail world_init [wiimote_dirty] 0 wiimote_dirty =
        some res ∧
      res.1.active = true ∧ res.1.input_dirty = false ∧
      fake_wiimote_tick wii env_fail res.2 [res.1] 0 res.1 = some res := by
  have hm : fake_wiimote_tick wii env_fail world_init [wiimote_dirty] 0 wiimote_dirty =
      some ({ wiimote_dirty with input_dirty := false },
        { world_init with trace :=
          [Event.l2cap_send_msg 0x101 0x82 0xA1 0x30 (hid_payload.raw [0x00, 0x08])] }) := by
    decide
  obtain ⟨h1, h2, -, h4⟩ := C28_data_report_not_retried wii env_fail world_init
    [wiimote_dirty] 0 wiimote_dirty _ (by decide) (by decide) (by decide) (by decide)
    (by decide) (by decide) (by decide) hm
  exact ⟨by decide, by decide, by decide, by decide, hm, _, hm, h1, h2, h4 env_fail _⟩

/-! ## C29: coherence of the key cache -/

theorem memread_memwrite_apart (dst src : List Nat) (off n o m : Nat)
    (h : off + n ≤ o ∨ o + m ≤ off) :
    memread (memwrite dst off src n) o m = memread dst o m := by
  unfold memread
  apply List.map_congr_left
  intro j hj
  have hjm : j < m := List.mem_range.1 hj
  by_cases hl : o + j < dst.length
  · rw [memwrite_getD _ _ _ _ _ hl, if_neg (by omega)]
  · rw [List.getD_eq_default _ _ (by rw [memwrite_length]; omega),
      List.getD_eq_default _ _ (by omega)]

theorem memmismatch_le (a b : List Nat) (n : Nat) : memmismatch a b n ≤ n := by
  induction n generalizing a b with
  | zero => exact Nat.le_refl _
  | succ n ih =>
    unfold memmismatch
    split
    · have := ih a.tail b.tail
      omega
    · exact Nat.zero_le _

theorem key_coherent_of_same (H : Headers) (w w1 : fake_wiimote_t)
    (hk : w1.extension_key = w.extension_key)
    (hd : w1.extension_key_dirty = w.extension_key_dirty)
    (hr : memread w1.extension_regs H.OFFSET_encryption_key_data
        H.SIZEOF_encryption_key_data =
      memread w.extension_regs H.OFFSET_encryption_key_data H.SIZEOF_encryption_key_data)
    (h : key_coherent H w) : key_coherent H w1 := by
  unfold key_coherent at h ⊢
  rw [hk, hd, hr]
  exact h

theorem extension_write_data_coherent (H : Headers) (c : Nat) (w : fake_wiimote_t)
    (src : List Nat) (address size : Nat) (hl : key_layout H c) (h : key_coherent H w) :
    key_coherent H (extension_write_data H w src address size).2 := by
  unfold extension_write_data
  split
  · exact h
  · dsimp only
    split
    · intro hd
      cases hd
    · rename_i h2 h3
      refine key_coherent_of_same H w _ rfl rfl ?_ h
      apply memread_memwrite_apart
      obtain ⟨⟨l1, l2⟩, -, -⟩ := hl
      have : ¬ (address + size > H.ENCRYPTION_KEY_DATA_BEGIN ∧
          address < H.ENCRYPTION_KEY_DATA_END) := h3
      omega

theorem extension_read_data_coherent (H : Headers) (w : fake_wiimote_t)
    (address size : Nat) (h : key_coherent H w) :
    key_coherent H (extension_read_data H w address size).2.2 := by
  unfold extension_read_data
  split
  · exact h
  · dsimp only
    split
    · split
      · intro _
        rfl
      · exact h
    · exact h

theorem extension_change_coherent (H : Headers) (c : Nat) (w : fake_wiimote_t)
    (hl : key_layout H c) (h : key_coherent H w) :
    key_coherent H (extension_change_applied H w) := by
  refine key_coherent_of_same H w _ rfl rfl ?_ h
  unfold extension_change_applied
  dsimp only
  split
  · apply memread_memwrite_apart
    exact hl.2.1
  · rfl

theorem report_input_ext_coherent (H : Headers) (c : Nat) (w : fake_wiimote_t)
    (buttons : Nat) (ext_data : List Nat) (ext_size : Nat) (hc : ext_size ≤ c)
    (hl : key_layout H c) (h : key_coherent H w) :
    key_coherent H (fake_wiimote_mgr_report_input_ext H w buttons ext_data ext_size) := by
  unfold fake_wiimote_mgr_report_input_ext
  dsimp only
  split
  · split
    · refine key_coherent_of_same H w _ rfl rfl ?_ h
      apply memread_memwrite_apart
      have hm := memmismatch_le
        (memread w.extension_regs H.OFFSET_controller_data ext_size) ext_data ext_size
      have := hl.2.2
      omega
    · exact key_coherent_of_same H w _ rfl rfl rfl h
  · exact h

theorem exec_key_step_coherent (H : Headers) (E : Env) (fw : List fake_wiimote_t) (i c : Nat)
    (s : fake_wiimote_t × world_t) (st : key_step) (hl : key_layout H c)
    (hw : st.within c = true) (h : key_coherent H s.1) :
    ∃ s1, exec_key_step H E fw i s st = some s1 ∧ key_coherent H s1.1 := by
  cases st with
  | write src address size =>
    exact ⟨_, rfl, extension_write_data_coherent H c s.1 src address size hl h⟩
  | read address size =>
    exact ⟨_, rfl, extension_read_data_coherent H s.1 address size h⟩
  | extension_change ext =>
    have h1 : key_coherent H (fake_wiimote_mgr_set_extension s.1 ext) :=
      key_coherent_of_same H s.1 _ rfl rfl rfl h
    simp only [exec_key_step]
    by_cases he : (fake_wiimote_mgr_set_extension s.1 ext).new_extension =
        (fake_wiimote_mgr_set_extension s.1 ext).cur_extension
    · rw [process_extension_change_idle H E s.2 fw i _ he]
      exact ⟨_, rfl, h1⟩
    · rw [process_extension_change_step H E s.2 fw i _ he]
      exact ⟨_, rfl, extension_change_coherent H c _ hl h1⟩
  | report_input_ext buttons ext_data ext_size =>
    have hc : ext_size ≤ c := by
      simpa [key_step.within] using hw
    exact ⟨_, rfl, report_input_ext_coherent H c s.1 buttons ext_data ext_size hc hl h⟩

theorem exec_key_coherent (H : Headers) (E : Env) (fw : List fake_wiimote_t) (i c : Nat)
    (hl : key_layout H c) (steps : List key_step) :
    ∀ s : fake_wiimote_t × world_t, (∀ st ∈ steps, st.within c = true) →
      key_coherent H s.1 →
      ∃ s1, exec_key H E fw i s steps = some s1 ∧ key_coherent H s1.1 := by
  induction steps with
  | nil =>
    intro s _ h
    exact ⟨s, rfl, h⟩
  | cons st rest ih =>
    intro s hw h
    obtain ⟨s1, e1, h1⟩ := exec_key_step_coherent H E fw i c s st hl
      (hw st (List.mem_cons_self _ _)) h
    obtain ⟨s2, e2, h2⟩ := ih s1 (fun x hx => hw x (List.mem_cons_of_mem _ hx)) h1
    refine ⟨s2, ?_, h2⟩
    unfold exec_key
    rw [e1]
    exact e2

/-- C29. Key-cache coherence (with the layout `key_layout` of the register
window): from the state `fake_wiimote_mgr_add_input_device` gives a session,
every sequence of `extension_write_data`, `extension_read_data`,
extension-change materialisations and `fake_wiimote_mgr_report_input_ext` calls
whose `ext_size` stays within the `controller_data` area runs to a state in
which `extension_key_dirty == false` implies that the cached key is the key
derived from the key data now in the window; hence every successful encrypted
read in that state produces the window bytes encrypted with the key derived
from the seed now in the window. -/
theorem C29_key_cache_coherent (H : Headers) (E : Env) (fw : List fake_wiimote_t)
    (i size_controller_data usrdata : Nat) (ops : input_device_ops_t) (w0 : fake_wiimote_t)
    (W0 : world_t) (steps : List key_step)
    (hl : key_layout H size_controller_data)
    (hw : ∀ st ∈ steps, st.within size_controller_data = true) :
    ∃ s, exec_key H E fw i (add_input_device_assign H usrdata ops w0, W0) steps = some s ∧
      key_coherent H s.1 ∧
      ∀ address size, address + size ≤ 256 →
        s.1.extension_regs.getD H.OFFSET_encryption 0 = H.ENCRYPTION_ENABLED →
        (extension_read_data H s.1 address size).2.1 =
          H.wiimote_crypto_encrypt (memread s.1.extension_regs address size)
            (H.wiimote_crypto_generate_key_from_extension_key_data
              (memread s.1.extension_regs H.OFFSET_encryption_key_data
                H.SIZEOF_encryption_key_data)) address size := by
  have h0 : key_coherent H (add_input_device_assign H usrdata ops w0) := by
    intro hd
    cases hd
  obtain ⟨s, hs, hk⟩ := exec_key_coherent H E fw i size_controller_data hl steps
    (add_input_device_assign H usrdata ops w0, W0) hw h0
  refine ⟨s, hs, hk, ?_⟩
  intro address size hb he
  have h2 : ¬ address + size > EXTENSION_REGS_SIZE := by
    unfold EXTENSION_REGS_SIZE
    omega
  unfold extension_read_data
  rw [if_neg h2]
  dsimp only
  rw [if_pos he]
  cases hd : s.1.extension_key_dirty
  · simp only [Bool.false_eq_true, if_false]
    rw [hk hd]
  · simp only [if_true]

set_option maxRecDepth 1000000 in
/-- C29 at a concrete input, with the stand-in derivation (the key is the seed):
after the run `steps_key` the key is clean again and equal to the seed in the
window, whose byte at 0x45 is the 0x63 written last. -/
theorem C29_key_cache_coherent_witness :
    ∃ s, exec_key wii env_ok [wiimote_fresh] 0 (wiimote_fresh, world_init) steps_key =
        some s ∧
      s.1.extension_key_dirty = false ∧
      s.1.extension_key = [1, 2, 3, 4, 5, 0x63, 7, 8, 9, 10, 11, 12, 13, 14, 15, 16] ∧
      key_coherent wii s.1 := by
  have hm : (exec_key wii env_ok [wiimote_fresh] 0 (wiimote_fresh, world_init)
      steps_key).map (fun s => (s.1.extension_key_dirty, s.1.extension_key)) =
      some (false, [1, 2, 3, 4, 5, 0x63, 7, 8, 9, 10, 11, 12, 13, 14, 15, 16]) := by
    decide
  obtain ⟨s, hs, hk, -⟩ := C29_key_cache_coherent wii env_ok [wiimote_fresh] 0 21 7 ops_all
    { wiimote_zero with bdaddr := wii.FAKE_WIIMOTE_BDADDR 0 } world_init steps_key
    (by unfold key_layout; decide) (by decide)
  have hs2 : exec_key wii env_ok [wiimote_fresh] 0 (wiimote_fresh, world_init) steps_key =
      some s := hs
  rw [hs2] at hm
  have h2 := Option.some.inj hm
  simp only [Prod.mk.injEq] at h2
  exact ⟨s, hs2, h2.1, h2.2, hk⟩

/-! ## C7: channels whose state field is Complete -/

end Fakemote
